import Mathlib

/-!
# BlitzenEngine0: the Vulkan frame pipeline

A shallow embedding of `src/BlitzenVulkan/vulkanInit.cpp` and
`src/BlitzenVulkan/vulkanRenderer.cpp`.

* A command buffer is the list of commands recorded into it, oldest first; every
  `vkCmd*` call (and every call of a recording helper) appends one command.
* `uint32_t` and `uint8_t` values are natural numbers; where the source can wrap,
  the reduction modulo `2 ^ 32` or `2 ^ 8` is written out.
* Stage and access masks are the numeric bit masks of `vulkan_core.h`, so that the
  `|` of the source is the bitwise or of natural numbers.
* Handles owned by the renderer (buffers, images, views, pipelines) are named after
  the renderer member that holds them.
-/

namespace BlitzenVulkan

/-! ## Vulkan constants and plain data (`vulkan_core.h`) -/

def UINT32_MAX : Nat := 2 ^ 32 - 1
def VK_REMAINING_MIP_LEVELS : Nat := 2 ^ 32 - 1
def VK_WHOLE_SIZE : Nat := 2 ^ 64 - 1

def VK_PIPELINE_STAGE_2_NONE : Nat := 0
def VK_PIPELINE_STAGE_2_DRAW_INDIRECT_BIT : Nat := 0x2
def VK_PIPELINE_STAGE_2_VERTEX_SHADER_BIT : Nat := 0x8
def VK_PIPELINE_STAGE_2_EARLY_FRAGMENT_TESTS_BIT : Nat := 0x100
def VK_PIPELINE_STAGE_2_LATE_FRAGMENT_TESTS_BIT : Nat := 0x200
def VK_PIPELINE_STAGE_2_COLOR_ATTACHMENT_OUTPUT_BIT : Nat := 0x400
def VK_PIPELINE_STAGE_2_COMPUTE_SHADER_BIT : Nat := 0x800
def VK_PIPELINE_STAGE_2_TRANSFER_BIT : Nat := 0x1000
def VK_PIPELINE_STAGE_2_ALL_GRAPHICS_BIT : Nat := 0x8000
def VK_PIPELINE_STAGE_2_ALL_COMMANDS_BIT : Nat := 0x10000
def VK_PIPELINE_STAGE_2_BLIT_BIT : Nat := 0x400000000

def VK_ACCESS_2_NONE : Nat := 0
def VK_ACCESS_2_INDIRECT_COMMAND_READ_BIT : Nat := 0x1
def VK_ACCESS_2_SHADER_READ_BIT : Nat := 0x20
def VK_ACCESS_2_SHADER_WRITE_BIT : Nat := 0x40
def VK_ACCESS_2_COLOR_ATTACHMENT_READ_BIT : Nat := 0x80
def VK_ACCESS_2_COLOR_ATTACHMENT_WRITE_BIT : Nat := 0x100
def VK_ACCESS_2_DEPTH_STENCIL_ATTACHMENT_READ_BIT : Nat := 0x200
def VK_ACCESS_2_DEPTH_STENCIL_ATTACHMENT_WRITE_BIT : Nat := 0x400
def VK_ACCESS_2_TRANSFER_READ_BIT : Nat := 0x800
def VK_ACCESS_2_TRANSFER_WRITE_BIT : Nat := 0x1000
def VK_ACCESS_2_MEMORY_READ_BIT : Nat := 0x8000
def VK_ACCESS_2_MEMORY_WRITE_BIT : Nat := 0x10000
/-- The first-generation access bits, which the visibility barriers use. -/
def VK_ACCESS_MEMORY_READ_BIT : Nat := 0x8000
def VK_ACCESS_MEMORY_WRITE_BIT : Nat := 0x10000

def VK_IMAGE_ASPECT_COLOR_BIT : Nat := 0x1
def VK_IMAGE_ASPECT_DEPTH_BIT : Nat := 0x2
def VK_SHADER_STAGE_COMPUTE_BIT : Nat := 0x20

def VK_FORMAT_B8G8R8A8_UNORM : Nat := 44
def VK_FORMAT_R32_SFLOAT : Nat := 100
def VK_COLOR_SPACE_SRGB_NONLINEAR_KHR : Nat := 0
def VK_PRESENT_MODE_FIFO_KHR : Nat := 2

/-- Values of `VkResult`, a signed enumeration. -/
def VK_SUCCESS : Int := 0
def VK_SUBOPTIMAL_KHR : Int := 1000001003
def VK_ERROR_OUT_OF_DATE_KHR : Int := -1000001004

/-- `VK_API_VERSION_1_3`, which is `VK_MAKE_API_VERSION(0, 1, 3, 0)`. -/
def VK_API_VERSION_1_3 : Nat := 1 * 2 ^ 22 + 3 * 2 ^ 12
def VK_PHYSICAL_DEVICE_TYPE_INTEGRATED_GPU : Nat := 1
def VK_PHYSICAL_DEVICE_TYPE_DISCRETE_GPU : Nat := 2

inductive VkImageLayout where
  | VK_IMAGE_LAYOUT_UNDEFINED
  | VK_IMAGE_LAYOUT_GENERAL
  | VK_IMAGE_LAYOUT_COLOR_ATTACHMENT_OPTIMAL
  | VK_IMAGE_LAYOUT_DEPTH_STENCIL_ATTACHMENT_OPTIMAL
  | VK_IMAGE_LAYOUT_SHADER_READ_ONLY_OPTIMAL
  | VK_IMAGE_LAYOUT_TRANSFER_SRC_OPTIMAL
  | VK_IMAGE_LAYOUT_TRANSFER_DST_OPTIMAL
  | VK_IMAGE_LAYOUT_DEPTH_ATTACHMENT_OPTIMAL
  | VK_IMAGE_LAYOUT_PRESENT_SRC_KHR
deriving DecidableEq, Repr

inductive VkAttachmentLoadOp where
  | VK_ATTACHMENT_LOAD_OP_LOAD
  | VK_ATTACHMENT_LOAD_OP_CLEAR
deriving DecidableEq, Repr

inductive VkAttachmentStoreOp where
  | VK_ATTACHMENT_STORE_OP_STORE
  | VK_ATTACHMENT_STORE_OP_DONT_CARE
deriving DecidableEq, Repr

inductive VkPipelineBindPoint where
  | VK_PIPELINE_BIND_POINT_GRAPHICS
  | VK_PIPELINE_BIND_POINT_COMPUTE
deriving DecidableEq, Repr

inductive VkDescriptorType where
  | VK_DESCRIPTOR_TYPE_COMBINED_IMAGE_SAMPLER
  | VK_DESCRIPTOR_TYPE_STORAGE_IMAGE
deriving DecidableEq, Repr

inductive VkFilter where
  | VK_FILTER_NEAREST
  | VK_FILTER_LINEAR
deriving DecidableEq, Repr

inductive VkIndexType where
  | VK_INDEX_TYPE_UINT16
  | VK_INDEX_TYPE_UINT32
deriving DecidableEq, Repr

open VkImageLayout VkAttachmentLoadOp VkAttachmentStoreOp VkPipelineBindPoint
  VkDescriptorType VkFilter VkIndexType

structure VkExtent2D where
  width : Nat
  height : Nat
deriving DecidableEq, Repr

structure VkOffset2D where
  x : Int
  y : Int
deriving DecidableEq, Repr

/-- The four 32-bit words of a `VkClearColorValue`; a `float32` member is held as
its IEEE-754 binary32 bit pattern. -/
structure VkClearColorValue where
  w0 : Nat
  w1 : Nat
  w2 : Nat
  w3 : Nat
deriving DecidableEq, Repr

/-- A `VkClearDepthStencilValue`: the bit pattern of `float depth`, then
`uint32_t stencil`. -/
structure VkClearDepthStencilValue where
  depth : Nat
  stencil : Nat
deriving DecidableEq, Repr

/-- `VkClearValue` is a C `union` of `VkClearColorValue color` and
`VkClearDepthStencilValue depthStencil`: one block of four words, of which
`depthStencil` occupies the first two. The structure holds those four words. -/
structure VkClearValue where
  color : VkClearColorValue
deriving DecidableEq, Repr

/-- The assignment `clearValue.color = c`. -/
def VkClearValue.assignColor (_v : VkClearValue) (c : VkClearColorValue) : VkClearValue :=
  { color := c }

/-- The assignment `clearValue.depthStencil = d`, which overwrites the first two
words of the union and leaves the last two. -/
def VkClearValue.assignDepthStencil (v : VkClearValue) (d : VkClearDepthStencilValue) :
    VkClearValue :=
  { color := { w0 := d.depth, w1 := d.stencil, w2 := v.color.w2, w3 := v.color.w3 } }

/-- Reading the member `clearValue.depthStencil` of the union. -/
def VkClearValue.depthStencil (v : VkClearValue) : VkClearDepthStencilValue :=
  { depth := v.color.w0, stencil := v.color.w1 }

/-- Bit patterns of the `float` literals `0.1f`, `0.2f`, `0.3f` and `0`. -/
def F32_0_1 : Nat := 0x3DCCCCCD
def F32_0_2 : Nat := 0x3E4CCCCD
def F32_0_3 : Nat := 0x3E99999A
def F32_0 : Nat := 0

/-! ## Handles of the renderer -/

/-- The buffers of `m_currentStaticBuffers` that the frame commands name. -/
inductive VkBuffer where
  | indirectCountBuffer
  | indirectDrawBuffer
  | indirectTaskBuffer
  | visibilityBuffer
  | indexBuffer
deriving DecidableEq, Repr

/-- The images the frame commands name. -/
inductive VkImage where
  | m_colorAttachment
  | m_depthAttachment
  | m_depthPyramid
  | swapchainImages (swapchainIdx : Nat)
deriving DecidableEq, Repr

/-- The image views the frame commands name: `m_depthPyramidMips i` is the view of
mip level `i` of the depth pyramid. -/
inductive VkImageView where
  | m_colorAttachment
  | m_depthAttachment
  | m_depthPyramid
  | m_depthPyramidMips (i : Nat)
deriving DecidableEq, Repr

inductive VkSampler where
  | m_depthAttachmentSampler
  | m_placeholderSampler
deriving DecidableEq, Repr

inductive VkPipeline where
  | m_initialDrawCullPipeline
  | m_lateDrawCullPipeline
  | m_depthPyramidGenerationPipeline
  | m_opaqueGeometryPipeline
  | m_postPassGeometryPipeline
deriving DecidableEq, Repr

inductive VkPipelineLayout where
  | m_drawCullPipelineLayout
  | m_opaqueGeometryPipelineLayout
  | m_depthPyramidGenerationPipelineLayout
deriving DecidableEq, Repr

/-- The storage buffers whose descriptor write is built once at setup. -/
inductive StaticBuffer where
  | vertexBuffer
  | renderObjectBuffer
  | transformBuffer
  | materialBuffer
  | indirectDrawBuffer
  | indirectCountBuffer
  | visibilityBuffer
  | surfaceBuffer
deriving DecidableEq, Repr

/-- A `VkWriteDescriptorSet` as the renderer builds them: the empty write `{}`, the
view-data uniform of one frame in flight, the write of a static buffer, or an
image write made by `WriteImageDescriptorSets(write, info, type, set, binding,
layout, view, sampler)`. -/
inductive VkWriteDescriptorSet where
  | empty
  | viewDataBuffer (frame : Nat)
  | staticBuffer (b : StaticBuffer)
  | image (descriptorType : VkDescriptorType) (binding : Nat) (imageLayout : VkImageLayout)
      (imageView : VkImageView) (sampler : Option VkSampler)
deriving DecidableEq, Repr

/-- The arguments of one `BufferMemoryBarrier(buffer, barrier, srcStage, srcAccess,
dstStage, dstAccess, offset, size)` call. -/
structure VkBufferMemoryBarrier2 where
  buffer : VkBuffer
  srcStageMask : Nat
  srcAccessMask : Nat
  dstStageMask : Nat
  dstAccessMask : Nat
  offset : Nat
  size : Nat
deriving DecidableEq, Repr

/-- The arguments of one `ImageMemoryBarrier(image, barrier, srcStage, srcAccess,
dstStage, dstAccess, oldLayout, newLayout, aspect, baseMip, levelCount)` call. -/
structure VkImageMemoryBarrier2 where
  image : VkImage
  srcStageMask : Nat
  srcAccessMask : Nat
  dstStageMask : Nat
  dstAccessMask : Nat
  oldLayout : VkImageLayout
  newLayout : VkImageLayout
  aspectMask : Nat
  baseMipLevel : Nat
  levelCount : Nat
deriving DecidableEq, Repr

/-- A `VkRenderingAttachmentInfo` as `CreateRenderingAttachmentInfo` fills it. -/
structure VkRenderingAttachmentInfo where
  imageView : VkImageView
  imageLayout : VkImageLayout
  loadOp : VkAttachmentLoadOp
  storeOp : VkAttachmentStoreOp
  clearValue : VkClearValue
deriving DecidableEq, Repr

/-- The `VkImageSubresourceLayers` braces passed to `CopyImageToImage`. -/
structure VkImageSubresourceLayers where
  aspectMask : Nat
  mipLevel : Nat
  baseArrayLayer : Nat
  layerCount : Nat
deriving DecidableEq, Repr

/-- The two push-constant blocks of the frame: `DrawCullShaderPushConstant
{drawCount, postPass, bOcclusionEnabled, bLODs}` and the `BlitML::vec2` built from
the `uint32_t` level extent (each component is the `float` of the integer held
here). -/
inductive PushConstant where
  | DrawCullShaderPushConstant (drawCount postPass bOcclusionEnabled bLODs : Nat)
  | pyramidLevelExtentPushConstant (levelWidth levelHeight : Nat)
deriving DecidableEq, Repr

/-- One recorded command. `PipelineBarrier` and `CopyImageToImage` are the
renderer's recording helpers of those names (a `vkCmdPipelineBarrier2` with the
first `count` barriers of each array, and the image blit); the memory-barrier
array of `PipelineBarrier` is empty at every call site (`0, nullptr`). -/
inductive Cmd where
  | PipelineBarrier (bufferBarriers : List VkBufferMemoryBarrier2)
      (imageBarriers : List VkImageMemoryBarrier2)
  | vkCmdFillBuffer (dstBuffer : VkBuffer) (dstOffset size data : Nat)
  | vkCmdBindPipeline (bindPoint : VkPipelineBindPoint) (pipeline : VkPipeline)
  | vkCmdPushConstants (layout : VkPipelineLayout) (stageFlags offset : Nat)
      (values : PushConstant)
  | vkCmdDispatch (groupCountX groupCountY groupCountZ : Nat)
  | vkCmdPushDescriptorSetKHR (bindPoint : VkPipelineBindPoint) (layout : VkPipelineLayout)
      (set : Nat) (writes : List VkWriteDescriptorSet)
  | vkCmdSetViewport (x y width height : Int) (minDepth maxDepth : Int)
  | vkCmdSetScissor (offset : VkOffset2D) (extent : VkExtent2D)
  | vkCmdBeginRendering (renderAreaExtent : VkExtent2D) (renderAreaOffset : VkOffset2D)
      (colorAttachments : List VkRenderingAttachmentInfo)
      (depthAttachment : Option VkRenderingAttachmentInfo)
      (stencilAttachment : Option VkRenderingAttachmentInfo) (viewMask layerCount : Nat)
  | vkCmdBindDescriptorSets (bindPoint : VkPipelineBindPoint) (layout : VkPipelineLayout)
      (firstSet descriptorSetCount : Nat)
  | vkCmdBindIndexBuffer (buffer : VkBuffer) (offset : Nat) (indexType : VkIndexType)
  | vkCmdDrawIndexedIndirectCount (buffer : VkBuffer) (offset : Nat) (countBuffer : VkBuffer)
      (countBufferOffset maxDrawCount stride : Nat)
  | vkCmdDrawMeshTasksIndirectCountEXT (buffer : VkBuffer) (offset : Nat)
      (countBuffer : VkBuffer) (countBufferOffset maxDrawCount stride : Nat)
  | vkCmdEndRendering
  | CopyImageToImage (srcImage : VkImage) (srcLayout : VkImageLayout) (dstImage : VkImage)
      (dstLayout : VkImageLayout) (srcImageSize dstImageSize : VkExtent2D)
      (srcImageSL dstImageSL : VkImageSubresourceLayers) (filter : VkFilter)
deriving DecidableEq, Repr

/-- A command buffer: the commands recorded so far, oldest first. -/
abbrev VkCommandBuffer := List Cmd

/-! ## Declarations of the headers, and answers of the driver

The headers of the renderer and the Vulkan driver are not part of the translated
sources. What the translated functions read from them is kept as a parameter. -/

/-- Constants and default arguments declared in the renderer's headers. -/
structure Header where
  /-- `BLITZEN_VULKAN_MAX_FRAMES_IN_FLIGHT`. -/
  BLITZEN_VULKAN_MAX_FRAMES_IN_FLIGHT : Nat
  /-- `DESIRED_SWAPCHAIN_PRESENTATION_MODE`. -/
  DESIRED_SWAPCHAIN_PRESENTATION_MODE : Nat
  /-- `sizeof(IndirectDrawData)` and `offsetof(IndirectDrawData, drawIndirect)`. -/
  sizeof_IndirectDrawData : Nat
  offsetof_IndirectDrawData_drawIndirect : Nat
  /-- `sizeof(IndirectTaskData)` and `offsetof(IndirectTaskData, drawIndirectTasks)`. -/
  sizeof_IndirectTaskData : Nat
  offsetof_IndirectTaskData_drawIndirectTasks : Nat
  /-- The default argument of the parameter `clearValueDepth` of
  `CreateRenderingAttachmentInfo`, used by the call that passes no depth value. -/
  clearValueDepth_default : VkClearDepthStencilValue
  /-- Whether `NDEBUG` is defined for the build. -/
  NDEBUG : Bool
  /-- `sizeof(BlitzenEngine::Vertex)`, `sizeof(BlitzenEngine::RenderObject)`,
  `sizeof(BlitzenEngine::PrimitiveSurface)`, `sizeof(BlitzenEngine::Material)`,
  `sizeof(BlitzenEngine::MeshTransform)` and `sizeof(BlitzenEngine::Meshlet)`. -/
  sizeof_Vertex : Nat
  sizeof_RenderObject : Nat
  sizeof_PrimitiveSurface : Nat
  sizeof_Material : Nat
  sizeof_MeshTransform : Nat
  sizeof_Meshlet : Nat
  /-- The value (`0` or `1`) of the macro `BLITZEN_VULKAN_MESH_SHADER`. -/
  BLITZEN_VULKAN_MESH_SHADER : Nat
deriving Repr

structure VkSurfaceFormatKHR where
  format : Nat
  colorSpace : Nat
deriving DecidableEq, Repr

structure VkSurfaceCapabilitiesKHR where
  minImageCount : Nat
  maxImageCount : Nat
  currentExtent : VkExtent2D
  minImageExtent : VkExtent2D
  maxImageExtent : VkExtent2D
  currentTransform : Nat
deriving DecidableEq, Repr

/-- What the Vulkan loader and driver answer to the renderer's queries; a `Bool`
named `..._ok` is `true` when the call returns `VK_SUCCESS` (a non-null handle,
a non-zero result). -/
structure Driver where
  /-- `vkGetInstanceProcAddr(instance, "vkCmdPushDescriptorSetKHR") != nullptr`. -/
  vkCmdPushDescriptorSetKHR_loaded : Bool
  /-- `vkGetInstanceProcAddr(instance, "vkCmdDrawMeshTasksIndirectCountEXT") != nullptr`. -/
  vkCmdDrawMeshTasksIndirectCountEXT_loaded : Bool
  surfaceFormatsCount_ok : Bool
  surfaceFormats_ok : Bool
  surfaceFormats : List VkSurfaceFormatKHR
  presentModeCount_ok : Bool
  presentModes_ok : Bool
  presentModes : List Nat
  surfaceCapabilities_ok : Bool
  surfaceCapabilities : VkSurfaceCapabilitiesKHR
  vkCreateSwapchainKHR_ok : Bool
  /-- The handle `vkCreateSwapchainKHR` writes on success. -/
  createdSwapchain : Nat
  swapchainImageCount_ok : Bool
  swapchainImages_ok : Bool
  swapchainImageCount : Nat
  /-- `CreateImage` for the depth pyramid, and `CreateImageView` for its mip `i`. -/
  CreateImage_ok : Bool
  CreateImageView_ok : Nat → Bool
  /-- The `VkResult` returned by `vkAcquireNextImageKHR` and by `vkQueuePresentKHR`
  in a frame. -/
  vkAcquireNextImageKHR_result : Int
  vkQueuePresentKHR_result : Int

/-! ## State of the renderer -/

/-- The part of `InitializationHandles` that `CreateSwapchain` writes. -/
structure InitializationHandles where
  /-- The swapchain handle; `0` is `VK_NULL_HANDLE`. -/
  swapchain : Nat
  swapchainExtent : VkExtent2D
  swapchainFormat : Nat
  /-- The size of the array `swapchainImages`. -/
  swapchainImageCount : Nat
deriving DecidableEq, Repr

/-- The fields of `BlitzenEngine::CameraViewData` that the renderer tells apart:
the projection-view matrix, the pyramid extent (two `float`s, each holding the
integer kept here) and all remaining fields together. Matrices and the remaining
fields are tokens: the renderer only copies them. -/
structure CameraViewData where
  projectionViewMatrix : Nat
  pyramidWidth : Nat
  pyramidHeight : Nat
  others : Nat
deriving DecidableEq, Repr

/-- The fields of the camera's `transformData` that `DrawFrame` reads; the window
size is the value of `uint32_t(windowWidth)`, `uint32_t(windowHeight)`. -/
structure CameraTransformData where
  windowResize : Nat
  windowWidth : Nat
  windowHeight : Nat
  freezeFrustum : Nat
deriving DecidableEq, Repr

structure Camera where
  transformData : CameraTransformData
  viewData : CameraViewData
deriving DecidableEq, Repr

/-- The `DrawContext` passed to `DrawFrame`, its camera included. -/
structure DrawContext where
  pCamera : Camera
  drawCount : Nat
  bOcclusionCulling : Nat
  bLOD : Nat
deriving DecidableEq, Repr

/-- One element of the array `loadedTextures`: the image handle (`0` while no image
was created in the slot) and the sampler. -/
structure LoadedTexture where
  image : Nat
  sampler : Option VkSampler
deriving DecidableEq, Repr

/-- The members of `VulkanRenderer` that the translated functions read or write.
Arrays indexed by the frame in flight are functions of the index. -/
structure VulkanRenderer where
  m_currentFrame : Nat
  m_drawExtent : VkExtent2D
  m_depthPyramidExtent : VkExtent2D
  m_depthPyramidMipLevels : Nat
  /-- The latched flag `m_stats.meshShaderSupport`. -/
  meshShaderSupport : Nat
  m_initHandles : InitializationHandles
  /-- Queue family indices `m_graphicsQueue.index`, `m_presentQueue.index`. -/
  graphicsQueueIndex : Nat
  presentQueueIndex : Nat
  pushDescriptorWritesGraphics : List VkWriteDescriptorSet
  pushDescriptorWritesCompute : List VkWriteDescriptorSet
  /-- The commands held by `m_frameToolsList[i].commandBuffer`. -/
  commandBuffer : Nat → VkCommandBuffer
  /-- The mapped contents `*(m_varBuffers[i].viewDataBuffer.pData)`. -/
  viewDataBuffer : Nat → CameraViewData
  /-- The number of textures uploaded so far, and the array `loadedTextures`. -/
  textureCount : Nat
  loadedTextures : Nat → LoadedTexture

/-! ## Depth pyramid (`vulkanInit.cpp`, `CreateDepthPyramid`) -/

/-- Modelled from the spec: `BlitML::PreviousPow2` is declared in the math library,
which is not among the translated sources. The specification calls the pyramid
extent "the previous power of two of the draw extent in each dimension", a power of
two that is "≤ current draw extent" and "≥ 1": the greatest power of two not above
`v` (and `1` for `v = 0`). -/
def PreviousPow2 (v : Nat) : Nat := 2 ^ Nat.log 2 v

/-- Modelled from the spec: `BlitML::Max`, the maximum of two `uint32_t`
(`max(1, pyramidW>>i)` in the specification). -/
def Max (a b : Nat) : Nat := if a < b then b else a

/-- Modelled from the spec: `BlitCL::Clamp(value, max, min)`, "extent clamped into
the surface's min/max capability". -/
def Clamp (value max min : Nat) : Nat :=
  if value ≤ min then min else if max ≤ value then max else value

/-- The counting loop of `CreateDepthPyramid`:
`while(width > 1 || height > 1) { depthPyramidMipLevels++; width /= 2; height /= 2; }`
with the `uint8_t` counter. -/
def mipLevelLoop (width height depthPyramidMipLevels : Nat) : Nat :=
  if width > 1 ∨ height > 1 then
    mipLevelLoop (width / 2) (height / 2) ((depthPyramidMipLevels + 1) % 256)
  else depthPyramidMipLevels
termination_by width + height
decreasing_by
  simp_wf
  omega

/-- One pass through the body of that loop, on the pair `(width, height)`:
`width /= 2; height /= 2`. -/
def halveBoth (e : Nat × Nat) : Nat × Nat := (e.1 / 2, e.2 / 2)

/-- What `CreateDepthPyramid` leaves in its reference parameters, and its return
value. -/
structure DepthPyramidResult where
  result : Nat
  depthPyramidExtent : VkExtent2D
  depthPyramidMipLevels : Nat
  /-- Whether `CreateSampler` was called for `depthAttachmentSampler`. -/
  samplerCreated : Bool

/-- `CreateDepthPyramid`: the extent is the previous power of two of the draw
extent, the mip count comes from the halving loop started at `0`; the image and one
view per mip level are then created, and the first failure returns `0`. -/
def CreateDepthPyramid (d : Driver) (drawExtent : VkExtent2D) (createSampler : Nat) :
    DepthPyramidResult :=
  let depthPyramidExtent : VkExtent2D :=
    { width := PreviousPow2 drawExtent.width, height := PreviousPow2 drawExtent.height }
  let depthPyramidMipLevels := mipLevelLoop depthPyramidExtent.width depthPyramidExtent.height 0
  let result :=
    if !d.CreateImage_ok then 0
    else if (List.range depthPyramidMipLevels).all d.CreateImageView_ok then 1
    else 0
  { result := result
    depthPyramidExtent := depthPyramidExtent
    depthPyramidMipLevels := depthPyramidMipLevels
    samplerCreated := createSampler != 0 }

/-! ## Swapchain (`vulkanInit.cpp`, `CreateSwapchain`; `vulkanRenderer.cpp`,
`RecreateSwapchain`) -/

/-- The fields of the `VkSwapchainCreateInfoKHR` that depend on the surface. -/
structure VkSwapchainCreateInfoKHR where
  imageFormat : Nat
  imageColorSpace : Nat
  presentMode : Nat
  imageExtent : VkExtent2D
  minImageCount : Nat
  preTransform : Nat
  /-- `true` for `VK_SHARING_MODE_CONCURRENT`, `false` for `VK_SHARING_MODE_EXCLUSIVE`. -/
  concurrent : Bool
  queueFamilyIndexCount : Nat
  oldSwapchain : Nat
deriving DecidableEq, Repr

/-- The format search of `CreateSwapchain`: the wanted pair if the loop finds it,
else entry `0` of the array (the source reads entry `0` of an empty array too; the
zero format stands for what it finds there). -/
def chooseSurfaceFormat (surfaceFormats : List VkSurfaceFormatKHR) : VkSurfaceFormatKHR :=
  if surfaceFormats.any (fun f => f.format == VK_FORMAT_B8G8R8A8_UNORM &&
      f.colorSpace == VK_COLOR_SPACE_SRGB_NONLINEAR_KHR) then
    { format := VK_FORMAT_B8G8R8A8_UNORM, colorSpace := VK_COLOR_SPACE_SRGB_NONLINEAR_KHR }
  else
    surfaceFormats.headD { format := 0, colorSpace := 0 }

/-- The present-mode search of `CreateSwapchain`. -/
def choosePresentMode (hdr : Header) (presentModes : List Nat) : Nat :=
  if presentModes.any (fun m => m == hdr.DESIRED_SWAPCHAIN_PRESENTATION_MODE) then
    hdr.DESIRED_SWAPCHAIN_PRESENTATION_MODE
  else VK_PRESENT_MODE_FIFO_KHR

/-- The image count block of `CreateSwapchain` (`uint32_t` arithmetic). -/
def chooseImageCount (caps : VkSurfaceCapabilitiesKHR) : Nat :=
  let imageCount := (caps.minImageCount + 1) % 2 ^ 32
  if caps.maxImageCount > 0 ∧ caps.maxImageCount < imageCount then caps.maxImageCount
  else imageCount

/-- The extent block of `CreateSwapchain`. -/
def chooseSwapchainExtent (caps : VkSurfaceCapabilitiesKHR) (windowWidth windowHeight : Nat) :
    VkExtent2D :=
  let e : VkExtent2D :=
    if caps.currentExtent.width ≠ UINT32_MAX then caps.currentExtent
    else { width := windowWidth, height := windowHeight }
  { width := Clamp e.width caps.maxImageExtent.width caps.minImageExtent.width
    height := Clamp e.height caps.maxImageExtent.height caps.minImageExtent.height }

/-- What `CreateSwapchain` returns and leaves behind: its result, the init handles,
the handle written to `newSwapchain`, and the create info when the creation call
was reached. -/
structure SwapchainResult where
  result : Nat
  initHandles : InitializationHandles
  newSwapchain : Nat
  swapchainInfo : Option VkSwapchainCreateInfoKHR
deriving DecidableEq, Repr

/-- `CreateSwapchain`. Each early `return 0` keeps what was written to the init
handles before it. `newSwapchain` is the value of the reference parameter on entry. -/
def CreateSwapchain (hdr : Header) (d : Driver) (initHandles : InitializationHandles)
    (windowWidth windowHeight graphicsQueueIndex presentQueueIndex : Nat)
    (newSwapchain oldSwapchain : Nat) : SwapchainResult :=
  if !d.surfaceFormatsCount_ok || !d.surfaceFormats_ok then
    { result := 0, initHandles := initHandles, newSwapchain := newSwapchain,
      swapchainInfo := none }
  else
    let fmt := chooseSurfaceFormat d.surfaceFormats
    let h1 := { initHandles with swapchainFormat := fmt.format }
    if !d.presentModeCount_ok || !d.presentModes_ok then
      { result := 0, initHandles := h1, newSwapchain := newSwapchain, swapchainInfo := none }
    else
      let h2 := { h1 with swapchainExtent := { width := windowWidth, height := windowHeight } }
      if !d.surfaceCapabilities_ok then
        { result := 0, initHandles := h2, newSwapchain := newSwapchain, swapchainInfo := none }
      else
        let caps := d.surfaceCapabilities
        let h3 := { h2 with swapchainExtent := chooseSwapchainExtent caps windowWidth windowHeight }
        let info : VkSwapchainCreateInfoKHR :=
          { imageFormat := fmt.format
            imageColorSpace := fmt.colorSpace
            presentMode := choosePresentMode hdr d.presentModes
            imageExtent := h3.swapchainExtent
            minImageCount := chooseImageCount caps
            preTransform := caps.currentTransform
            concurrent := graphicsQueueIndex != presentQueueIndex
            queueFamilyIndexCount := if graphicsQueueIndex != presentQueueIndex then 2 else 0
            oldSwapchain := oldSwapchain }
        if !d.vkCreateSwapchainKHR_ok then
          { result := 0, initHandles := h3, newSwapchain := newSwapchain,
            swapchainInfo := some info }
        else if !d.swapchainImageCount_ok then
          { result := 0, initHandles := h3, newSwapchain := d.createdSwapchain,
            swapchainInfo := some info }
        else
          let h4 := { h3 with swapchainImageCount := d.swapchainImageCount }
          { result := if d.swapchainImages_ok then 1 else 0, initHandles := h4,
            newSwapchain := d.createdSwapchain, swapchainInfo := some info }

/-- `VulkanRenderer::RecreateSwapchain`: a new swapchain replaces the old one and
the depth pyramid is created again from `m_drawExtent`; both results are dropped. -/
def RecreateSwapchain (hdr : Header) (d : Driver) (r : VulkanRenderer)
    (windowWidth windowHeight : Nat) : VulkanRenderer :=
  let sc := CreateSwapchain hdr d r.m_initHandles windowWidth windowHeight
    r.graphicsQueueIndex r.presentQueueIndex 0 r.m_initHandles.swapchain
  let pyr := CreateDepthPyramid d r.m_drawExtent 0
  { r with
    m_initHandles := { sc.initHandles with swapchain := sc.newSwapchain }
    m_depthPyramidExtent := pyr.depthPyramidExtent
    m_depthPyramidMipLevels := pyr.depthPyramidMipLevels }

/-! ## Recording helpers (`vulkanRenderer.cpp`) -/

/-- `PushDescriptors`: the command is recorded only when the loader returns the
function pointer; it pushes the first `descriptorWriteCount` writes of the array. -/
def PushDescriptors (d : Driver) (commandBuffer : VkCommandBuffer)
    (bindPoint : VkPipelineBindPoint) (layout : VkPipelineLayout) (set : Nat)
    (descriptorWriteCount : Nat) (pDescriptorWrites : List VkWriteDescriptorSet) :
    VkCommandBuffer :=
  if d.vkCmdPushDescriptorSetKHR_loaded then
    commandBuffer ++ [Cmd.vkCmdPushDescriptorSetKHR bindPoint layout set
      (pDescriptorWrites.take descriptorWriteCount)]
  else commandBuffer

/-- `DrawMeshTasks`: the command is recorded only when the loader returns the
function pointer. -/
def DrawMeshTasks (d : Driver) (commandBuffer : VkCommandBuffer) (drawBuffer : VkBuffer)
    (drawOffset : Nat) (countBuffer : VkBuffer) (countOffset maxDrawCount stride : Nat) :
    VkCommandBuffer :=
  if d.vkCmdDrawMeshTasksIndirectCountEXT_loaded then
    commandBuffer ++ [Cmd.vkCmdDrawMeshTasksIndirectCountEXT drawBuffer drawOffset countBuffer
      countOffset maxDrawCount stride]
  else commandBuffer

/-- `CreateRenderingAttachmentInfo`, applied to a zero-initialised info: the colour
is assigned to the clear value first and the depth-stencil value second. -/
def CreateRenderingAttachmentInfo (imageView : VkImageView) (imageLayout : VkImageLayout)
    (loadOp : VkAttachmentLoadOp) (storeOp : VkAttachmentStoreOp)
    (clearValueColor : VkClearColorValue) (clearValueDepth : VkClearDepthStencilValue) :
    VkRenderingAttachmentInfo :=
  let zero : VkClearValue := { color := { w0 := 0, w1 := 0, w2 := 0, w3 := 0 } }
  { imageView := imageView
    imageLayout := imageLayout
    loadOp := loadOp
    storeOp := storeOp
    clearValue := (zero.assignColor clearValueColor).assignDepthStencil clearValueDepth }

/-- `BeginRendering` with the defaults `viewMask = 0`, `layerCount = 1`; the frame
passes one colour attachment, a depth attachment and no stencil attachment. -/
def BeginRendering (commandBuffer : VkCommandBuffer) (renderAreaExtent : VkExtent2D)
    (renderAreaOffset : VkOffset2D) (pColorAttachments : List VkRenderingAttachmentInfo)
    (pDepthAttachment pStencilAttachment : Option VkRenderingAttachmentInfo) :
    VkCommandBuffer :=
  commandBuffer ++ [Cmd.vkCmdBeginRendering renderAreaExtent renderAreaOffset pColorAttachments
    pDepthAttachment pStencilAttachment 0 1]

/-- `DefineViewportAndScissor`: the viewport starts at the full height and has the
negated height; the scissor covers the extent. -/
def DefineViewportAndScissor (commandBuffer : VkCommandBuffer) (extent : VkExtent2D) :
    VkCommandBuffer :=
  commandBuffer ++
    [Cmd.vkCmdSetViewport 0 (extent.height : Int) (extent.width : Int) (-(extent.height : Int)) 0 1,
     Cmd.vkCmdSetScissor { x := 0, y := 0 } { width := extent.width, height := extent.height }]

/-! ## Culling dispatch (`DispatchRenderObjectCullingComputeShader`) -/

/-- `VulkanRenderer::DispatchRenderObjectCullingComputeShader`. At every call site
`pDescriptorWrites` is the member array `pushDescriptorWritesCompute` and
`descriptorWriteCount` its size, so the write of the depth-pyramid descriptor into
the last slot is seen by the push that follows. Returns the renderer (its
descriptor array may have changed) and the command buffer. -/
def DispatchRenderObjectCullingComputeShader (d : Driver) (r : VulkanRenderer)
    (commandBuffer : VkCommandBuffer) (pipeline : VkPipeline) (descriptorWriteCount : Nat)
    (drawCount lateCulling postPass bOcclusionEnabled bLODs : Nat) :
    VulkanRenderer × VkCommandBuffer :=
  let last := (descriptorWriteCount + 2 ^ 32 - 1) % 2 ^ 32
  let depthPyramidWrite := VkWriteDescriptorSet.image VK_DESCRIPTOR_TYPE_COMBINED_IMAGE_SAMPLER 3
    VK_IMAGE_LAYOUT_GENERAL VkImageView.m_depthPyramid (some VkSampler.m_depthAttachmentSampler)
  let r1 : VulkanRenderer :=
    if lateCulling ≠ 0 then
      { r with
        pushDescriptorWritesCompute := r.pushDescriptorWritesCompute.set last depthPyramidWrite }
    else r
  let cb := PushDescriptors d commandBuffer VK_PIPELINE_BIND_POINT_COMPUTE
    VkPipelineLayout.m_drawCullPipelineLayout 0
    (if lateCulling ≠ 0 then descriptorWriteCount else last) r1.pushDescriptorWritesCompute
  let waitBeforeZeroingCountBuffer : VkBufferMemoryBarrier2 :=
    { buffer := VkBuffer.indirectCountBuffer
      srcStageMask := VK_PIPELINE_STAGE_2_DRAW_INDIRECT_BIT
      srcAccessMask := VK_ACCESS_2_INDIRECT_COMMAND_READ_BIT
      dstStageMask := VK_PIPELINE_STAGE_2_TRANSFER_BIT
      dstAccessMask := VK_ACCESS_2_TRANSFER_WRITE_BIT
      offset := 0, size := VK_WHOLE_SIZE }
  let cb := cb ++ [Cmd.PipelineBarrier [waitBeforeZeroingCountBuffer] []]
  let cb := cb ++ [Cmd.vkCmdFillBuffer VkBuffer.indirectCountBuffer 0 4 0]
  let waitBeforeDispatchingShaders : List VkBufferMemoryBarrier2 :=
    [{ buffer := VkBuffer.indirectCountBuffer
       srcStageMask := VK_PIPELINE_STAGE_2_TRANSFER_BIT
       srcAccessMask := VK_ACCESS_2_TRANSFER_WRITE_BIT
       dstStageMask := VK_PIPELINE_STAGE_2_COMPUTE_SHADER_BIT
       dstAccessMask := VK_ACCESS_2_SHADER_READ_BIT ||| VK_ACCESS_2_SHADER_WRITE_BIT
       offset := 0, size := VK_WHOLE_SIZE },
     { buffer := VkBuffer.indirectDrawBuffer
       srcStageMask := VK_PIPELINE_STAGE_2_DRAW_INDIRECT_BIT |||
         VK_PIPELINE_STAGE_2_VERTEX_SHADER_BIT
       srcAccessMask := VK_ACCESS_2_INDIRECT_COMMAND_READ_BIT ||| VK_ACCESS_2_SHADER_READ_BIT
       dstStageMask := VK_PIPELINE_STAGE_2_COMPUTE_SHADER_BIT
       dstAccessMask := VK_ACCESS_2_SHADER_WRITE_BIT
       offset := 0, size := VK_WHOLE_SIZE },
     { buffer := VkBuffer.visibilityBuffer
       srcStageMask := VK_PIPELINE_STAGE_2_COMPUTE_SHADER_BIT
       srcAccessMask := VK_ACCESS_MEMORY_READ_BIT ||| VK_ACCESS_MEMORY_WRITE_BIT
       dstStageMask := VK_PIPELINE_STAGE_2_COMPUTE_SHADER_BIT
       dstAccessMask := VK_ACCESS_MEMORY_READ_BIT ||| VK_ACCESS_MEMORY_WRITE_BIT
       offset := 0, size := VK_WHOLE_SIZE }]
  let cb :=
    if lateCulling ≠ 0 then
      let waitForDepthPyramidGeneration : VkImageMemoryBarrier2 :=
        { image := VkImage.m_depthPyramid
          srcStageMask := VK_PIPELINE_STAGE_2_COMPUTE_SHADER_BIT
          srcAccessMask := VK_ACCESS_2_SHADER_WRITE_BIT
          dstStageMask := VK_PIPELINE_STAGE_2_COMPUTE_SHADER_BIT
          dstAccessMask := VK_ACCESS_2_SHADER_READ_BIT
          oldLayout := VK_IMAGE_LAYOUT_GENERAL
          newLayout := VK_IMAGE_LAYOUT_GENERAL
          aspectMask := VK_IMAGE_ASPECT_COLOR_BIT
          baseMipLevel := 0, levelCount := VK_REMAINING_MIP_LEVELS }
      cb ++ [Cmd.PipelineBarrier waitBeforeDispatchingShaders [waitForDepthPyramidGeneration]]
    else
      cb ++ [Cmd.PipelineBarrier waitBeforeDispatchingShaders []]
  let cb := cb ++ [Cmd.vkCmdBindPipeline VK_PIPELINE_BIND_POINT_COMPUTE pipeline]
  let cb := cb ++ [Cmd.vkCmdPushConstants VkPipelineLayout.m_drawCullPipelineLayout
    VK_SHADER_STAGE_COMPUTE_BIT 0
    (PushConstant.DrawCullShaderPushConstant drawCount postPass bOcclusionEnabled bLODs)]
  let cb := cb ++ [Cmd.vkCmdDispatch ((drawCount / 64 + 1) % 2 ^ 32) 1 1]
  let waitForCullingShader : List VkBufferMemoryBarrier2 :=
    [{ buffer := VkBuffer.indirectCountBuffer
       srcStageMask := VK_PIPELINE_STAGE_2_COMPUTE_SHADER_BIT
       srcAccessMask := VK_ACCESS_2_SHADER_WRITE_BIT
       dstStageMask := VK_PIPELINE_STAGE_2_DRAW_INDIRECT_BIT
       dstAccessMask := VK_ACCESS_2_INDIRECT_COMMAND_READ_BIT
       offset := 0, size := VK_WHOLE_SIZE },
     { buffer := VkBuffer.indirectDrawBuffer
       srcStageMask := VK_PIPELINE_STAGE_2_COMPUTE_SHADER_BIT
       srcAccessMask := VK_ACCESS_2_SHADER_WRITE_BIT
       dstStageMask := VK_PIPELINE_STAGE_2_DRAW_INDIRECT_BIT |||
         VK_PIPELINE_STAGE_2_VERTEX_SHADER_BIT
       dstAccessMask := VK_ACCESS_2_INDIRECT_COMMAND_READ_BIT ||| VK_ACCESS_2_SHADER_READ_BIT
       offset := 0, size := VK_WHOLE_SIZE },
     { buffer := VkBuffer.visibilityBuffer
       srcStageMask := VK_PIPELINE_STAGE_2_COMPUTE_SHADER_BIT
       srcAccessMask := VK_ACCESS_MEMORY_READ_BIT ||| VK_ACCESS_MEMORY_WRITE_BIT
       dstStageMask := VK_PIPELINE_STAGE_2_COMPUTE_SHADER_BIT
       dstAccessMask := VK_ACCESS_MEMORY_READ_BIT ||| VK_ACCESS_MEMORY_WRITE_BIT
       offset := 0, size := VK_WHOLE_SIZE }]
  (r1, cb ++ [Cmd.PipelineBarrier waitForCullingShader []])

/-! ## Draw pass (`DrawGeometry`) -/

/-- `VulkanRenderer::DrawGeometry`. -/
def DrawGeometry (hdr : Header) (d : Driver) (r : VulkanRenderer)
    (commandBuffer : VkCommandBuffer) (pDescriptorWrites : List VkWriteDescriptorSet)
    (drawCount latePass : Nat) (pipeline : VkPipeline) : VkCommandBuffer :=
  let colorAttachmentInfo := CreateRenderingAttachmentInfo VkImageView.m_colorAttachment
    VK_IMAGE_LAYOUT_COLOR_ATTACHMENT_OPTIMAL
    (if latePass ≠ 0 then VK_ATTACHMENT_LOAD_OP_LOAD else VK_ATTACHMENT_LOAD_OP_CLEAR)
    VK_ATTACHMENT_STORE_OP_STORE
    { w0 := F32_0_1, w1 := F32_0_2, w2 := F32_0_3, w3 := F32_0 }
    hdr.clearValueDepth_default
  let depthAttachmentInfo := CreateRenderingAttachmentInfo VkImageView.m_depthAttachment
    VK_IMAGE_LAYOUT_DEPTH_ATTACHMENT_OPTIMAL
    (if latePass ≠ 0 then VK_ATTACHMENT_LOAD_OP_LOAD else VK_ATTACHMENT_LOAD_OP_CLEAR)
    VK_ATTACHMENT_STORE_OP_STORE
    { w0 := 0, w1 := 0, w2 := 0, w3 := 0 }
    { depth := 0, stencil := 0 }
  let cb := BeginRendering commandBuffer r.m_drawExtent { x := 0, y := 0 }
    [colorAttachmentInfo] (some depthAttachmentInfo) none
  let cb := PushDescriptors d cb VK_PIPELINE_BIND_POINT_GRAPHICS
    VkPipelineLayout.m_opaqueGeometryPipelineLayout 0 7 pDescriptorWrites
  let cb := cb ++ [Cmd.vkCmdBindDescriptorSets VK_PIPELINE_BIND_POINT_GRAPHICS
    VkPipelineLayout.m_opaqueGeometryPipelineLayout 1 1]
  let cb := cb ++ [Cmd.vkCmdBindPipeline VK_PIPELINE_BIND_POINT_GRAPHICS pipeline]
  let cb := cb ++ [Cmd.vkCmdBindIndexBuffer VkBuffer.indexBuffer 0 VK_INDEX_TYPE_UINT32]
  if r.meshShaderSupport ≠ 0 then
    DrawMeshTasks d cb VkBuffer.indirectTaskBuffer hdr.offsetof_IndirectTaskData_drawIndirectTasks
      VkBuffer.indirectCountBuffer 0 drawCount hdr.sizeof_IndirectTaskData
  else
    cb ++ [Cmd.vkCmdDrawIndexedIndirectCount VkBuffer.indirectDrawBuffer
      hdr.offsetof_IndirectDrawData_drawIndirect VkBuffer.indirectCountBuffer 0 drawCount
      hdr.sizeof_IndirectDrawData]

/-! ## Depth pyramid generation (`GenerateDepthPyramid`) -/

/-- The body of the loop of `GenerateDepthPyramid` for mip level `i`. The shift
`width >> i` of the 32-bit extent is the division by `2 ^ i`; the source defines it
for `i < 32` only, and the mip count left by `CreateDepthPyramid` is at most 31. -/
def GenerateDepthPyramid.body (d : Driver) (r : VulkanRenderer)
    (commandBuffer : VkCommandBuffer) (i : Nat) : VkCommandBuffer :=
  let srcAndDstDepthImageDescriptors : List VkWriteDescriptorSet :=
    [VkWriteDescriptorSet.image VK_DESCRIPTOR_TYPE_COMBINED_IMAGE_SAMPLER 1
       (if i = 0 then VK_IMAGE_LAYOUT_SHADER_READ_ONLY_OPTIMAL else VK_IMAGE_LAYOUT_GENERAL)
       (if i = 0 then VkImageView.m_depthAttachment else VkImageView.m_depthPyramidMips (i - 1))
       (some VkSampler.m_depthAttachmentSampler),
     VkWriteDescriptorSet.image VK_DESCRIPTOR_TYPE_STORAGE_IMAGE 0 VK_IMAGE_LAYOUT_GENERAL
       (VkImageView.m_depthPyramidMips i) none]
  let cb := PushDescriptors d commandBuffer VK_PIPELINE_BIND_POINT_COMPUTE
    VkPipelineLayout.m_depthPyramidGenerationPipelineLayout 0 2 srcAndDstDepthImageDescriptors
  let levelWidth := Max 1 (r.m_depthPyramidExtent.width >>> i)
  let levelHeight := Max 1 (r.m_depthPyramidExtent.height >>> i)
  let cb := cb ++ [Cmd.vkCmdPushConstants VkPipelineLayout.m_depthPyramidGenerationPipelineLayout
    VK_SHADER_STAGE_COMPUTE_BIT 0 (PushConstant.pyramidLevelExtentPushConstant levelWidth levelHeight)]
  let cb := cb ++ [Cmd.vkCmdDispatch ((levelWidth / 32 + 1) % 2 ^ 32)
    ((levelHeight / 32 + 1) % 2 ^ 32) 1]
  let dispatchWriteBarrier : VkImageMemoryBarrier2 :=
    { image := VkImage.m_depthPyramid
      srcStageMask := VK_PIPELINE_STAGE_2_COMPUTE_SHADER_BIT
      srcAccessMask := VK_ACCESS_2_SHADER_WRITE_BIT
      dstStageMask := VK_PIPELINE_STAGE_2_COMPUTE_SHADER_BIT
      dstAccessMask := VK_ACCESS_2_SHADER_READ_BIT
      oldLayout := VK_IMAGE_LAYOUT_GENERAL
      newLayout := VK_IMAGE_LAYOUT_GENERAL
      aspectMask := VK_IMAGE_ASPECT_COLOR_BIT
      baseMipLevel := 0, levelCount := VK_REMAINING_MIP_LEVELS }
  cb ++ [Cmd.PipelineBarrier [] [dispatchWriteBarrier]]

/-- The loop `for(size_t i = 0; i < m_depthPyramidMipLevels; ++i)`, entered at
index `i` with `remaining` iterations left. -/
def GenerateDepthPyramid.loop (d : Driver) (r : VulkanRenderer) :
    (remaining : Nat) → (i : Nat) → VkCommandBuffer → VkCommandBuffer
  | 0, _, commandBuffer => commandBuffer
  | remaining + 1, i, commandBuffer =>
      GenerateDepthPyramid.loop d r remaining (i + 1)
        (GenerateDepthPyramid.body d r commandBuffer i)

/-- `VulkanRenderer::GenerateDepthPyramid`. -/
def GenerateDepthPyramid (d : Driver) (r : VulkanRenderer) (commandBuffer : VkCommandBuffer) :
    VkCommandBuffer :=
  let depthTransitionBarriers : List VkImageMemoryBarrier2 :=
    [{ image := VkImage.m_depthAttachment
       srcStageMask := VK_PIPELINE_STAGE_2_LATE_FRAGMENT_TESTS_BIT
       srcAccessMask := VK_ACCESS_2_DEPTH_STENCIL_ATTACHMENT_READ_BIT
       dstStageMask := VK_PIPELINE_STAGE_2_COMPUTE_SHADER_BIT
       dstAccessMask := VK_ACCESS_2_SHADER_READ_BIT
       oldLayout := VK_IMAGE_LAYOUT_DEPTH_STENCIL_ATTACHMENT_OPTIMAL
       newLayout := VK_IMAGE_LAYOUT_SHADER_READ_ONLY_OPTIMAL
       aspectMask := VK_IMAGE_ASPECT_DEPTH_BIT
       baseMipLevel := 0, levelCount := VK_REMAINING_MIP_LEVELS },
     { image := VkImage.m_depthPyramid
       srcStageMask := VK_PIPELINE_STAGE_2_COMPUTE_SHADER_BIT
       srcAccessMask := VK_ACCESS_2_SHADER_READ_BIT
       dstStageMask := VK_PIPELINE_STAGE_2_COMPUTE_SHADER_BIT
       dstAccessMask := VK_ACCESS_2_SHADER_WRITE_BIT
       oldLayout := VK_IMAGE_LAYOUT_UNDEFINED
       newLayout := VK_IMAGE_LAYOUT_GENERAL
       aspectMask := VK_IMAGE_ASPECT_COLOR_BIT
       baseMipLevel := 0, levelCount := VK_REMAINING_MIP_LEVELS }]
  let cb := commandBuffer ++ [Cmd.PipelineBarrier [] depthTransitionBarriers]
  let cb := cb ++ [Cmd.vkCmdBindPipeline VK_PIPELINE_BIND_POINT_COMPUTE
    VkPipeline.m_depthPyramidGenerationPipeline]
  let cb := GenerateDepthPyramid.loop d r r.m_depthPyramidMipLevels 0 cb
  let depthAttachmentReadBarrier : VkImageMemoryBarrier2 :=
    { image := VkImage.m_depthAttachment
      srcStageMask := VK_PIPELINE_STAGE_2_COMPUTE_SHADER_BIT
      srcAccessMask := VK_ACCESS_2_SHADER_READ_BIT
      dstStageMask := VK_PIPELINE_STAGE_2_EARLY_FRAGMENT_TESTS_BIT
      dstAccessMask := VK_ACCESS_2_DEPTH_STENCIL_ATTACHMENT_READ_BIT |||
        VK_ACCESS_2_DEPTH_STENCIL_ATTACHMENT_WRITE_BIT
      oldLayout := VK_IMAGE_LAYOUT_SHADER_READ_ONLY_OPTIMAL
      newLayout := VK_IMAGE_LAYOUT_DEPTH_STENCIL_ATTACHMENT_OPTIMAL
      aspectMask := VK_IMAGE_ASPECT_DEPTH_BIT
      baseMipLevel := 0, levelCount := VK_REMAINING_MIP_LEVELS }
  cb ++ [Cmd.PipelineBarrier [] [depthAttachmentReadBarrier]]

/-! ## The frame (`DrawFrame`) -/

/-- What `DrawFrame` leaves behind: the renderer and the camera it wrote to. -/
structure FrameResult where
  renderer : VulkanRenderer
  camera : Camera

/-- The view-data write of `DrawFrame`: the whole camera view data under `NDEBUG`;
in a debug build only the projection-view matrix when the frustum is frozen. -/
def writeViewData (hdr : Header) (camera : Camera) (pData : CameraViewData) : CameraViewData :=
  if hdr.NDEBUG then camera.viewData
  else if camera.transformData.freezeFrustum ≠ 0 then
    { pData with projectionViewMatrix := camera.viewData.projectionViewMatrix }
  else camera.viewData

/-- The start of `DrawFrame`, up to the write of the view data: the swapchain is
recreated when the camera reports a window resize and the camera's pyramid extent
is then refreshed, slot `0` of both descriptor arrays is pointed at the view-data
buffer of the current frame, and the view data are written to that buffer. -/
def DrawFrame.prepare (hdr : Header) (d : Driver) (r : VulkanRenderer) (context : DrawContext) :
    VulkanRenderer × Camera :=
  let pCamera := context.pCamera
  let r :=
    if pCamera.transformData.windowResize ≠ 0 then
      RecreateSwapchain hdr d r pCamera.transformData.windowWidth
        pCamera.transformData.windowHeight
    else r
  let frame := r.m_currentFrame
  let pCamera : Camera :=
    if pCamera.transformData.windowResize ≠ 0 then
      { pCamera with
        viewData := { pCamera.viewData with
          pyramidWidth := r.m_depthPyramidExtent.width
          pyramidHeight := r.m_depthPyramidExtent.height } }
    else pCamera
  let r := { r with
    pushDescriptorWritesGraphics :=
      r.pushDescriptorWritesGraphics.set 0 (VkWriteDescriptorSet.viewDataBuffer frame)
    pushDescriptorWritesCompute :=
      r.pushDescriptorWritesCompute.set 0 (VkWriteDescriptorSet.viewDataBuffer frame) }
  let r := { r with
    viewDataBuffer := Function.update r.viewDataBuffer frame
      (writeViewData hdr pCamera (r.viewDataBuffer frame)) }
  (r, pCamera)

/-- `VulkanRenderer::DrawFrame`. `swapchainIdx` is the index written by
`vkAcquireNextImageKHR`; the results of the acquire and of the present (the driver's
`vkAcquireNextImageKHR_result` and `vkQueuePresentKHR_result`), of the fence wait and
of the submit are not read by the function. `BeginCommandBuffer` resets the command
buffer of the frame, so recording starts from the empty list. -/
def DrawFrame (hdr : Header) (d : Driver) (r : VulkanRenderer) (context : DrawContext)
    (swapchainIdx : Nat) : FrameResult :=
  let prepared := DrawFrame.prepare hdr d r context
  let r := prepared.1
  let pCamera := prepared.2
  let frame := r.m_currentFrame
  let cb : VkCommandBuffer := []
  let early := DispatchRenderObjectCullingComputeShader d r cb
    VkPipeline.m_initialDrawCullPipeline r.pushDescriptorWritesCompute.length
    context.drawCount 0 0 context.bOcclusionCulling context.bLOD
  let r := early.1
  let cb := early.2
  let cb := DefineViewportAndScissor cb r.m_drawExtent
  let renderingAttachmentDefinitionBarriers : List VkImageMemoryBarrier2 :=
    [{ image := VkImage.m_colorAttachment
       srcStageMask := VK_PIPELINE_STAGE_2_ALL_COMMANDS_BIT
       srcAccessMask := VK_ACCESS_2_NONE
       dstStageMask := VK_PIPELINE_STAGE_2_COLOR_ATTACHMENT_OUTPUT_BIT
       dstAccessMask := VK_ACCESS_2_COLOR_ATTACHMENT_WRITE_BIT
       oldLayout := VK_IMAGE_LAYOUT_UNDEFINED
       newLayout := VK_IMAGE_LAYOUT_COLOR_ATTACHMENT_OPTIMAL
       aspectMask := VK_IMAGE_ASPECT_COLOR_BIT
       baseMipLevel := 0, levelCount := VK_REMAINING_MIP_LEVELS },
     { image := VkImage.m_depthAttachment
       srcStageMask := VK_PIPELINE_STAGE_2_ALL_COMMANDS_BIT
       srcAccessMask := VK_ACCESS_2_NONE
       dstStageMask := VK_PIPELINE_STAGE_2_LATE_FRAGMENT_TESTS_BIT
       dstAccessMask := VK_ACCESS_2_DEPTH_STENCIL_ATTACHMENT_WRITE_BIT
       oldLayout := VK_IMAGE_LAYOUT_UNDEFINED
       newLayout := VK_IMAGE_LAYOUT_DEPTH_ATTACHMENT_OPTIMAL
       aspectMask := VK_IMAGE_ASPECT_DEPTH_BIT
       baseMipLevel := 0, levelCount := VK_REMAINING_MIP_LEVELS }]
  let cb := cb ++ [Cmd.PipelineBarrier [] renderingAttachmentDefinitionBarriers]
  let cb := DrawGeometry hdr d r cb r.pushDescriptorWritesGraphics context.drawCount 0
    VkPipeline.m_opaqueGeometryPipeline
  let cb := cb ++ [Cmd.vkCmdEndRendering]
  let cb := GenerateDepthPyramid d r cb
  let late := DispatchRenderObjectCullingComputeShader d r cb
    VkPipeline.m_lateDrawCullPipeline r.pushDescriptorWritesCompute.length
    context.drawCount 1 0 context.bOcclusionCulling context.bLOD
  let r := late.1
  let cb := late.2
  let cb := DrawGeometry hdr d r cb r.pushDescriptorWritesGraphics context.drawCount 1
    VkPipeline.m_opaqueGeometryPipeline
  let cb := cb ++ [Cmd.vkCmdEndRendering]
  let post := DispatchRenderObjectCullingComputeShader d r cb
    VkPipeline.m_lateDrawCullPipeline r.pushDescriptorWritesCompute.length
    context.drawCount 1 1 context.bOcclusionCulling context.bLOD
  let r := post.1
  let cb := post.2
  let cb := DrawGeometry hdr d r cb r.pushDescriptorWritesGraphics context.drawCount 1
    VkPipeline.m_postPassGeometryPipeline
  let cb := cb ++ [Cmd.vkCmdEndRendering]
  let colorAttachmentTransferBarriers : List VkImageMemoryBarrier2 :=
    [{ image := VkImage.m_colorAttachment
       srcStageMask := VK_PIPELINE_STAGE_2_COLOR_ATTACHMENT_OUTPUT_BIT
       srcAccessMask := VK_ACCESS_2_COLOR_ATTACHMENT_READ_BIT |||
         VK_ACCESS_2_COLOR_ATTACHMENT_WRITE_BIT
       dstStageMask := VK_PIPELINE_STAGE_2_BLIT_BIT
       dstAccessMask := VK_ACCESS_2_TRANSFER_WRITE_BIT
       oldLayout := VK_IMAGE_LAYOUT_COLOR_ATTACHMENT_OPTIMAL
       newLayout := VK_IMAGE_LAYOUT_TRANSFER_SRC_OPTIMAL
       aspectMask := VK_IMAGE_ASPECT_COLOR_BIT
       baseMipLevel := 0, levelCount := VK_REMAINING_MIP_LEVELS },
     { image := VkImage.swapchainImages swapchainIdx
       srcStageMask := VK_PIPELINE_STAGE_2_ALL_COMMANDS_BIT
       srcAccessMask := VK_ACCESS_2_MEMORY_READ_BIT ||| VK_ACCESS_2_MEMORY_WRITE_BIT
       dstStageMask := VK_PIPELINE_STAGE_2_BLIT_BIT
       dstAccessMask := VK_ACCESS_2_TRANSFER_READ_BIT
       oldLayout := VK_IMAGE_LAYOUT_UNDEFINED
       newLayout := VK_IMAGE_LAYOUT_TRANSFER_DST_OPTIMAL
       aspectMask := VK_IMAGE_ASPECT_COLOR_BIT
       baseMipLevel := 0, levelCount := VK_REMAINING_MIP_LEVELS }]
  let cb := cb ++ [Cmd.PipelineBarrier [] colorAttachmentTransferBarriers]
  let cb := cb ++ [Cmd.CopyImageToImage VkImage.m_colorAttachment
    VK_IMAGE_LAYOUT_TRANSFER_SRC_OPTIMAL (VkImage.swapchainImages swapchainIdx)
    VK_IMAGE_LAYOUT_TRANSFER_DST_OPTIMAL r.m_drawExtent r.m_initHandles.swapchainExtent
    { aspectMask := VK_IMAGE_ASPECT_COLOR_BIT, mipLevel := 0, baseArrayLayer := 0, layerCount := 1 }
    { aspectMask := VK_IMAGE_ASPECT_COLOR_BIT, mipLevel := 0, baseArrayLayer := 0, layerCount := 1 }
    VK_FILTER_LINEAR]
  let presentImageBarrier : VkImageMemoryBarrier2 :=
    { image := VkImage.swapchainImages swapchainIdx
      srcStageMask := VK_PIPELINE_STAGE_2_BLIT_BIT
      srcAccessMask := VK_ACCESS_2_TRANSFER_READ_BIT
      dstStageMask := VK_PIPELINE_STAGE_2_ALL_COMMANDS_BIT
      dstAccessMask := VK_ACCESS_2_MEMORY_READ_BIT ||| VK_ACCESS_2_MEMORY_WRITE_BIT
      oldLayout := VK_IMAGE_LAYOUT_TRANSFER_DST_OPTIMAL
      newLayout := VK_IMAGE_LAYOUT_PRESENT_SRC_KHR
      aspectMask := VK_IMAGE_ASPECT_COLOR_BIT
      baseMipLevel := 0, levelCount := VK_REMAINING_MIP_LEVELS }
  let cb := cb ++ [Cmd.PipelineBarrier [] [presentImageBarrier]]
  { renderer := { r with
      commandBuffer := Function.update r.commandBuffer frame cb
      m_currentFrame := (r.m_currentFrame + 1) % hdr.BLITZEN_VULKAN_MAX_FRAMES_IN_FLIGHT }
    camera := pCamera }

/-- The commands that a `DrawFrame` call records into the command buffer of its
frame: the contents, after the call, of the command buffer at the frame index the
call started with. -/
def frameCommands (hdr : Header) (d : Driver) (r : VulkanRenderer) (context : DrawContext)
    (swapchainIdx : Nat) : VkCommandBuffer :=
  (DrawFrame hdr d r context swapchainIdx).renderer.commandBuffer r.m_currentFrame

/-! ## Reading a command stream -/

/-- Whether a command is a `vkCmdDispatch`. -/
def Cmd.isDispatch : Cmd → Bool
  | Cmd.vkCmdDispatch _ _ _ => true
  | _ => false

/-- Whether a command is a `vkCmdPushConstants` or a `vkCmdDispatch`. -/
def Cmd.isPushConstantsOrDispatch : Cmd → Bool
  | Cmd.vkCmdPushConstants _ _ _ _ => true
  | Cmd.vkCmdDispatch _ _ _ => true
  | _ => false

/-- The colour attachments and the depth attachment that a `vkCmdBeginRendering`
opens; `none` for every other command. -/
def Cmd.renderingAttachments :
    Cmd → Option (List VkRenderingAttachmentInfo × Option VkRenderingAttachmentInfo)
  | Cmd.vkCmdBeginRendering _ _ colorAttachments depthAttachment _ _ _ =>
      some (colorAttachments, depthAttachment)
  | _ => none

/-! ## Sample values

A driver on which every call succeeds, a header, and the renderer as it stands after
`Init(1280, 720)` and `SetupForRendering`, used to evaluate the functions above on
concrete inputs. -/

def sampleDriver : Driver :=
  { vkCmdPushDescriptorSetKHR_loaded := true
    vkCmdDrawMeshTasksIndirectCountEXT_loaded := true
    surfaceFormatsCount_ok := true
    surfaceFormats_ok := true
    surfaceFormats := [{ format := VK_FORMAT_B8G8R8A8_UNORM,
                         colorSpace := VK_COLOR_SPACE_SRGB_NONLINEAR_KHR }]
    presentModeCount_ok := true
    presentModes_ok := true
    presentModes := [VK_PRESENT_MODE_FIFO_KHR]
    surfaceCapabilities_ok := true
    surfaceCapabilities :=
      { minImageCount := 2, maxImageCount := 8
        currentExtent := { width := 1280, height := 720 }
        minImageExtent := { width := 1, height := 1 }
        maxImageExtent := { width := 16384, height := 16384 }
        currentTransform := 1 }
    vkCreateSwapchainKHR_ok := true
    createdSwapchain := 2
    swapchainImageCount_ok := true
    swapchainImages_ok := true
    swapchainImageCount := 3
    CreateImage_ok := true
    CreateImageView_ok := fun _ => true
    vkAcquireNextImageKHR_result := VK_SUCCESS
    vkQueuePresentKHR_result := VK_SUCCESS }

def sampleHeader : Header :=
  { BLITZEN_VULKAN_MAX_FRAMES_IN_FLIGHT := 2
    DESIRED_SWAPCHAIN_PRESENTATION_MODE := VK_PRESENT_MODE_FIFO_KHR
    sizeof_IndirectDrawData := 32
    offsetof_IndirectDrawData_drawIndirect := 4
    sizeof_IndirectTaskData := 16
    offsetof_IndirectTaskData_drawIndirectTasks := 4
    clearValueDepth_default := { depth := 0, stencil := 0 }
    NDEBUG := true
    sizeof_Vertex := 32
    sizeof_RenderObject := 16
    sizeof_PrimitiveSurface := 128
    sizeof_Material := 64
    sizeof_MeshTransform := 32
    sizeof_Meshlet := 64
    BLITZEN_VULKAN_MESH_SHADER := 0 }

def sampleRenderer : VulkanRenderer :=
  { m_currentFrame := 0
    m_drawExtent := { width := 1280, height := 720 }
    m_depthPyramidExtent := { width := 1024, height := 512 }
    m_depthPyramidMipLevels := 10
    meshShaderSupport := 0
    m_initHandles :=
      { swapchain := 1, swapchainExtent := { width := 1280, height := 720 }
        swapchainFormat := VK_FORMAT_B8G8R8A8_UNORM, swapchainImageCount := 3 }
    graphicsQueueIndex := 0
    presentQueueIndex := 0
    pushDescriptorWritesGraphics :=
      [VkWriteDescriptorSet.empty,
       VkWriteDescriptorSet.staticBuffer StaticBuffer.vertexBuffer,
       VkWriteDescriptorSet.staticBuffer StaticBuffer.renderObjectBuffer,
       VkWriteDescriptorSet.staticBuffer StaticBuffer.transformBuffer,
       VkWriteDescriptorSet.staticBuffer StaticBuffer.materialBuffer,
       VkWriteDescriptorSet.staticBuffer StaticBuffer.indirectDrawBuffer,
       VkWriteDescriptorSet.staticBuffer StaticBuffer.surfaceBuffer]
    pushDescriptorWritesCompute :=
      [VkWriteDescriptorSet.empty,
       VkWriteDescriptorSet.staticBuffer StaticBuffer.renderObjectBuffer,
       VkWriteDescriptorSet.staticBuffer StaticBuffer.transformBuffer,
       VkWriteDescriptorSet.staticBuffer StaticBuffer.indirectDrawBuffer,
       VkWriteDescriptorSet.staticBuffer StaticBuffer.indirectCountBuffer,
       VkWriteDescriptorSet.staticBuffer StaticBuffer.visibilityBuffer,
       VkWriteDescriptorSet.staticBuffer StaticBuffer.surfaceBuffer,
       VkWriteDescriptorSet.empty]
    commandBuffer := fun _ => []
    viewDataBuffer := fun _ =>
      { projectionViewMatrix := 0, pyramidWidth := 0, pyramidHeight := 0, others := 0 }
    textureCount := 1
    loadedTextures := fun i =>
      if i = 0 then { image := 1, sampler := some VkSampler.m_placeholderSampler }
      else { image := 0, sampler := none } }

def sampleContext : DrawContext :=
  { pCamera :=
      { transformData := { windowResize := 0, windowWidth := 1280, windowHeight := 720,
                           freezeFrustum := 0 }
        viewData := { projectionViewMatrix := 1, pyramidWidth := 1024, pyramidHeight := 512,
                      others := 1 } }
    drawCount := 64
    bOcclusionCulling := 1
    bLOD := 1 }

/-- The commands by which the phases of a frame are told apart in a command stream:
a compute or graphics pipeline bind, the push constants of a culling dispatch, the
barrier that takes the colour and the depth attachment out of UNDEFINED, the opening
of a rendering scope (with the load ops of its colour attachments), a count-driven
indirect draw, the blit, and the barrier that takes an image to PRESENT_SRC. -/
inductive PhaseMark where
  | bindCompute (pipeline : VkPipeline)
  | cullConstants (drawCount postPass : Nat)
  | attachmentTransition
  | beginRendering (colorLoadOps : List VkAttachmentLoadOp)
  | bindGraphics (pipeline : VkPipeline)
  | indirectDraw (maxDrawCount : Nat)
  | blit (srcImage dstImage : VkImage)
  | presentTransition (image : VkImage)
deriving DecidableEq, Repr

/-- The phase mark of a command, if it is one of the marking commands. -/
def Cmd.phaseMark : Cmd → Option PhaseMark
  | Cmd.vkCmdBindPipeline VK_PIPELINE_BIND_POINT_COMPUTE p => some (PhaseMark.bindCompute p)
  | Cmd.vkCmdBindPipeline VK_PIPELINE_BIND_POINT_GRAPHICS p => some (PhaseMark.bindGraphics p)
  | Cmd.vkCmdPushConstants _ _ _ (PushConstant.DrawCullShaderPushConstant dc pp _ _) =>
      some (PhaseMark.cullConstants dc pp)
  | Cmd.vkCmdBeginRendering _ _ colorAttachments _ _ _ _ =>
      some (PhaseMark.beginRendering (colorAttachments.map (fun a => a.loadOp)))
  | Cmd.vkCmdDrawIndexedIndirectCount _ _ _ _ maxDrawCount _ =>
      some (PhaseMark.indirectDraw maxDrawCount)
  | Cmd.vkCmdDrawMeshTasksIndirectCountEXT _ _ _ _ maxDrawCount _ =>
      some (PhaseMark.indirectDraw maxDrawCount)
  | Cmd.CopyImageToImage srcImage _ dstImage _ _ _ _ _ _ => some (PhaseMark.blit srcImage dstImage)
  | Cmd.PipelineBarrier [] [b] =>
      if b.newLayout = VK_IMAGE_LAYOUT_PRESENT_SRC_KHR then some (PhaseMark.presentTransition b.image)
      else none
  | Cmd.PipelineBarrier [] [b1, b2] =>
      if b1.image = VkImage.m_colorAttachment ∧ b1.oldLayout = VK_IMAGE_LAYOUT_UNDEFINED ∧
          b2.image = VkImage.m_depthAttachment ∧ b2.oldLayout = VK_IMAGE_LAYOUT_UNDEFINED then
        some PhaseMark.attachmentTransition
      else none
  | _ => none

/-! ## Initialisation (`vulkanInit.cpp`, `VulkanRenderer::Init`) -/

/-- The return values of the steps of `Init` that are taken as given in `Init`
(`0` is failure), and what `PickPhysicalDevice` and `CreateDevice` leave in the
queue indices and in `m_stats.meshShaderSupport`; these two functions are translated
on their own further down. -/
structure InitSteps where
  CreateInstance : Nat
  CreateVulkanSurface : Nat
  PickPhysicalDevice : Nat
  graphicsQueueIndex : Nat
  presentQueueIndex : Nat
  CreateDevice : Nat
  meshShaderSupport : Nat
  CreateVmaAllocator : Nat
  FrameToolsInit : Nat
  CreateImage_colorAttachment : Nat
  CreateImage_depthAttachment : Nat
  CreateTextureSampler : Nat
deriving DecidableEq, Repr

/-- `VulkanRenderer::Init`: the steps run in order; the pair is the return value and
the renderer as the call leaves it. The swapchain is created into
`m_initHandles.swapchain` with no old swapchain, and the depth pyramid is created
from `m_drawExtent`, which is set to the window extent, with its sampler. -/
def Init (hdr : Header) (d : Driver) (s : InitSteps) (r : VulkanRenderer)
    (windowWidth windowHeight : Nat) : Nat × VulkanRenderer :=
  if s.CreateInstance = 0 then (0, r)
  else if s.CreateVulkanSurface = 0 then (0, r)
  else if s.PickPhysicalDevice = 0 then (0, r)
  else
    -- the result of `CreateDevice` is logged and not returned
    let r1 := { r with
      graphicsQueueIndex := s.graphicsQueueIndex
      presentQueueIndex := s.presentQueueIndex
      meshShaderSupport := s.meshShaderSupport }
    let sc := CreateSwapchain hdr d r1.m_initHandles windowWidth windowHeight
      r1.graphicsQueueIndex r1.presentQueueIndex r1.m_initHandles.swapchain 0
    let r2 := { r1 with m_initHandles := { sc.initHandles with swapchain := sc.newSwapchain } }
    if sc.result = 0 then (0, r2)
    else if s.CreateVmaAllocator = 0 then (0, r2)
    else if s.FrameToolsInit = 0 then (0, r2)
    else
      let r3 := { r2 with m_drawExtent := { width := windowWidth, height := windowHeight } }
      if s.CreateImage_colorAttachment = 0 then (0, r3)
      else if s.CreateImage_depthAttachment = 0 then (0, r3)
      else
        let pyr := CreateDepthPyramid d r3.m_drawExtent 1
        let r4 := { r3 with
          m_depthPyramidExtent := pyr.depthPyramidExtent
          m_depthPyramidMipLevels := pyr.depthPyramidMipLevels }
        if pyr.result = 0 then (0, r4)
        else if s.CreateTextureSampler = 0 then (0, r4)
        else (1, r4)

/-! ## Texture and scene upload (`vulkanRenderer.cpp`) -/

/-- The buffers that `UploadDataToGPU` creates. -/
inductive UploadBuffer where
  | vertexBuffer
  | indexBuffer
  | renderObjectBuffer
  | surfaceBuffer
  | materialBuffer
  | transformBuffer
  | indirectDrawBuffer
  | indirectTaskBuffer
  | meshletBuffer
  | meshletDataBuffer
  | indirectCountBuffer
  | visibilityBuffer
deriving DecidableEq, Repr

/-- What the allocator, the DDS loader and the device answer during an upload. -/
structure UploadDriver where
  /-- `CreateBuffer` for the staging buffer of a DDS texture. -/
  CreateBuffer_ok : Bool
  LoadDDSImage_ok : Bool
  CreateTextureImage_ok : Bool
  /-- The image handle that a successful `CreateTextureImage` writes. -/
  createdTextureImage : Nat
  /-- Whether the creation of the given buffer succeeds (`SetupPushDescriptorBuffer`;
  for the index buffer, a non-null handle after `CreateStorageBufferWithStagingBuffer`). -/
  bufferCreated : UploadBuffer → Bool
  /-- Whether `CreateDescriptorPool` returns a non-null pool. -/
  CreateDescriptorPool_ok : Bool
  AllocateDescriptorSets_ok : Bool

/-- `VulkanRenderer::UploadDDSTexture`: the return value and the renderer after the
call. What a failed `CreateTextureImage` leaves in the image of the slot is not
modelled. -/
def UploadDDSTexture (u : UploadDriver) (r : VulkanRenderer) : Nat × VulkanRenderer :=
  if !u.CreateBuffer_ok then (0, r)
  else if !u.LoadDDSImage_ok then (0, r)
  else if !u.CreateTextureImage_ok then (0, r)
  else
    let r1 := { r with
      loadedTextures := Function.update r.loadedTextures r.textureCount
        { r.loadedTextures r.textureCount with image := u.createdTextureImage } }
    let r2 := { r1 with
      loadedTextures := Function.update r1.loadedTextures r1.textureCount
        { r1.loadedTextures r1.textureCount with
          sampler := some VkSampler.m_placeholderSampler } }
    (1, { r2 with textureCount := r2.textureCount + 1 })

/-- One `BlitzenEngine::RenderObject`: the ids by which it refers to its transform,
its surface and its material. -/
structure RenderObject where
  transformId : Nat
  surfaceId : Nat
  materialId : Nat
deriving DecidableEq, Repr

/-- The arguments of `UploadDataToGPU`: the element counts of the arrays, and the
render objects themselves. -/
structure Scene where
  vertices : Nat
  indices : Nat
  pRenderObjects : List RenderObject
  materialCount : Nat
  meshlets : Nat
  meshletData : Nat
  surfaces : Nat
  transforms : Nat
deriving DecidableEq, Repr

/-- A buffer size `sizeof(T) * count`, computed in `VkDeviceSize` (64 bits). -/
def bufferSize (sizeofT count : Nat) : Nat := (sizeofT * count) % 2 ^ 64

/-- The return value of `VulkanRenderer::UploadDataToGPU`. Each buffer is refused
when its size is zero or its creation fails; the mesh-shader buffers are only
created with mesh-shader support; after the transfer, the call fails when no texture
was loaded or when the texture descriptor pool or set cannot be created. The render
objects are copied to their buffer as they are. -/
def UploadDataToGPU (hdr : Header) (u : UploadDriver) (r : VulkanRenderer) (scene : Scene) :
    Nat :=
  let renderObjectCount := scene.pRenderObjects.length
  if bufferSize hdr.sizeof_Vertex scene.vertices = 0 then 0
  else if !u.bufferCreated UploadBuffer.vertexBuffer then 0
  else if bufferSize 4 scene.indices = 0 then 0
  else if !u.bufferCreated UploadBuffer.indexBuffer then 0
  else if bufferSize hdr.sizeof_RenderObject renderObjectCount = 0 then 0
  else if !u.bufferCreated UploadBuffer.renderObjectBuffer then 0
  else if bufferSize hdr.sizeof_PrimitiveSurface scene.surfaces = 0 then 0
  else if !u.bufferCreated UploadBuffer.surfaceBuffer then 0
  else if bufferSize hdr.sizeof_Material scene.materialCount = 0 then 0
  else if !u.bufferCreated UploadBuffer.materialBuffer then 0
  else if bufferSize hdr.sizeof_MeshTransform scene.transforms = 0 then 0
  else if !u.bufferCreated UploadBuffer.transformBuffer then 0
  else if bufferSize hdr.sizeof_IndirectDrawData renderObjectCount = 0 then 0
  else if !u.bufferCreated UploadBuffer.indirectDrawBuffer then 0
  else if r.meshShaderSupport ≠ 0 ∧
      (bufferSize hdr.sizeof_IndirectTaskData renderObjectCount = 0 ∨
       u.bufferCreated UploadBuffer.indirectTaskBuffer = false ∨
       bufferSize hdr.sizeof_Meshlet scene.meshlets = 0 ∨
       u.bufferCreated UploadBuffer.meshletBuffer = false ∨
       bufferSize 4 scene.meshletData = 0 ∨
       u.bufferCreated UploadBuffer.meshletDataBuffer = false) then 0
  else if !u.bufferCreated UploadBuffer.indirectCountBuffer then 0
  else if bufferSize 4 renderObjectCount = 0 then 0
  else if !u.bufferCreated UploadBuffer.visibilityBuffer then 0
  else if r.textureCount = 0 then 0
  else if !u.CreateDescriptorPool_ok then 0
  else if !u.AllocateDescriptorSets_ok then 0
  else 1

/-- An upload environment in which every creation succeeds. -/
def sampleUploadDriver : UploadDriver :=
  { CreateBuffer_ok := true
    LoadDDSImage_ok := true
    CreateTextureImage_ok := true
    createdTextureImage := 7
    bufferCreated := fun _ => true
    CreateDescriptorPool_ok := true
    AllocateDescriptorSets_ok := true }

/-- Step results of an initialisation in which every step succeeds. -/
def sampleInitSteps : InitSteps :=
  { CreateInstance := 1
    CreateVulkanSurface := 1
    PickPhysicalDevice := 1
    graphicsQueueIndex := 0
    presentQueueIndex := 0
    CreateDevice := 1
    meshShaderSupport := 0
    CreateVmaAllocator := 1
    FrameToolsInit := 1
    CreateImage_colorAttachment := 1
    CreateImage_depthAttachment := 1
    CreateTextureSampler := 1 }

/-- A scene of one triangle drawn by one render object. -/
def sampleScene : Scene :=
  { vertices := 3
    indices := 3
    pRenderObjects := [{ transformId := 0, surfaceId := 0, materialId := 0 }]
    materialCount := 1
    meshlets := 1
    meshletData := 3
    surfaces := 1
    transforms := 1 }

/-! ## Consecutive frames -/

/-- What one call of `DrawFrame` is given from outside: the answers of the driver
during the frame, the draw context, and the swapchain image that is acquired. -/
structure FrameInput where
  driver : Driver
  context : DrawContext
  swapchainIdx : Nat

/-- The renderer after consecutive calls of `DrawFrame`, one per list entry. -/
def runFrames (hdr : Header) (frames : List FrameInput) (r : VulkanRenderer) : VulkanRenderer :=
  frames.foldl (fun r f => (DrawFrame hdr f.driver r f.context f.swapchainIdx).renderer) r

/-! ## Further sample values -/

/-- A renderer on which `Init` has not run: every member is zero or empty. -/
def uninitialisedRenderer : VulkanRenderer :=
  { m_currentFrame := 0
    m_drawExtent := { width := 0, height := 0 }
    m_depthPyramidExtent := { width := 0, height := 0 }
    m_depthPyramidMipLevels := 0
    meshShaderSupport := 0
    m_initHandles :=
      { swapchain := 0, swapchainExtent := { width := 0, height := 0 }
        swapchainFormat := 0, swapchainImageCount := 0 }
    graphicsQueueIndex := 0
    presentQueueIndex := 0
    pushDescriptorWritesGraphics := []
    pushDescriptorWritesCompute := []
    commandBuffer := fun _ => []
    viewDataBuffer := fun _ =>
      { projectionViewMatrix := 0, pyramidWidth := 0, pyramidHeight := 0, others := 0 }
    textureCount := 0
    loadedTextures := fun _ => { image := 0, sampler := none } }

/-- The sample header of a build without `NDEBUG`. -/
def debugHeader : Header := { sampleHeader with NDEBUG := false }

/-- A draw context whose camera reports a resize of the window to 1920x1080. -/
def resizeContext (freezeFrustum : Nat) : DrawContext :=
  { sampleContext with
    pCamera :=
      { transformData := { windowResize := 1, windowWidth := 1920, windowHeight := 1080,
                           freezeFrustum := freezeFrustum }
        viewData := sampleContext.pCamera.viewData } }

/-- The driver `d`, answering the acquire and the present of a frame with the given
results. -/
def Driver.withFrameResults (d : Driver) (acquireResult presentResult : Int) : Driver :=
  { d with
    vkAcquireNextImageKHR_result := acquireResult
    vkQueuePresentKHR_result := presentResult }

/-- The sample driver, answering the acquire and the present of a frame with
`VK_ERROR_OUT_OF_DATE_KHR`. -/
def outOfDateDriver : Driver :=
  sampleDriver.withFrameResults VK_ERROR_OUT_OF_DATE_KHR VK_ERROR_OUT_OF_DATE_KHR

/-! ## Physical device and logical device (`vulkanInit.cpp`, `PickPhysicalDevice` and
`CreateDevice`) -/

/-- One queue family of a physical device: whether its `queueFlags` have
`VK_QUEUE_GRAPHICS_BIT` and `VK_QUEUE_COMPUTE_BIT`, and what
`vkGetPhysicalDeviceSurfaceSupportKHR` answers for it. -/
structure QueueFamily where
  graphics : Bool
  compute : Bool
  supportsPresent : Bool
deriving DecidableEq, Repr

/-- What the driver answers about one enumerated physical device: whether it has all
the features that `PickPhysicalDevice` requires, whether it lists the swapchain
extension, its API version, its queue families in index order, its device type, and
the mesh-shader answers that `CreateDevice` reads. -/
structure PhysicalDevice where
  handle : Nat
  requiredFeatures : Bool
  swapchainExtension : Bool
  apiVersion : Nat
  queueFamilies : List QueueFamily
  deviceType : Nat
  meshShader : Bool
  taskShader : Bool
  meshShaderExtension : Bool
deriving DecidableEq, Repr

/-- The members of `Queue` that device selection writes. -/
structure Queue where
  index : Nat
  hasIndex : Nat
deriving DecidableEq, Repr

/-- The three queues that `PickPhysicalDevice` is given by reference. -/
structure Queues where
  graphicsQueue : Queue
  computeQueue : Queue
  presentQueue : Queue
deriving DecidableEq, Repr

/-- The body of the queue-family loop of `PickPhysicalDevice` for family `j`: each
queue takes the index `j` if the family supports it and the queue has no index yet. -/
def PickPhysicalDevice.latch (q : Queues) (j : Nat) (f : QueueFamily) : Queues :=
  let graphicsQueue : Queue :=
    if f.graphics = true ∧ q.graphicsQueue.hasIndex = 0 then { index := j % 2 ^ 32, hasIndex := 1 }
    else q.graphicsQueue
  let computeQueue : Queue :=
    if f.compute = true ∧ q.computeQueue.hasIndex = 0 then { index := j % 2 ^ 32, hasIndex := 1 }
    else q.computeQueue
  let presentQueue : Queue :=
    if f.supportsPresent = true ∧ q.presentQueue.hasIndex = 0 then
      { index := j % 2 ^ 32, hasIndex := 1 }
    else q.presentQueue
  { graphicsQueue := graphicsQueue, computeQueue := computeQueue, presentQueue := presentQueue }

/-- The queue-family loop of `PickPhysicalDevice`, from family `j` on. -/
def PickPhysicalDevice.latchLoop : Nat → List QueueFamily → Queues → Queues
  | _, [], q => q
  | j, f :: fs, q => PickPhysicalDevice.latchLoop (j + 1) fs (PickPhysicalDevice.latch q j f)

/-- The first loop of `PickPhysicalDevice`: the devices that stay in the array, and
the queues after the loop. A device is removed when it lacks a required feature, the
swapchain extension, API version 1.3 or any queue family, or when after its
queue-family loop one of the three queues has no index; the queues are not reset
between devices. `RemoveAtIndex(i); --i; continue` is read as removing the device
and going on with the next one, the others keeping their order
(`BlitCL::DynamicArray` is not among the sources). -/
def PickPhysicalDevice.filter : List PhysicalDevice → Queues → List PhysicalDevice × Queues
  | [], q => ([], q)
  | pdv :: rest, q =>
    if !pdv.requiredFeatures then PickPhysicalDevice.filter rest q
    else if !pdv.swapchainExtension then PickPhysicalDevice.filter rest q
    else if pdv.apiVersion < VK_API_VERSION_1_3 then PickPhysicalDevice.filter rest q
    else if pdv.queueFamilies.length = 0 then PickPhysicalDevice.filter rest q
    else
      let q1 := PickPhysicalDevice.latchLoop 0 pdv.queueFamilies q
      if q1.presentQueue.hasIndex = 0 ∨ q1.graphicsQueue.hasIndex = 0 ∨
          q1.computeQueue.hasIndex = 0 then
        PickPhysicalDevice.filter rest q1
      else
        ((pdv :: (PickPhysicalDevice.filter rest q1).1), (PickPhysicalDevice.filter rest q1).2)

/-- The second loop of `PickPhysicalDevice`: every discrete GPU in the array is
assigned to `chosenGpu` in turn and sets `stats.hasDiscreteGPU`. -/
def PickPhysicalDevice.preferDiscrete :
    List PhysicalDevice → Option PhysicalDevice × Nat → Option PhysicalDevice × Nat
  | [], acc => acc
  | pdv :: rest, acc =>
    if pdv.deviceType = VK_PHYSICAL_DEVICE_TYPE_DISCRETE_GPU then
      PickPhysicalDevice.preferDiscrete rest (some pdv, 1)
    else PickPhysicalDevice.preferDiscrete rest acc

/-- What `PickPhysicalDevice` leaves in its reference parameters, and its return
value. -/
structure PickResult where
  result : Nat
  chosenGpu : Option PhysicalDevice
  hasDiscreteGPU : Nat
  queues : Queues
deriving DecidableEq, Repr

/-- `PickPhysicalDevice`. `physicalDevices` is the array that
`vkEnumeratePhysicalDevices` fills; `chosenGpu`, `queues` and `hasDiscreteGPU` are the
values of `initHandles.chosenGpu`, of the three queues and of `stats.hasDiscreteGPU`
on entry. -/
def PickPhysicalDevice (physicalDevices : List PhysicalDevice)
    (chosenGpu : Option PhysicalDevice) (queues : Queues) (hasDiscreteGPU : Nat) : PickResult :=
  if physicalDevices.length = 0 then
    { result := 0, chosenGpu := chosenGpu, hasDiscreteGPU := hasDiscreteGPU, queues := queues }
  else
    let filtered := PickPhysicalDevice.filter physicalDevices queues
    if filtered.1.length = 0 then
      { result := 0, chosenGpu := chosenGpu, hasDiscreteGPU := hasDiscreteGPU,
        queues := filtered.2 }
    else
      let chosen := PickPhysicalDevice.preferDiscrete filtered.1 (chosenGpu, hasDiscreteGPU)
      { result := 1
        chosenGpu := if chosen.2 = 0 then filtered.1.head? else chosen.1
        hasDiscreteGPU := chosen.2
        queues := filtered.2 }

/-- The fields of a `VkDeviceQueueCreateInfo` that `CreateDevice` sets per queue. -/
structure VkDeviceQueueCreateInfo where
  queueFamilyIndex : Nat
  queueCount : Nat
deriving DecidableEq, Repr

/-- The queue create infos of `CreateDevice`: one for the graphics family, one for
the compute family if it differs, and one for the present family if it differs from
those already there; then every info is given `queueCount = 1`. -/
def CreateDevice.queueInfos (graphicsIndex computeIndex presentIndex : Nat) :
    List VkDeviceQueueCreateInfo :=
  let deviceQueueInfo : VkDeviceQueueCreateInfo := { queueFamilyIndex := 0, queueCount := 0 }
  let queueInfos : List VkDeviceQueueCreateInfo :=
    [{ deviceQueueInfo with queueFamilyIndex := graphicsIndex }]
  let queueInfos :=
    if graphicsIndex ≠ computeIndex then
      queueInfos ++ [{ deviceQueueInfo with queueFamilyIndex := computeIndex }]
    else queueInfos
  let queueInfos :=
    if queueInfos.length = 2 ∧
        (queueInfos.getD 0 deviceQueueInfo).queueFamilyIndex ≠ presentIndex ∧
        (queueInfos.getD 1 deviceQueueInfo).queueFamilyIndex ≠ presentIndex then
      queueInfos ++ [{ deviceQueueInfo with queueFamilyIndex := presentIndex }]
    else queueInfos
  let queueInfos :=
    if queueInfos.length = 1 ∧
        (queueInfos.getD 0 deviceQueueInfo).queueFamilyIndex ≠ presentIndex then
      queueInfos ++ [{ deviceQueueInfo with queueFamilyIndex := presentIndex }]
    else queueInfos
  queueInfos.map (fun info => { info with queueCount := 1 })

/-- What `CreateDevice` leaves behind: its return value, `stats.meshShaderSupport`,
and the extension count and queue create infos of the `VkDeviceCreateInfo`. -/
structure DeviceResult where
  result : Nat
  meshShaderSupport : Nat
  enabledExtensionCount : Nat
  queueInfos : List VkDeviceQueueCreateInfo
deriving DecidableEq, Repr

/-- `CreateDevice`, for the chosen GPU. `meshShaderSupport` is the value of
`stats.meshShaderSupport` on entry and `vkCreateDevice_ok` tells whether
`vkCreateDevice` returns `VK_SUCCESS`. -/
def CreateDevice (hdr : Header) (chosenGpu : PhysicalDevice) (vkCreateDevice_ok : Bool)
    (graphicsQueue presentQueue computeQueue : Queue) (meshShaderSupport : Nat) : DeviceResult :=
  let meshShaderSupport :=
    if hdr.BLITZEN_VULKAN_MESH_SHADER ≠ 0 then
      if chosenGpu.meshShader && chosenGpu.taskShader && chosenGpu.meshShaderExtension then 1
      else 0
    else meshShaderSupport
  { result := if vkCreateDevice_ok then 1 else 0
    meshShaderSupport := meshShaderSupport
    enabledExtensionCount :=
      2 + (if hdr.BLITZEN_VULKAN_MESH_SHADER ≠ 0 ∧ meshShaderSupport ≠ 0 then 1 else 0)
    queueInfos :=
      CreateDevice.queueInfos graphicsQueue.index computeQueue.index presentQueue.index }

/-! ## Texture upload without a result, and setup (`vulkanRenderer.cpp`) -/

/-- `VulkanRenderer::UploadTexture`: the result of `CreateTextureImage` is not read;
the slot at `textureCount` gets the placeholder sampler and the count advances. What
a failed `CreateTextureImage` leaves in the image of the slot is not modelled. -/
def UploadTexture (u : UploadDriver) (r : VulkanRenderer) : VulkanRenderer :=
  let r1 :=
    if u.CreateTextureImage_ok then
      { r with
        loadedTextures := Function.update r.loadedTextures r.textureCount
          { r.loadedTextures r.textureCount with image := u.createdTextureImage } }
    else r
  let r2 := { r1 with
    loadedTextures := Function.update r1.loadedTextures r1.textureCount
      { r1.loadedTextures r1.textureCount with
        sampler := some VkSampler.m_placeholderSampler } }
  { r2 with textureCount := r2.textureCount + 1 }

/-- The return values of the steps of `SetupForRendering` whose bodies are not
translated here (`0` is failure). -/
structure SetupSteps where
  CreateDescriptorLayouts : Nat
  VarBuffersInit : Nat
  CreateComputeShaderProgram_initialDrawCull : Nat
  CreateComputeShaderProgram_depthPyramidGeneration : Nat
  CreateComputeShaderProgram_lateDrawCull : Nat
  SetupMainGraphicsPipeline : Nat
deriving DecidableEq, Repr

/-- What `SetupForRendering` leaves behind: its return value, the renderer, and the
two reference parameters `pyramidWidth` and `pyramidHeight`. -/
structure SetupResult where
  result : Nat
  renderer : VulkanRenderer
  pyramidWidth : Nat
  pyramidHeight : Nat

/-- `VulkanRenderer::SetupForRendering`: the steps run in order and the first failure
returns `0`; on success the pyramid extent is handed to the caller and the static
descriptor writes are stored in the two arrays. -/
def SetupForRendering (hdr : Header) (u : UploadDriver) (s : SetupSteps) (r : VulkanRenderer)
    (scene : Scene) (pyramidWidth pyramidHeight : Nat) : SetupResult :=
  let failed : SetupResult :=
    { result := 0, renderer := r, pyramidWidth := pyramidWidth, pyramidHeight := pyramidHeight }
  if s.CreateDescriptorLayouts = 0 then failed
  else if s.VarBuffersInit = 0 then failed
  else if UploadDataToGPU hdr u r scene = 0 then failed
  else if s.CreateComputeShaderProgram_initialDrawCull = 0 then failed
  else if s.CreateComputeShaderProgram_depthPyramidGeneration = 0 then failed
  else if s.CreateComputeShaderProgram_lateDrawCull = 0 then failed
  else if s.SetupMainGraphicsPipeline = 0 then failed
  else
    let g := r.pushDescriptorWritesGraphics
    let g := g.set 0 VkWriteDescriptorSet.empty
    let g := g.set 1 (VkWriteDescriptorSet.staticBuffer StaticBuffer.vertexBuffer)
    let g := g.set 2 (VkWriteDescriptorSet.staticBuffer StaticBuffer.renderObjectBuffer)
    let g := g.set 3 (VkWriteDescriptorSet.staticBuffer StaticBuffer.transformBuffer)
    let g := g.set 4 (VkWriteDescriptorSet.staticBuffer StaticBuffer.materialBuffer)
    let g := g.set 5 (VkWriteDescriptorSet.staticBuffer StaticBuffer.indirectDrawBuffer)
    let g := g.set 6 (VkWriteDescriptorSet.staticBuffer StaticBuffer.surfaceBuffer)
    let c := r.pushDescriptorWritesCompute
    let c := c.set 0 VkWriteDescriptorSet.empty
    let c := c.set 1 (VkWriteDescriptorSet.staticBuffer StaticBuffer.renderObjectBuffer)
    let c := c.set 2 (VkWriteDescriptorSet.staticBuffer StaticBuffer.transformBuffer)
    let c := c.set 3 (VkWriteDescriptorSet.staticBuffer StaticBuffer.indirectDrawBuffer)
    let c := c.set 4 (VkWriteDescriptorSet.staticBuffer StaticBuffer.indirectCountBuffer)
    let c := c.set 5 (VkWriteDescriptorSet.staticBuffer StaticBuffer.visibilityBuffer)
    let c := c.set 6 (VkWriteDescriptorSet.staticBuffer StaticBuffer.surfaceBuffer)
    let c := c.set 7 VkWriteDescriptorSet.empty
    { result := 1
      renderer := { r with pushDescriptorWritesGraphics := g, pushDescriptorWritesCompute := c }
      pyramidWidth := r.m_depthPyramidExtent.width
      pyramidHeight := r.m_depthPyramidExtent.height }

/-- Step results of a setup in which every step succeeds. -/
def sampleSetupSteps : SetupSteps :=
  { CreateDescriptorLayouts := 1
    VarBuffersInit := 1
    CreateComputeShaderProgram_initialDrawCull := 1
    CreateComputeShaderProgram_depthPyramidGeneration := 1
    CreateComputeShaderProgram_lateDrawCull := 1
    SetupMainGraphicsPipeline := 1 }

/-! ## The engine (`blitzenEngine.cpp`) -/

/-- The functions of the camera module and of the rendering system that the engine
calls and that are not among the translated sources: `UpdateProjection(camera, fov,
width, height, zNear)` with the engine's constants for `fov` and `zNear`,
`UpdateCamera(camera, deltaTime)`, and what `RenderingSystem::DrawFrame` leaves in
the camera. -/
structure EngineEnv where
  UpdateProjection : Camera → Nat → Nat → Camera
  UpdateCamera : Camera → Camera
  DrawFrame : Camera → Camera

/-- The members of `Engine` that the window-size handler and the main loop write,
and the main camera. -/
structure Engine where
  isRunning : Nat
  isSupended : Nat
  camera : Camera
deriving DecidableEq, Repr

/-- `Engine::UpdateWindowSize`. -/
def Engine.UpdateWindowSize (env : EngineEnv) (e : Engine) (newWidth newHeight : Nat) :
    Engine :=
  let camera : Camera :=
    { e.camera with transformData := { e.camera.transformData with windowResize := 1 } }
  if newWidth = 0 ∨ newHeight = 0 then
    { e with camera := camera, isSupended := 1 }
  else
    { e with camera := env.UpdateProjection camera newWidth newHeight, isSupended := 0 }

/-- One pass through the body of the main loop of `Engine::Run`: the engine after
it, and the camera that `DrawFrame` was called with, if it was called. -/
structure LoopResult where
  engine : Engine
  drawFrame : Option Camera
deriving DecidableEq, Repr

/-- The body of the main loop of `Engine::Run`, after the platform has pumped its
messages with the result `pumpMessages`. -/
def Engine.Run.body (env : EngineEnv) (e : Engine) (pumpMessages : Nat) : LoopResult :=
  let e := if pumpMessages = 0 then { e with isRunning := 0 } else e
  if e.isSupended = 0 then
    let mainCamera := env.UpdateCamera e.camera
    let drawn := env.DrawFrame mainCamera
    { engine := { e with
        camera := { drawn with transformData := { drawn.transformData with windowResize := 0 } } }
      drawFrame := some mainCamera }
  else { engine := e, drawFrame := none }

/-- The body of the main loop run for each result of the message pump in the list;
the cameras of the `DrawFrame` calls are collected in call order. -/
def Engine.Run.loop (env : EngineEnv) : List Nat → Engine → Engine × List Camera
  | [], e => (e, [])
  | p :: ps, e =>
    let step := Engine.Run.body env e p
    let tail := Engine.Run.loop env ps step.engine
    (tail.1, step.drawFrame.toList ++ tail.2)

/-- An environment whose projection update stores the window size in the camera. -/
def sampleEngineEnv : EngineEnv :=
  { UpdateProjection := fun c w h =>
      { c with transformData := { c.transformData with windowWidth := w, windowHeight := h } }
    UpdateCamera := fun c => c
    DrawFrame := fun c => c }

def sampleEngine : Engine :=
  { isRunning := 1, isSupended := 0, camera := sampleContext.pCamera }

/-! ## Image layouts in a command stream -/

/-- The image behind an image view. -/
def VkImageView.image : VkImageView → VkImage
  | VkImageView.m_colorAttachment => VkImage.m_colorAttachment
  | VkImageView.m_depthAttachment => VkImage.m_depthAttachment
  | VkImageView.m_depthPyramid => VkImage.m_depthPyramid
  | VkImageView.m_depthPyramidMips _ => VkImage.m_depthPyramid

/-- The aspect of an image: depth for the depth attachment, which `Init` creates with
`VK_FORMAT_D32_SFLOAT`, colour for the colour attachment
(`VK_FORMAT_R16G16B16A16_SFLOAT`), the depth pyramid (`VK_FORMAT_R32_SFLOAT`) and the
swapchain images. -/
def VkImage.aspectMask : VkImage → Nat
  | VkImage.m_depthAttachment => VK_IMAGE_ASPECT_DEPTH_BIT
  | _ => VK_IMAGE_ASPECT_COLOR_BIT

/-- A layout name read on an image aspect the way Vulkan defines it: on the depth
aspect `VK_IMAGE_LAYOUT_DEPTH_STENCIL_ATTACHMENT_OPTIMAL` is equivalent to
`VK_IMAGE_LAYOUT_DEPTH_ATTACHMENT_OPTIMAL`, so it is read as that layout; every other
name on every other aspect is read as itself. -/
def VkImageLayout.onAspect (aspectMask : Nat) (layout : VkImageLayout) : VkImageLayout :=
  if aspectMask = VK_IMAGE_ASPECT_DEPTH_BIT ∧
      layout = VK_IMAGE_LAYOUT_DEPTH_STENCIL_ATTACHMENT_OPTIMAL then
    VK_IMAGE_LAYOUT_DEPTH_ATTACHMENT_OPTIMAL
  else layout

/-- Whether a command is a fill of a buffer or a dispatch. -/
def Cmd.isFillOrDispatch : Cmd → Bool
  | Cmd.vkCmdFillBuffer _ _ _ _ => true
  | Cmd.vkCmdDispatch _ _ _ => true
  | _ => false

/-- Whether a command is a count-driven indirect draw. -/
def Cmd.isIndirectDraw : Cmd → Bool
  | Cmd.vkCmdDrawIndexedIndirectCount _ _ _ _ _ _ => true
  | Cmd.vkCmdDrawMeshTasksIndirectCountEXT _ _ _ _ _ _ => true
  | _ => false

/-- Whether a command binds an index buffer. -/
def Cmd.isBindIndexBuffer : Cmd → Bool
  | Cmd.vkCmdBindIndexBuffer _ _ _ => true
  | _ => false

/-! ## Sample devices -/

/-- Queues on which no index has been latched. -/
def freshQueues : Queues :=
  { graphicsQueue := { index := 0, hasIndex := 0 }
    computeQueue := { index := 0, hasIndex := 0 }
    presentQueue := { index := 0, hasIndex := 0 } }

/-- An integrated GPU whose only queue family supports graphics, compute and
presentation. -/
def integratedGpu : PhysicalDevice :=
  { handle := 1
    requiredFeatures := true
    swapchainExtension := true
    apiVersion := VK_API_VERSION_1_3
    queueFamilies := [{ graphics := true, compute := true, supportsPresent := true }]
    deviceType := VK_PHYSICAL_DEVICE_TYPE_INTEGRATED_GPU
    meshShader := false
    taskShader := false
    meshShaderExtension := false }

/-- A discrete GPU whose queue family `0` is a transfer-only family and whose queue
family `1` supports graphics, compute and presentation. -/
def discreteGpu : PhysicalDevice :=
  { handle := 2
    requiredFeatures := true
    swapchainExtension := true
    apiVersion := VK_API_VERSION_1_3
    queueFamilies := [{ graphics := false, compute := false, supportsPresent := false },
                      { graphics := true, compute := true, supportsPresent := true }]
    deviceType := VK_PHYSICAL_DEVICE_TYPE_DISCRETE_GPU
    meshShader := true
    taskShader := true
    meshShaderExtension := true }

/-! # Theorems -/

/-! ## Depth pyramid extent and mip count -/

theorem mipLevelLoop_eq_log (n : Nat) : ∀ w h l : Nat, max w h = n →
    l + Nat.log 2 n < 256 → mipLevelLoop w h l = l + Nat.log 2 n := by
  induction n using Nat.strong_induction_on with
  | _ n ih =>
    intro w h l hmax hl
    rw [mipLevelLoop]
    by_cases hc : w > 1 ∨ h > 1
    · rw [if_pos hc]
      have hn : 2 ≤ n := by omega
      have hlog : Nat.log 2 n = Nat.log 2 (n / 2) + 1 := by
        rw [Nat.log_of_one_lt_of_le (by norm_num) hn]
      have hmax2 : max (w / 2) (h / 2) = n / 2 := by omega
      have hlt : n / 2 < n := by omega
      have hmod : (l + 1) % 256 = l + 1 := Nat.mod_eq_of_lt (by omega)
      rw [hmod, ih (n / 2) hlt (w / 2) (h / 2) (l + 1) hmax2 (by omega)]
      omega
    · rw [if_neg hc]
      have hn : n < 2 := by omega
      rw [Nat.log_of_lt hn]
      rfl

theorem log_lt_32 (n : Nat) (hn : n < 2 ^ 32) : Nat.log 2 n < 32 := by
  by_cases h0 : n = 0
  · subst h0; simp
  · exact Nat.log_lt_of_lt_pow h0 hn

theorem mipLevelLoop_uint32 (w h : Nat) (hw : w < 2 ^ 32) (hh : h < 2 ^ 32) :
    mipLevelLoop w h 0 = Nat.log 2 (max w h) := by
  have hm : max w h < 2 ^ 32 := max_lt hw hh
  have := log_lt_32 _ hm
  rw [mipLevelLoop_eq_log (max w h) w h 0 rfl (by omega)]
  omega

theorem halveBoth_iterate (k w h : Nat) :
    halveBoth^[k] (w, h) = (w / 2 ^ k, h / 2 ^ k) := by
  induction k generalizing w h with
  | zero => simp
  | succ k ih =>
    rw [Function.iterate_succ_apply, halveBoth, ih]
    simp only [Nat.div_div_eq_div_mul, pow_succ, Nat.mul_comm]

theorem div_pow_log_le_one (n : Nat) : n / 2 ^ Nat.log 2 n ≤ 1 := by
  have h := Nat.lt_pow_succ_log_self (by norm_num : 1 < 2) n
  have hpos : 0 < 2 ^ Nat.log 2 n := Nat.pow_pos (by norm_num)
  have : n / 2 ^ Nat.log 2 n < 2 := by
    rw [Nat.div_lt_iff_lt_mul hpos]
    rw [pow_succ] at h
    omega
  omega

theorem two_le_div_pow_of_lt_log (n k : Nat) (hk : k < Nat.log 2 n) : 2 ≤ n / 2 ^ k := by
  have hn0 : n ≠ 0 := by
    rintro rfl
    simp at hk
  have h1 : 2 ^ Nat.log 2 n ≤ n := Nat.pow_log_le_self 2 hn0
  have h2 : 2 ^ (k + 1) ≤ 2 ^ Nat.log 2 n := Nat.pow_le_pow_right (by norm_num) hk
  have hpos : 0 < 2 ^ k := Nat.pow_pos (by norm_num)
  rw [Nat.le_div_iff_mul_le hpos]
  rw [pow_succ] at h2
  omega

/-- The mip count that `CreateDepthPyramid` leaves is the result of the counting
loop on the pyramid extent that it leaves. -/
theorem CreateDepthPyramid_mipLevels (d : Driver) (drawExtent : VkExtent2D)
    (createSampler : Nat) :
    (CreateDepthPyramid d drawExtent createSampler).depthPyramidMipLevels =
      mipLevelLoop (CreateDepthPyramid d drawExtent createSampler).depthPyramidExtent.width
        (CreateDepthPyramid d drawExtent createSampler).depthPyramidExtent.height 0 := rfl

/-- C2 (counterexample): for the pyramid extent `(1024, 512)` the counting loop of
`CreateDepthPyramid` gives 10 mip levels, while `⌈log2(max(w, h))⌉ + 1` is 11; the
extent `(1024, 1024)` gives 10 as well. -/
theorem C2_mip_count_1024_512_is_not_11 :
    mipLevelLoop 1024 512 0 = 10 ∧ Nat.clog 2 (max 1024 512) + 1 = 11 ∧
      mipLevelLoop 1024 512 0 ≠ Nat.clog 2 (max 1024 512) + 1 ∧
      mipLevelLoop 1024 1024 0 ≠ 11 := by
  have h1 : mipLevelLoop 1024 512 0 = 10 := by simp [mipLevelLoop]
  have h2 : mipLevelLoop 1024 1024 0 = 10 := by simp [mipLevelLoop]
  have h3 : Nat.clog 2 (max 1024 512) = 10 := by
    have : max 1024 512 = 2 ^ 10 := by norm_num
    rw [this, Nat.clog_pow 2 10 (by norm_num)]
  refine ⟨h1, by rw [h3], ?_, ?_⟩
  · rw [h1, h3]; decide
  · rw [h2]; decide

/-- C2 (amended): for every pyramid extent `(w, h)` of 32-bit powers of two, the mip
level count computed by the loop of `CreateDepthPyramid` is `⌈log2(max(w, h))⌉`,
without the `+ 1`; the extents `(1024, 512)` and `(1024, 1024)` both give 10. -/
theorem C2_mip_count_pow2 (w h : Nat) (hw : ∃ a, w = 2 ^ a) (hh : ∃ b, h = 2 ^ b)
    (hw32 : w < 2 ^ 32) (hh32 : h < 2 ^ 32) :
    mipLevelLoop w h 0 = Nat.clog 2 (max w h) ∧
      mipLevelLoop 1024 512 0 = 10 ∧ mipLevelLoop 1024 1024 0 = 10 := by
  refine ⟨?_, by simp [mipLevelLoop], by simp [mipLevelLoop]⟩
  rw [mipLevelLoop_uint32 w h hw32 hh32]
  obtain ⟨a, rfl⟩ := hw
  obtain ⟨b, rfl⟩ := hh
  have hmax : max (2 ^ a) (2 ^ b) = 2 ^ max a b := by
    rcases le_total a b with hab | hab
    · rw [max_eq_right hab, max_eq_right (Nat.pow_le_pow_right (by norm_num) hab)]
    · rw [max_eq_left hab, max_eq_left (Nat.pow_le_pow_right (by norm_num) hab)]
  rw [hmax, Nat.log_pow (by norm_num), Nat.clog_pow 2 _ (by norm_num)]

/-- C2 (witness): the amended statement at the extent `(1024, 512)`. -/
theorem C2_mip_count_pow2_witness :
    mipLevelLoop 1024 512 0 = Nat.clog 2 (max 1024 512) ∧
      mipLevelLoop 1024 512 0 = 10 ∧ mipLevelLoop 1024 1024 0 = 10 :=
  C2_mip_count_pow2 1024 512 ⟨10, by norm_num⟩ ⟨9, by norm_num⟩ (by norm_num) (by norm_num)

/-- C3: for every 32-bit pyramid extent `(w, h)` the mip level count `n` computed by
the loop of `CreateDepthPyramid` is the number of simultaneous halvings needed until
both dimensions are at most 1: after `n` halvings both are, after fewer at least one
is not (so `n = 0` when both already are), and the loop stops after at most 31
passes, which the 8-bit counter holds without wrapping. -/
theorem C3_mip_count_is_number_of_halvings (w h : Nat) (hw : w < 2 ^ 32) (hh : h < 2 ^ 32) :
    (halveBoth^[mipLevelLoop w h 0] (w, h)).1 ≤ 1 ∧
      (halveBoth^[mipLevelLoop w h 0] (w, h)).2 ≤ 1 ∧
      (∀ k, k < mipLevelLoop w h 0 →
        ¬ ((halveBoth^[k] (w, h)).1 ≤ 1 ∧ (halveBoth^[k] (w, h)).2 ≤ 1)) ∧
      (w ≤ 1 ∧ h ≤ 1 → mipLevelLoop w h 0 = 0) ∧
      mipLevelLoop w h 0 ≤ 31 := by
  have hm : max w h < 2 ^ 32 := max_lt hw hh
  have h31 := log_lt_32 _ hm
  rw [mipLevelLoop_uint32 w h hw hh]
  have hle := div_pow_log_le_one (max w h)
  have hpos : 0 < 2 ^ Nat.log 2 (max w h) := Nat.pow_pos (by norm_num)
  have hwle : w / 2 ^ Nat.log 2 (max w h) ≤ max w h / 2 ^ Nat.log 2 (max w h) :=
    Nat.div_le_div_right (le_max_left w h)
  have hhle : h / 2 ^ Nat.log 2 (max w h) ≤ max w h / 2 ^ Nat.log 2 (max w h) :=
    Nat.div_le_div_right (le_max_right w h)
  refine ⟨?_, ?_, ?_, ?_, by omega⟩
  · rw [halveBoth_iterate]; exact le_trans hwle hle
  · rw [halveBoth_iterate]; exact le_trans hhle hle
  · intro k hk
    rw [halveBoth_iterate]
    have h2 := two_le_div_pow_of_lt_log (max w h) k hk
    rcases le_total w h with hwh | hwh
    · rw [max_eq_right hwh] at h2
      simp only
      omega
    · rw [max_eq_left hwh] at h2
      simp only
      omega
  · rintro ⟨h1, h2⟩
    exact Nat.log_of_lt (by omega)

/-- C3 (witness): the extent `(1280, 720)`. -/
theorem C3_mip_count_is_number_of_halvings_witness :
    (halveBoth^[mipLevelLoop 1280 720 0] (1280, 720)).1 ≤ 1 ∧
      (halveBoth^[mipLevelLoop 1280 720 0] (1280, 720)).2 ≤ 1 ∧
      (∀ k, k < mipLevelLoop 1280 720 0 →
        ¬ ((halveBoth^[k] (1280, 720)).1 ≤ 1 ∧ (halveBoth^[k] (1280, 720)).2 ≤ 1)) ∧
      (1280 ≤ 1 ∧ 720 ≤ 1 → mipLevelLoop 1280 720 0 = 0) ∧
      mipLevelLoop 1280 720 0 ≤ 31 :=
  C3_mip_count_is_number_of_halvings 1280 720 (by norm_num) (by norm_num)

/-- C4: for every draw extent with width and height at least 1, the pyramid extent
set by `CreateDepthPyramid` has a width and a height that are powers of two, at
least 1, at most the matching dimension of the draw extent, and more than half of
it (the previous power of two). -/
theorem C4_pyramid_extent_previous_pow2 (d : Driver) (drawExtent : VkExtent2D)
    (createSampler : Nat) (hw : 1 ≤ drawExtent.width) (hh : 1 ≤ drawExtent.height) :
    ((∃ a, (CreateDepthPyramid d drawExtent createSampler).depthPyramidExtent.width = 2 ^ a) ∧
      1 ≤ (CreateDepthPyramid d drawExtent createSampler).depthPyramidExtent.width ∧
      (CreateDepthPyramid d drawExtent createSampler).depthPyramidExtent.width
        ≤ drawExtent.width ∧
      drawExtent.width
        < 2 * (CreateDepthPyramid d drawExtent createSampler).depthPyramidExtent.width) ∧
    ((∃ b, (CreateDepthPyramid d drawExtent createSampler).depthPyramidExtent.height = 2 ^ b) ∧
      1 ≤ (CreateDepthPyramid d drawExtent createSampler).depthPyramidExtent.height ∧
      (CreateDepthPyramid d drawExtent createSampler).depthPyramidExtent.height
        ≤ drawExtent.height ∧
      drawExtent.height
        < 2 * (CreateDepthPyramid d drawExtent createSampler).depthPyramidExtent.height) := by
  have key : ∀ v : Nat, 1 ≤ v →
      (∃ a, PreviousPow2 v = 2 ^ a) ∧ 1 ≤ PreviousPow2 v ∧ PreviousPow2 v ≤ v ∧
        v < 2 * PreviousPow2 v := by
    intro v hv
    refine ⟨⟨Nat.log 2 v, rfl⟩, Nat.pow_pos (by norm_num), Nat.pow_log_le_self 2 (by omega), ?_⟩
    have := Nat.lt_pow_succ_log_self (by norm_num : 1 < 2) v
    rw [pow_succ] at this
    unfold PreviousPow2
    omega
  exact ⟨key _ hw, key _ hh⟩

/-- C4 (witness): the draw extent 1280 x 720 on the sample driver. -/
theorem C4_pyramid_extent_previous_pow2_witness :
    ((∃ a, (CreateDepthPyramid sampleDriver ⟨1280, 720⟩ 1).depthPyramidExtent.width = 2 ^ a) ∧
      1 ≤ (CreateDepthPyramid sampleDriver ⟨1280, 720⟩ 1).depthPyramidExtent.width ∧
      (CreateDepthPyramid sampleDriver ⟨1280, 720⟩ 1).depthPyramidExtent.width ≤ 1280 ∧
      1280 < 2 * (CreateDepthPyramid sampleDriver ⟨1280, 720⟩ 1).depthPyramidExtent.width) ∧
    ((∃ b, (CreateDepthPyramid sampleDriver ⟨1280, 720⟩ 1).depthPyramidExtent.height = 2 ^ b) ∧
      1 ≤ (CreateDepthPyramid sampleDriver ⟨1280, 720⟩ 1).depthPyramidExtent.height ∧
      (CreateDepthPyramid sampleDriver ⟨1280, 720⟩ 1).depthPyramidExtent.height ≤ 720 ∧
      720 < 2 * (CreateDepthPyramid sampleDriver ⟨1280, 720⟩ 1).depthPyramidExtent.height) :=
  C4_pyramid_extent_previous_pow2 sampleDriver ⟨1280, 720⟩ 1 (by norm_num) (by norm_num)

/-! ## Culling dispatch -/

theorem PushDescriptors_append (d : Driver) (cb : VkCommandBuffer) (bp : VkPipelineBindPoint)
    (l : VkPipelineLayout) (s n : Nat) (w : List VkWriteDescriptorSet) :
    PushDescriptors d cb bp l s n w = cb ++ PushDescriptors d [] bp l s n w := by
  unfold PushDescriptors
  split <;> simp

theorem PushDescriptors_filter_isDispatch (d : Driver) (bp : VkPipelineBindPoint)
    (l : VkPipelineLayout) (s n : Nat) (w : List VkWriteDescriptorSet) :
    (PushDescriptors d [] bp l s n w).filter Cmd.isDispatch = [] := by
  unfold PushDescriptors
  split <;> simp [Cmd.isDispatch]

/-- The commands that one call of the culling dispatch appends, written out. -/
theorem cull_commands (d : Driver) (r : VulkanRenderer) (cb : VkCommandBuffer)
    (pipeline : VkPipeline) (n drawCount lateCulling postPass bOcclusionEnabled bLODs : Nat) :
    (DispatchRenderObjectCullingComputeShader d r cb pipeline n drawCount lateCulling postPass
        bOcclusionEnabled bLODs).2 =
      cb ++ PushDescriptors d [] VK_PIPELINE_BIND_POINT_COMPUTE
          VkPipelineLayout.m_drawCullPipelineLayout 0
          (if lateCulling ≠ 0 then n else (n + 2 ^ 32 - 1) % 2 ^ 32)
          (DispatchRenderObjectCullingComputeShader d r cb pipeline n drawCount lateCulling
            postPass bOcclusionEnabled bLODs).1.pushDescriptorWritesCompute ++
        [Cmd.PipelineBarrier
          [{ buffer := VkBuffer.indirectCountBuffer
             srcStageMask := VK_PIPELINE_STAGE_2_DRAW_INDIRECT_BIT
             srcAccessMask := VK_ACCESS_2_INDIRECT_COMMAND_READ_BIT
             dstStageMask := VK_PIPELINE_STAGE_2_TRANSFER_BIT
             dstAccessMask := VK_ACCESS_2_TRANSFER_WRITE_BIT
             offset := 0, size := VK_WHOLE_SIZE }] [],
         Cmd.vkCmdFillBuffer VkBuffer.indirectCountBuffer 0 4 0,
         Cmd.PipelineBarrier
          [{ buffer := VkBuffer.indirectCountBuffer
             srcStageMask := VK_PIPELINE_STAGE_2_TRANSFER_BIT
             srcAccessMask := VK_ACCESS_2_TRANSFER_WRITE_BIT
             dstStageMask := VK_PIPELINE_STAGE_2_COMPUTE_SHADER_BIT
             dstAccessMask := VK_ACCESS_2_SHADER_READ_BIT ||| VK_ACCESS_2_SHADER_WRITE_BIT
             offset := 0, size := VK_WHOLE_SIZE },
           { buffer := VkBuffer.indirectDrawBuffer
             srcStageMask := VK_PIPELINE_STAGE_2_DRAW_INDIRECT_BIT |||
               VK_PIPELINE_STAGE_2_VERTEX_SHADER_BIT
             srcAccessMask := VK_ACCESS_2_INDIRECT_COMMAND_READ_BIT |||
               VK_ACCESS_2_SHADER_READ_BIT
             dstStageMask := VK_PIPELINE_STAGE_2_COMPUTE_SHADER_BIT
             dstAccessMask := VK_ACCESS_2_SHADER_WRITE_BIT
             offset := 0, size := VK_WHOLE_SIZE },
           { buffer := VkBuffer.visibilityBuffer
             srcStageMask := VK_PIPELINE_STAGE_2_COMPUTE_SHADER_BIT
             srcAccessMask := VK_ACCESS_MEMORY_READ_BIT ||| VK_ACCESS_MEMORY_WRITE_BIT
             dstStageMask := VK_PIPELINE_STAGE_2_COMPUTE_SHADER_BIT
             dstAccessMask := VK_ACCESS_MEMORY_READ_BIT ||| VK_ACCESS_MEMORY_WRITE_BIT
             offset := 0, size := VK_WHOLE_SIZE }]
          (if lateCulling ≠ 0 then
            [{ image := VkImage.m_depthPyramid
               srcStageMask := VK_PIPELINE_STAGE_2_COMPUTE_SHADER_BIT
               srcAccessMask := VK_ACCESS_2_SHADER_WRITE_BIT
               dstStageMask := VK_PIPELINE_STAGE_2_COMPUTE_SHADER_BIT
               dstAccessMask := VK_ACCESS_2_SHADER_READ_BIT
               oldLayout := VK_IMAGE_LAYOUT_GENERAL
               newLayout := VK_IMAGE_LAYOUT_GENERAL
               aspectMask := VK_IMAGE_ASPECT_COLOR_BIT
               baseMipLevel := 0, levelCount := VK_REMAINING_MIP_LEVELS }]
           else []),
         Cmd.vkCmdBindPipeline VK_PIPELINE_BIND_POINT_COMPUTE pipeline,
         Cmd.vkCmdPushConstants VkPipelineLayout.m_drawCullPipelineLayout
           VK_SHADER_STAGE_COMPUTE_BIT 0
           (PushConstant.DrawCullShaderPushConstant drawCount postPass bOcclusionEnabled bLODs),
         Cmd.vkCmdDispatch ((drawCount / 64 + 1) % 2 ^ 32) 1 1,
         Cmd.PipelineBarrier
          [{ buffer := VkBuffer.indirectCountBuffer
             srcStageMask := VK_PIPELINE_STAGE_2_COMPUTE_SHADER_BIT
             srcAccessMask := VK_ACCESS_2_SHADER_WRITE_BIT
             dstStageMask := VK_PIPELINE_STAGE_2_DRAW_INDIRECT_BIT
             dstAccessMask := VK_ACCESS_2_INDIRECT_COMMAND_READ_BIT
             offset := 0, size := VK_WHOLE_SIZE },
           { buffer := VkBuffer.indirectDrawBuffer
             srcStageMask := VK_PIPELINE_STAGE_2_COMPUTE_SHADER_BIT
             srcAccessMask := VK_ACCESS_2_SHADER_WRITE_BIT
             dstStageMask := VK_PIPELINE_STAGE_2_DRAW_INDIRECT_BIT |||
               VK_PIPELINE_STAGE_2_VERTEX_SHADER_BIT
             dstAccessMask := VK_ACCESS_2_INDIRECT_COMMAND_READ_BIT |||
               VK_ACCESS_2_SHADER_READ_BIT
             offset := 0, size := VK_WHOLE_SIZE },
           { buffer := VkBuffer.visibilityBuffer
             srcStageMask := VK_PIPELINE_STAGE_2_COMPUTE_SHADER_BIT
             srcAccessMask := VK_ACCESS_MEMORY_READ_BIT ||| VK_ACCESS_MEMORY_WRITE_BIT
             dstStageMask := VK_PIPELINE_STAGE_2_COMPUTE_SHADER_BIT
             dstAccessMask := VK_ACCESS_MEMORY_READ_BIT ||| VK_ACCESS_MEMORY_WRITE_BIT
             offset := 0, size := VK_WHOLE_SIZE }] []] := by
  unfold DispatchRenderObjectCullingComputeShader
  by_cases h : lateCulling = 0
  · simp only [h, ne_eq, not_true_eq_false, if_false]
    rw [PushDescriptors_append]
    simp
  · simp only [ne_eq, h, not_false_eq_true, if_true]
    rw [PushDescriptors_append]
    simp

/-- The renderer after a culling dispatch: only the last slot of the compute
descriptor array can have changed, and only for a late dispatch. -/
theorem cull_renderer (d : Driver) (r : VulkanRenderer) (cb : VkCommandBuffer)
    (pipeline : VkPipeline) (n drawCount lateCulling postPass bOcclusionEnabled bLODs : Nat) :
    (DispatchRenderObjectCullingComputeShader d r cb pipeline n drawCount lateCulling postPass
        bOcclusionEnabled bLODs).1 =
      if lateCulling ≠ 0 then
        { r with
          pushDescriptorWritesCompute :=
            r.pushDescriptorWritesCompute.set ((n + 2 ^ 32 - 1) % 2 ^ 32)
              (VkWriteDescriptorSet.image VK_DESCRIPTOR_TYPE_COMBINED_IMAGE_SAMPLER 3
                VK_IMAGE_LAYOUT_GENERAL VkImageView.m_depthPyramid
                (some VkSampler.m_depthAttachmentSampler)) }
      else r := by
  unfold DispatchRenderObjectCullingComputeShader
  simp

/-- C5 (counterexample): for `drawCount = 64` the culling dispatch is recorded with
2 workgroups in x, while `⌈64 / 64⌉ = 1`; for `drawCount = 0` it is recorded with 1
workgroup, while `⌈0 / 64⌉ = 0`. -/
theorem C5_dispatch_of_64_objects_has_two_groups :
    ((DispatchRenderObjectCullingComputeShader sampleDriver sampleRenderer []
        VkPipeline.m_initialDrawCullPipeline 8 64 0 0 1 1).2.filter Cmd.isDispatch
      = [Cmd.vkCmdDispatch 2 1 1]) ∧ (64 + 63) / 64 = 1 ∧
    ((DispatchRenderObjectCullingComputeShader sampleDriver sampleRenderer []
        VkPipeline.m_initialDrawCullPipeline 8 0 0 0 1 1).2.filter Cmd.isDispatch
      = [Cmd.vkCmdDispatch 1 1 1]) ∧ (0 + 63) / 64 = 0 := by
  refine ⟨?_, by norm_num, ?_, by norm_num⟩
  · rw [cull_commands]
    simp [PushDescriptors_filter_isDispatch, Cmd.isDispatch]
  · rw [cull_commands]
    simp [PushDescriptors_filter_isDispatch, Cmd.isDispatch]

/-- C5 (amended): for every 32-bit `drawCount`, a call of
`DispatchRenderObjectCullingComputeShader` records exactly one dispatch, with
workgroup counts `(drawCount / 64 + 1, 1, 1)`, the division rounding down. -/
theorem C5_cull_dispatch_group_count (d : Driver) (r : VulkanRenderer) (pipeline : VkPipeline)
    (n drawCount lateCulling postPass bOcclusionEnabled bLODs : Nat)
    (hdc : drawCount < 2 ^ 32) :
    (DispatchRenderObjectCullingComputeShader d r [] pipeline n drawCount lateCulling postPass
        bOcclusionEnabled bLODs).2.filter Cmd.isDispatch
      = [Cmd.vkCmdDispatch (drawCount / 64 + 1) 1 1] := by
  have hmod : (drawCount / 64 + 1) % 2 ^ 32 = drawCount / 64 + 1 :=
    Nat.mod_eq_of_lt (by omega)
  rw [cull_commands]
  simp only [List.filter_append, PushDescriptors_filter_isDispatch, List.append_nil,
    List.nil_append, hmod]
  rfl

/-- C5 (witness): 999 objects, the early dispatch of the sample renderer. -/
theorem C5_cull_dispatch_group_count_witness :
    (DispatchRenderObjectCullingComputeShader sampleDriver sampleRenderer []
        VkPipeline.m_initialDrawCullPipeline 8 999 0 0 1 1).2.filter Cmd.isDispatch
      = [Cmd.vkCmdDispatch (999 / 64 + 1) 1 1] :=
  C5_cull_dispatch_group_count sampleDriver sampleRenderer VkPipeline.m_initialDrawCullPipeline
    8 999 0 0 1 1 (by norm_num)

/-- C7: every call of `DispatchRenderObjectCullingComputeShader` records, after its
descriptor push and before its dispatch: a barrier on the indirect-count buffer from
DRAW_INDIRECT / INDIRECT_COMMAND_READ to TRANSFER / TRANSFER_WRITE, a fill of the 4
bytes of that buffer with zero, and one pipeline barrier with the three buffer
barriers (indirect-count, indirect-draw, visibility); that pipeline barrier carries
the Hi-Z image barrier COMPUTE / SHADER_WRITE to COMPUTE / SHADER_READ, GENERAL to
GENERAL, exactly when `lateCulling` is non-zero. Nothing recorded after the dispatch
is a dispatch. -/
theorem C7_barriers_before_cull_dispatch (d : Driver) (r : VulkanRenderer)
    (cb : VkCommandBuffer) (pipeline : VkPipeline)
    (n drawCount lateCulling postPass bOcclusionEnabled bLODs : Nat) :
    ∃ after : List Cmd, (∀ c ∈ after, c.isDispatch = false) ∧
      (DispatchRenderObjectCullingComputeShader d r cb pipeline n drawCount lateCulling postPass
          bOcclusionEnabled bLODs).2 =
        cb ++ PushDescriptors d [] VK_PIPELINE_BIND_POINT_COMPUTE
            VkPipelineLayout.m_drawCullPipelineLayout 0
            (if lateCulling ≠ 0 then n else (n + 2 ^ 32 - 1) % 2 ^ 32)
            (DispatchRenderObjectCullingComputeShader d r cb pipeline n drawCount lateCulling
              postPass bOcclusionEnabled bLODs).1.pushDescriptorWritesCompute ++
          [Cmd.PipelineBarrier
            [{ buffer := VkBuffer.indirectCountBuffer
               srcStageMask := VK_PIPELINE_STAGE_2_DRAW_INDIRECT_BIT
               srcAccessMask := VK_ACCESS_2_INDIRECT_COMMAND_READ_BIT
               dstStageMask := VK_PIPELINE_STAGE_2_TRANSFER_BIT
               dstAccessMask := VK_ACCESS_2_TRANSFER_WRITE_BIT
               offset := 0, size := VK_WHOLE_SIZE }] [],
           Cmd.vkCmdFillBuffer VkBuffer.indirectCountBuffer 0 4 0,
           Cmd.PipelineBarrier
            [{ buffer := VkBuffer.indirectCountBuffer
               srcStageMask := VK_PIPELINE_STAGE_2_TRANSFER_BIT
               srcAccessMask := VK_ACCESS_2_TRANSFER_WRITE_BIT
               dstStageMask := VK_PIPELINE_STAGE_2_COMPUTE_SHADER_BIT
               dstAccessMask := VK_ACCESS_2_SHADER_READ_BIT ||| VK_ACCESS_2_SHADER_WRITE_BIT
               offset := 0, size := VK_WHOLE_SIZE },
             { buffer := VkBuffer.indirectDrawBuffer
               srcStageMask := VK_PIPELINE_STAGE_2_DRAW_INDIRECT_BIT |||
                 VK_PIPELINE_STAGE_2_VERTEX_SHADER_BIT
               srcAccessMask := VK_ACCESS_2_INDIRECT_COMMAND_READ_BIT |||
                 VK_ACCESS_2_SHADER_READ_BIT
               dstStageMask := VK_PIPELINE_STAGE_2_COMPUTE_SHADER_BIT
               dstAccessMask := VK_ACCESS_2_SHADER_WRITE_BIT
               offset := 0, size := VK_WHOLE_SIZE },
             { buffer := VkBuffer.visibilityBuffer
               srcStageMask := VK_PIPELINE_STAGE_2_COMPUTE_SHADER_BIT
               srcAccessMask := VK_ACCESS_2_MEMORY_READ_BIT ||| VK_ACCESS_2_MEMORY_WRITE_BIT
               dstStageMask := VK_PIPELINE_STAGE_2_COMPUTE_SHADER_BIT
               dstAccessMask := VK_ACCESS_2_MEMORY_READ_BIT ||| VK_ACCESS_2_MEMORY_WRITE_BIT
               offset := 0, size := VK_WHOLE_SIZE }]
            (if lateCulling ≠ 0 then
              [{ image := VkImage.m_depthPyramid
                 srcStageMask := VK_PIPELINE_STAGE_2_COMPUTE_SHADER_BIT
                 srcAccessMask := VK_ACCESS_2_SHADER_WRITE_BIT
                 dstStageMask := VK_PIPELINE_STAGE_2_COMPUTE_SHADER_BIT
                 dstAccessMask := VK_ACCESS_2_SHADER_READ_BIT
                 oldLayout := VK_IMAGE_LAYOUT_GENERAL
                 newLayout := VK_IMAGE_LAYOUT_GENERAL
                 aspectMask := VK_IMAGE_ASPECT_COLOR_BIT
                 baseMipLevel := 0, levelCount := VK_REMAINING_MIP_LEVELS }]
             else []),
           Cmd.vkCmdBindPipeline VK_PIPELINE_BIND_POINT_COMPUTE pipeline,
           Cmd.vkCmdPushConstants VkPipelineLayout.m_drawCullPipelineLayout
             VK_SHADER_STAGE_COMPUTE_BIT 0
             (PushConstant.DrawCullShaderPushConstant drawCount postPass bOcclusionEnabled
               bLODs),
           Cmd.vkCmdDispatch ((drawCount / 64 + 1) % 2 ^ 32) 1 1] ++ after := by
  refine ⟨[Cmd.PipelineBarrier
            [{ buffer := VkBuffer.indirectCountBuffer
               srcStageMask := VK_PIPELINE_STAGE_2_COMPUTE_SHADER_BIT
               srcAccessMask := VK_ACCESS_2_SHADER_WRITE_BIT
               dstStageMask := VK_PIPELINE_STAGE_2_DRAW_INDIRECT_BIT
               dstAccessMask := VK_ACCESS_2_INDIRECT_COMMAND_READ_BIT
               offset := 0, size := VK_WHOLE_SIZE },
             { buffer := VkBuffer.indirectDrawBuffer
               srcStageMask := VK_PIPELINE_STAGE_2_COMPUTE_SHADER_BIT
               srcAccessMask := VK_ACCESS_2_SHADER_WRITE_BIT
               dstStageMask := VK_PIPELINE_STAGE_2_DRAW_INDIRECT_BIT |||
                 VK_PIPELINE_STAGE_2_VERTEX_SHADER_BIT
               dstAccessMask := VK_ACCESS_2_INDIRECT_COMMAND_READ_BIT |||
                 VK_ACCESS_2_SHADER_READ_BIT
               offset := 0, size := VK_WHOLE_SIZE },
             { buffer := VkBuffer.visibilityBuffer
               srcStageMask := VK_PIPELINE_STAGE_2_COMPUTE_SHADER_BIT
               srcAccessMask := VK_ACCESS_MEMORY_READ_BIT ||| VK_ACCESS_MEMORY_WRITE_BIT
               dstStageMask := VK_PIPELINE_STAGE_2_COMPUTE_SHADER_BIT
               dstAccessMask := VK_ACCESS_MEMORY_READ_BIT ||| VK_ACCESS_MEMORY_WRITE_BIT
               offset := 0, size := VK_WHOLE_SIZE }] []], ?_, ?_⟩
  · intro c hc
    simp only [List.mem_singleton] at hc
    subst hc
    rfl
  · rw [cull_commands]
    simp only [List.append_assoc, List.append_cancel_left_eq]
    rfl

/-- C8 (counterexample): in the barrier recorded after the dispatch, the visibility
buffer has the source access mask MEMORY_READ | MEMORY_WRITE, which is not
MEMORY_WRITE alone; the barrier that the claim describes is not in the stream. -/
theorem C8_visibility_source_access_is_read_write :
    (DispatchRenderObjectCullingComputeShader sampleDriver sampleRenderer []
        VkPipeline.m_initialDrawCullPipeline 8 64 0 0 1 1).2.getLast? =
      some (Cmd.PipelineBarrier
        [{ buffer := VkBuffer.indirectCountBuffer
           srcStageMask := VK_PIPELINE_STAGE_2_COMPUTE_SHADER_BIT
           srcAccessMask := VK_ACCESS_2_SHADER_WRITE_BIT
           dstStageMask := VK_PIPELINE_STAGE_2_DRAW_INDIRECT_BIT
           dstAccessMask := VK_ACCESS_2_INDIRECT_COMMAND_READ_BIT
           offset := 0, size := VK_WHOLE_SIZE },
         { buffer := VkBuffer.indirectDrawBuffer
           srcStageMask := VK_PIPELINE_STAGE_2_COMPUTE_SHADER_BIT
           srcAccessMask := VK_ACCESS_2_SHADER_WRITE_BIT
           dstStageMask := VK_PIPELINE_STAGE_2_DRAW_INDIRECT_BIT |||
             VK_PIPELINE_STAGE_2_VERTEX_SHADER_BIT
           dstAccessMask := VK_ACCESS_2_INDIRECT_COMMAND_READ_BIT |||
             VK_ACCESS_2_SHADER_READ_BIT
           offset := 0, size := VK_WHOLE_SIZE },
         { buffer := VkBuffer.visibilityBuffer
           srcStageMask := VK_PIPELINE_STAGE_2_COMPUTE_SHADER_BIT
           srcAccessMask := VK_ACCESS_2_MEMORY_READ_BIT ||| VK_ACCESS_2_MEMORY_WRITE_BIT
           dstStageMask := VK_PIPELINE_STAGE_2_COMPUTE_SHADER_BIT
           dstAccessMask := VK_ACCESS_2_MEMORY_READ_BIT ||| VK_ACCESS_2_MEMORY_WRITE_BIT
           offset := 0, size := VK_WHOLE_SIZE }] []) ∧
    VK_ACCESS_2_MEMORY_READ_BIT ||| VK_ACCESS_2_MEMORY_WRITE_BIT ≠ VK_ACCESS_2_MEMORY_WRITE_BIT ∧
    Cmd.PipelineBarrier
        [{ buffer := VkBuffer.indirectCountBuffer
           srcStageMask := VK_PIPELINE_STAGE_2_COMPUTE_SHADER_BIT
           srcAccessMask := VK_ACCESS_2_SHADER_WRITE_BIT
           dstStageMask := VK_PIPELINE_STAGE_2_DRAW_INDIRECT_BIT
           dstAccessMask := VK_ACCESS_2_INDIRECT_COMMAND_READ_BIT
           offset := 0, size := VK_WHOLE_SIZE },
         { buffer := VkBuffer.indirectDrawBuffer
           srcStageMask := VK_PIPELINE_STAGE_2_COMPUTE_SHADER_BIT
           srcAccessMask := VK_ACCESS_2_SHADER_WRITE_BIT
           dstStageMask := VK_PIPELINE_STAGE_2_DRAW_INDIRECT_BIT |||
             VK_PIPELINE_STAGE_2_VERTEX_SHADER_BIT
           dstAccessMask := VK_ACCESS_2_INDIRECT_COMMAND_READ_BIT |||
             VK_ACCESS_2_SHADER_READ_BIT
           offset := 0, size := VK_WHOLE_SIZE },
         { buffer := VkBuffer.visibilityBuffer
           srcStageMask := VK_PIPELINE_STAGE_2_COMPUTE_SHADER_BIT
           srcAccessMask := VK_ACCESS_2_MEMORY_WRITE_BIT
           dstStageMask := VK_PIPELINE_STAGE_2_COMPUTE_SHADER_BIT
           dstAccessMask := VK_ACCESS_2_MEMORY_READ_BIT ||| VK_ACCESS_2_MEMORY_WRITE_BIT
           offset := 0, size := VK_WHOLE_SIZE }] [] ∉
      (DispatchRenderObjectCullingComputeShader sampleDriver sampleRenderer []
        VkPipeline.m_initialDrawCullPipeline 8 64 0 0 1 1).2 := by
  refine ⟨by decide, by decide, by decide⟩

/-- C8 (amended): after the dispatch, every call of
`DispatchRenderObjectCullingComputeShader` records exactly one more command, a
pipeline barrier with exactly three buffer barriers and no image barrier:
indirect-count COMPUTE / SHADER_WRITE to DRAW_INDIRECT / INDIRECT_COMMAND_READ,
indirect-draw COMPUTE / SHADER_WRITE to DRAW_INDIRECT | VERTEX_SHADER /
INDIRECT_COMMAND_READ | SHADER_READ, and visibility with source COMPUTE /
MEMORY_READ | MEMORY_WRITE and destination COMPUTE / MEMORY_READ | MEMORY_WRITE.
Nothing the call records before its dispatch is a dispatch. -/
theorem C8_barriers_after_cull_dispatch (d : Driver) (r : VulkanRenderer)
    (cb : VkCommandBuffer) (pipeline : VkPipeline)
    (n drawCount lateCulling postPass bOcclusionEnabled bLODs : Nat) :
    ∃ before : List Cmd, (∀ c ∈ before, c.isDispatch = false) ∧
      (DispatchRenderObjectCullingComputeShader d r cb pipeline n drawCount lateCulling postPass
          bOcclusionEnabled bLODs).2 =
        cb ++ before ++
          [Cmd.vkCmdDispatch ((drawCount / 64 + 1) % 2 ^ 32) 1 1,
           Cmd.PipelineBarrier
            [{ buffer := VkBuffer.indirectCountBuffer
               srcStageMask := VK_PIPELINE_STAGE_2_COMPUTE_SHADER_BIT
               srcAccessMask := VK_ACCESS_2_SHADER_WRITE_BIT
               dstStageMask := VK_PIPELINE_STAGE_2_DRAW_INDIRECT_BIT
               dstAccessMask := VK_ACCESS_2_INDIRECT_COMMAND_READ_BIT
               offset := 0, size := VK_WHOLE_SIZE },
             { buffer := VkBuffer.indirectDrawBuffer
               srcStageMask := VK_PIPELINE_STAGE_2_COMPUTE_SHADER_BIT
               srcAccessMask := VK_ACCESS_2_SHADER_WRITE_BIT
               dstStageMask := VK_PIPELINE_STAGE_2_DRAW_INDIRECT_BIT |||
                 VK_PIPELINE_STAGE_2_VERTEX_SHADER_BIT
               dstAccessMask := VK_ACCESS_2_INDIRECT_COMMAND_READ_BIT |||
                 VK_ACCESS_2_SHADER_READ_BIT
               offset := 0, size := VK_WHOLE_SIZE },
             { buffer := VkBuffer.visibilityBuffer
               srcStageMask := VK_PIPELINE_STAGE_2_COMPUTE_SHADER_BIT
               srcAccessMask := VK_ACCESS_2_MEMORY_READ_BIT ||| VK_ACCESS_2_MEMORY_WRITE_BIT
               dstStageMask := VK_PIPELINE_STAGE_2_COMPUTE_SHADER_BIT
               dstAccessMask := VK_ACCESS_2_MEMORY_READ_BIT ||| VK_ACCESS_2_MEMORY_WRITE_BIT
               offset := 0, size := VK_WHOLE_SIZE }] []] := by
  refine ⟨PushDescriptors d [] VK_PIPELINE_BIND_POINT_COMPUTE
      VkPipelineLayout.m_drawCullPipelineLayout 0
      (if lateCulling ≠ 0 then n else (n + 2 ^ 32 - 1) % 2 ^ 32)
      (DispatchRenderObjectCullingComputeShader d r cb pipeline n drawCount lateCulling
        postPass bOcclusionEnabled bLODs).1.pushDescriptorWritesCompute ++
      [Cmd.PipelineBarrier
          [{ buffer := VkBuffer.indirectCountBuffer
             srcStageMask := VK_PIPELINE_STAGE_2_DRAW_INDIRECT_BIT
             srcAccessMask := VK_ACCESS_2_INDIRECT_COMMAND_READ_BIT
             dstStageMask := VK_PIPELINE_STAGE_2_TRANSFER_BIT
             dstAccessMask := VK_ACCESS_2_TRANSFER_WRITE_BIT
             offset := 0, size := VK_WHOLE_SIZE }] [],
         Cmd.vkCmdFillBuffer VkBuffer.indirectCountBuffer 0 4 0,
         Cmd.PipelineBarrier
          [{ buffer := VkBuffer.indirectCountBuffer
             srcStageMask := VK_PIPELINE_STAGE_2_TRANSFER_BIT
             srcAccessMask := VK_ACCESS_2_TRANSFER_WRITE_BIT
             dstStageMask := VK_PIPELINE_STAGE_2_COMPUTE_SHADER_BIT
             dstAccessMask := VK_ACCESS_2_SHADER_READ_BIT ||| VK_ACCESS_2_SHADER_WRITE_BIT
             offset := 0, size := VK_WHOLE_SIZE },
           { buffer := VkBuffer.indirectDrawBuffer
             srcStageMask := VK_PIPELINE_STAGE_2_DRAW_INDIRECT_BIT |||
               VK_PIPELINE_STAGE_2_VERTEX_SHADER_BIT
             srcAccessMask := VK_ACCESS_2_INDIRECT_COMMAND_READ_BIT |||
               VK_ACCESS_2_SHADER_READ_BIT
             dstStageMask := VK_PIPELINE_STAGE_2_COMPUTE_SHADER_BIT
             dstAccessMask := VK_ACCESS_2_SHADER_WRITE_BIT
             offset := 0, size := VK_WHOLE_SIZE },
           { buffer := VkBuffer.visibilityBuffer
             srcStageMask := VK_PIPELINE_STAGE_2_COMPUTE_SHADER_BIT
             srcAccessMask := VK_ACCESS_MEMORY_READ_BIT ||| VK_ACCESS_MEMORY_WRITE_BIT
             dstStageMask := VK_PIPELINE_STAGE_2_COMPUTE_SHADER_BIT
             dstAccessMask := VK_ACCESS_MEMORY_READ_BIT ||| VK_ACCESS_MEMORY_WRITE_BIT
             offset := 0, size := VK_WHOLE_SIZE }]
          (if lateCulling ≠ 0 then
            [{ image := VkImage.m_depthPyramid
               srcStageMask := VK_PIPELINE_STAGE_2_COMPUTE_SHADER_BIT
               srcAccessMask := VK_ACCESS_2_SHADER_WRITE_BIT
               dstStageMask := VK_PIPELINE_STAGE_2_COMPUTE_SHADER_BIT
               dstAccessMask := VK_ACCESS_2_SHADER_READ_BIT
               oldLayout := VK_IMAGE_LAYOUT_GENERAL
               newLayout := VK_IMAGE_LAYOUT_GENERAL
               aspectMask := VK_IMAGE_ASPECT_COLOR_BIT
               baseMipLevel := 0, levelCount := VK_REMAINING_MIP_LEVELS }]
           else []),
         Cmd.vkCmdBindPipeline VK_PIPELINE_BIND_POINT_COMPUTE pipeline,
         Cmd.vkCmdPushConstants VkPipelineLayout.m_drawCullPipelineLayout
           VK_SHADER_STAGE_COMPUTE_BIT 0
           (PushConstant.DrawCullShaderPushConstant drawCount postPass bOcclusionEnabled bLODs)], ?_, ?_⟩
  · intro c hc
    simp only [List.mem_append, List.mem_cons, List.not_mem_nil, or_false] at hc
    rcases hc with hc | hc
    · by_contra hne
      have hmem : c ∈ (PushDescriptors d [] VK_PIPELINE_BIND_POINT_COMPUTE
      VkPipelineLayout.m_drawCullPipelineLayout 0
      (if lateCulling ≠ 0 then n else (n + 2 ^ 32 - 1) % 2 ^ 32)
      (DispatchRenderObjectCullingComputeShader d r cb pipeline n drawCount lateCulling
        postPass bOcclusionEnabled bLODs).1.pushDescriptorWritesCompute).filter
              Cmd.isDispatch := List.mem_filter.2 ⟨hc, by simpa using hne⟩
      rw [PushDescriptors_filter_isDispatch] at hmem
      exact List.not_mem_nil _ hmem
    · rcases hc with rfl | rfl | rfl | rfl | rfl <;> rfl
  · rw [cull_commands]
    simp only [List.append_assoc, List.append_cancel_left_eq]
    rfl

/-! ## Depth pyramid generation -/

theorem Max_eq_max (a b : Nat) : Max a b = max a b := by
  unfold Max
  split <;> omega

theorem PushDescriptors_filter_isPushConstantsOrDispatch (d : Driver)
    (bp : VkPipelineBindPoint) (l : VkPipelineLayout) (s n : Nat)
    (w : List VkWriteDescriptorSet) :
    (PushDescriptors d [] bp l s n w).filter Cmd.isPushConstantsOrDispatch = [] := by
  unfold PushDescriptors
  split <;> simp [Cmd.isPushConstantsOrDispatch]

theorem PushDescriptors_no_dispatch (d : Driver) (bp : VkPipelineBindPoint)
    (l : VkPipelineLayout) (s n : Nat) (w : List VkWriteDescriptorSet) :
    ∀ c ∈ PushDescriptors d [] bp l s n w, c.isDispatch = false := by
  intro c hc
  unfold PushDescriptors at hc
  split at hc
  · simp only [List.nil_append, List.mem_singleton] at hc
    subst hc
    rfl
  · exact absurd hc (List.not_mem_nil _)

/-- The commands that the loop body of `GenerateDepthPyramid` appends for mip `i`. -/
theorem pyramid_body_commands (d : Driver) (r : VulkanRenderer) (cb : VkCommandBuffer)
    (i : Nat) :
    GenerateDepthPyramid.body d r cb i =
      cb ++ (PushDescriptors d [] VK_PIPELINE_BIND_POINT_COMPUTE
          VkPipelineLayout.m_depthPyramidGenerationPipelineLayout 0 2
          [VkWriteDescriptorSet.image VK_DESCRIPTOR_TYPE_COMBINED_IMAGE_SAMPLER 1
             (if i = 0 then VK_IMAGE_LAYOUT_SHADER_READ_ONLY_OPTIMAL
              else VK_IMAGE_LAYOUT_GENERAL)
             (if i = 0 then VkImageView.m_depthAttachment
              else VkImageView.m_depthPyramidMips (i - 1))
             (some VkSampler.m_depthAttachmentSampler),
           VkWriteDescriptorSet.image VK_DESCRIPTOR_TYPE_STORAGE_IMAGE 0 VK_IMAGE_LAYOUT_GENERAL
             (VkImageView.m_depthPyramidMips i) none] ++
        [Cmd.vkCmdPushConstants VkPipelineLayout.m_depthPyramidGenerationPipelineLayout
           VK_SHADER_STAGE_COMPUTE_BIT 0
           (PushConstant.pyramidLevelExtentPushConstant
             (Max 1 (r.m_depthPyramidExtent.width >>> i))
             (Max 1 (r.m_depthPyramidExtent.height >>> i))),
         Cmd.vkCmdDispatch ((Max 1 (r.m_depthPyramidExtent.width >>> i) / 32 + 1) % 2 ^ 32)
           ((Max 1 (r.m_depthPyramidExtent.height >>> i) / 32 + 1) % 2 ^ 32) 1,
         Cmd.PipelineBarrier []
           [{ image := VkImage.m_depthPyramid
              srcStageMask := VK_PIPELINE_STAGE_2_COMPUTE_SHADER_BIT
              srcAccessMask := VK_ACCESS_2_SHADER_WRITE_BIT
              dstStageMask := VK_PIPELINE_STAGE_2_COMPUTE_SHADER_BIT
              dstAccessMask := VK_ACCESS_2_SHADER_READ_BIT
              oldLayout := VK_IMAGE_LAYOUT_GENERAL
              newLayout := VK_IMAGE_LAYOUT_GENERAL
              aspectMask := VK_IMAGE_ASPECT_COLOR_BIT
              baseMipLevel := 0, levelCount := VK_REMAINING_MIP_LEVELS }]]) := by
  unfold GenerateDepthPyramid.body
  simp only []
  rw [PushDescriptors_append]
  simp

theorem pyramid_loop_commands (d : Driver) (r : VulkanRenderer) :
    ∀ (n i : Nat) (cb : VkCommandBuffer),
      GenerateDepthPyramid.loop d r n i cb =
        cb ++ (List.range' i n).flatMap (fun j => GenerateDepthPyramid.body d r [] j) := by
  intro n
  induction n with
  | zero => intro i cb; simp [GenerateDepthPyramid.loop]
  | succ n ih =>
    intro i cb
    rw [GenerateDepthPyramid.loop, ih, List.range'_succ, List.flatMap_cons,
      pyramid_body_commands d r cb i, pyramid_body_commands d r [] i]
    simp

/-- The commands that `GenerateDepthPyramid` appends: two image barriers in one
pipeline barrier, the pipeline bind, the loop bodies for the mip levels in order,
and the barrier that returns the depth attachment. -/
theorem pyramid_commands (d : Driver) (r : VulkanRenderer) (cb : VkCommandBuffer) :
    GenerateDepthPyramid d r cb =
      cb ++ ([Cmd.PipelineBarrier []
          [{ image := VkImage.m_depthAttachment
             srcStageMask := VK_PIPELINE_STAGE_2_LATE_FRAGMENT_TESTS_BIT
             srcAccessMask := VK_ACCESS_2_DEPTH_STENCIL_ATTACHMENT_READ_BIT
             dstStageMask := VK_PIPELINE_STAGE_2_COMPUTE_SHADER_BIT
             dstAccessMask := VK_ACCESS_2_SHADER_READ_BIT
             oldLayout := VK_IMAGE_LAYOUT_DEPTH_STENCIL_ATTACHMENT_OPTIMAL
             newLayout := VK_IMAGE_LAYOUT_SHADER_READ_ONLY_OPTIMAL
             aspectMask := VK_IMAGE_ASPECT_DEPTH_BIT
             baseMipLevel := 0, levelCount := VK_REMAINING_MIP_LEVELS },
           { image := VkImage.m_depthPyramid
             srcStageMask := VK_PIPELINE_STAGE_2_COMPUTE_SHADER_BIT
             srcAccessMask := VK_ACCESS_2_SHADER_READ_BIT
             dstStageMask := VK_PIPELINE_STAGE_2_COMPUTE_SHADER_BIT
             dstAccessMask := VK_ACCESS_2_SHADER_WRITE_BIT
             oldLayout := VK_IMAGE_LAYOUT_UNDEFINED
             newLayout := VK_IMAGE_LAYOUT_GENERAL
             aspectMask := VK_IMAGE_ASPECT_COLOR_BIT
             baseMipLevel := 0, levelCount := VK_REMAINING_MIP_LEVELS }],
         Cmd.vkCmdBindPipeline VK_PIPELINE_BIND_POINT_COMPUTE
           VkPipeline.m_depthPyramidGenerationPipeline] ++
        (List.range r.m_depthPyramidMipLevels).flatMap
          (fun j => GenerateDepthPyramid.body d r [] j) ++
        [Cmd.PipelineBarrier []
          [{ image := VkImage.m_depthAttachment
             srcStageMask := VK_PIPELINE_STAGE_2_COMPUTE_SHADER_BIT
             srcAccessMask := VK_ACCESS_2_SHADER_READ_BIT
             dstStageMask := VK_PIPELINE_STAGE_2_EARLY_FRAGMENT_TESTS_BIT
             dstAccessMask := VK_ACCESS_2_DEPTH_STENCIL_ATTACHMENT_READ_BIT |||
               VK_ACCESS_2_DEPTH_STENCIL_ATTACHMENT_WRITE_BIT
             oldLayout := VK_IMAGE_LAYOUT_SHADER_READ_ONLY_OPTIMAL
             newLayout := VK_IMAGE_LAYOUT_DEPTH_STENCIL_ATTACHMENT_OPTIMAL
             aspectMask := VK_IMAGE_ASPECT_DEPTH_BIT
             baseMipLevel := 0, levelCount := VK_REMAINING_MIP_LEVELS }]]) := by
  unfold GenerateDepthPyramid
  simp only []
  rw [pyramid_loop_commands, List.range_eq_range']
  simp

theorem flatMap_filter_length_one {α β : Type} (l : List α) (f : α → List β) (p : β → Bool)
    (h : ∀ a, ((f a).filter p).length = 1) : ((l.flatMap f).filter p).length = l.length := by
  induction l with
  | nil => simp
  | cons a l ih => simp [List.flatMap_cons, List.filter_append, List.length_append, h, ih,
      Nat.add_comm]

theorem pyramid_body_one_dispatch (d : Driver) (r : VulkanRenderer) (i : Nat) :
    ((GenerateDepthPyramid.body d r [] i).filter Cmd.isDispatch).length = 1 := by
  rw [pyramid_body_commands]
  simp [List.filter_append, PushDescriptors_filter_isDispatch, Cmd.isDispatch]

/-- C6 (counterexample): for the pyramid extent `(1024, 512)` the first mip pushes
the extent `(1024, 512)` and dispatches `(33, 17, 1)` workgroups, while
`⌈1024 / 32⌉ = 32` and `⌈512 / 32⌉ = 16`. -/
theorem C6_mip0_of_1024_512_dispatches_33_17 :
    ((GenerateDepthPyramid sampleDriver sampleRenderer []).filter
        Cmd.isPushConstantsOrDispatch).take 2 =
      [Cmd.vkCmdPushConstants VkPipelineLayout.m_depthPyramidGenerationPipelineLayout
         VK_SHADER_STAGE_COMPUTE_BIT 0 (PushConstant.pyramidLevelExtentPushConstant 1024 512),
       Cmd.vkCmdDispatch 33 17 1] ∧
    (1024 + 31) / 32 = 32 ∧ (512 + 31) / 32 = 16 := by
  refine ⟨by decide, by norm_num, by norm_num⟩

/-- C6 (amended): for every 32-bit pyramid extent `(W, H)` and a mip count of at
most 32 (so that every shift is by less than the width of the operand), the push
constants and dispatches recorded by `GenerateDepthPyramid` are, for each mip index
`i` below the mip count in order: the extent `w = max(1, W >> i)`,
`h = max(1, H >> i)`, then a dispatch of `(w / 32 + 1, h / 32 + 1, 1)` workgroups,
the divisions rounding down. -/
theorem C6_pyramid_mip_extent_and_groups (d : Driver) (r : VulkanRenderer)
    (hW : r.m_depthPyramidExtent.width < 2 ^ 32) (hH : r.m_depthPyramidExtent.height < 2 ^ 32)
    (_hmips : r.m_depthPyramidMipLevels ≤ 32) :
    (GenerateDepthPyramid d r []).filter Cmd.isPushConstantsOrDispatch =
      (List.range r.m_depthPyramidMipLevels).flatMap (fun i =>
        [Cmd.vkCmdPushConstants VkPipelineLayout.m_depthPyramidGenerationPipelineLayout
           VK_SHADER_STAGE_COMPUTE_BIT 0
           (PushConstant.pyramidLevelExtentPushConstant
             (max 1 (r.m_depthPyramidExtent.width >>> i))
             (max 1 (r.m_depthPyramidExtent.height >>> i))),
         Cmd.vkCmdDispatch (max 1 (r.m_depthPyramidExtent.width >>> i) / 32 + 1)
           (max 1 (r.m_depthPyramidExtent.height >>> i) / 32 + 1) 1]) := by
  have hmod : ∀ v i : Nat, v < 2 ^ 32 → (max 1 (v >>> i) / 32 + 1) % 2 ^ 32
      = max 1 (v >>> i) / 32 + 1 := by
    intro v i hv
    apply Nat.mod_eq_of_lt
    have h1 : v >>> i ≤ v := by
      rw [Nat.shiftRight_eq_div_pow]
      exact Nat.div_le_self _ _
    have h2 : max 1 (v >>> i) < 2 ^ 32 := max_lt (by norm_num) (by omega)
    omega
  rw [pyramid_commands]
  simp only [List.nil_append, List.filter_append, List.filter_flatMap]
  have hbody : ∀ i, (GenerateDepthPyramid.body d r [] i).filter Cmd.isPushConstantsOrDispatch =
      [Cmd.vkCmdPushConstants VkPipelineLayout.m_depthPyramidGenerationPipelineLayout
           VK_SHADER_STAGE_COMPUTE_BIT 0
           (PushConstant.pyramidLevelExtentPushConstant
             (max 1 (r.m_depthPyramidExtent.width >>> i))
             (max 1 (r.m_depthPyramidExtent.height >>> i))),
         Cmd.vkCmdDispatch (max 1 (r.m_depthPyramidExtent.width >>> i) / 32 + 1)
           (max 1 (r.m_depthPyramidExtent.height >>> i) / 32 + 1) 1] := by
    intro i
    rw [pyramid_body_commands]
    simp only [List.nil_append, List.filter_append,
      PushDescriptors_filter_isPushConstantsOrDispatch, Max_eq_max, hmod _ i hW, hmod _ i hH]
    rfl
  simp only [hbody]
  have h1 : List.filter Cmd.isPushConstantsOrDispatch
      [Cmd.PipelineBarrier []
          [{ image := VkImage.m_depthAttachment
             srcStageMask := VK_PIPELINE_STAGE_2_LATE_FRAGMENT_TESTS_BIT
             srcAccessMask := VK_ACCESS_2_DEPTH_STENCIL_ATTACHMENT_READ_BIT
             dstStageMask := VK_PIPELINE_STAGE_2_COMPUTE_SHADER_BIT
             dstAccessMask := VK_ACCESS_2_SHADER_READ_BIT
             oldLayout := VK_IMAGE_LAYOUT_DEPTH_STENCIL_ATTACHMENT_OPTIMAL
             newLayout := VK_IMAGE_LAYOUT_SHADER_READ_ONLY_OPTIMAL
             aspectMask := VK_IMAGE_ASPECT_DEPTH_BIT
             baseMipLevel := 0, levelCount := VK_REMAINING_MIP_LEVELS },
           { image := VkImage.m_depthPyramid
             srcStageMask := VK_PIPELINE_STAGE_2_COMPUTE_SHADER_BIT
             srcAccessMask := VK_ACCESS_2_SHADER_READ_BIT
             dstStageMask := VK_PIPELINE_STAGE_2_COMPUTE_SHADER_BIT
             dstAccessMask := VK_ACCESS_2_SHADER_WRITE_BIT
             oldLayout := VK_IMAGE_LAYOUT_UNDEFINED
             newLayout := VK_IMAGE_LAYOUT_GENERAL
             aspectMask := VK_IMAGE_ASPECT_COLOR_BIT
             baseMipLevel := 0, levelCount := VK_REMAINING_MIP_LEVELS }],
         Cmd.vkCmdBindPipeline VK_PIPELINE_BIND_POINT_COMPUTE
           VkPipeline.m_depthPyramidGenerationPipeline] = [] := rfl
  rw [h1]
  simp [Cmd.isPushConstantsOrDispatch]

/-- C6 (witness): the sample renderer, whose pyramid extent is `(1024, 512)`. -/
theorem C6_pyramid_mip_extent_and_groups_witness :
    (GenerateDepthPyramid sampleDriver sampleRenderer []).filter Cmd.isPushConstantsOrDispatch =
      (List.range sampleRenderer.m_depthPyramidMipLevels).flatMap (fun i =>
        [Cmd.vkCmdPushConstants VkPipelineLayout.m_depthPyramidGenerationPipelineLayout
           VK_SHADER_STAGE_COMPUTE_BIT 0
           (PushConstant.pyramidLevelExtentPushConstant
             (max 1 (sampleRenderer.m_depthPyramidExtent.width >>> i))
             (max 1 (sampleRenderer.m_depthPyramidExtent.height >>> i))),
         Cmd.vkCmdDispatch (max 1 (sampleRenderer.m_depthPyramidExtent.width >>> i) / 32 + 1)
           (max 1 (sampleRenderer.m_depthPyramidExtent.height >>> i) / 32 + 1) 1]) :=
  C6_pyramid_mip_extent_and_groups sampleDriver sampleRenderer (by decide) (by decide)
    (by decide)

/-- With the push-descriptor command loaded, `PushDescriptors` records one
`vkCmdPushDescriptorSetKHR` with the first `n` writes. -/
theorem PushDescriptors_of_loaded (d : Driver) (bp : VkPipelineBindPoint)
    (l : VkPipelineLayout) (s n : Nat) (w : List VkWriteDescriptorSet)
    (hload : d.vkCmdPushDescriptorSetKHR_loaded = true) :
    PushDescriptors d [] bp l s n w = [Cmd.vkCmdPushDescriptorSetKHR bp l s (w.take n)] := by
  unfold PushDescriptors
  rw [if_pos hload]
  rfl

/-- C10: when the loader returns `vkCmdPushDescriptorSetKHR`, `GenerateDepthPyramid`
records, between commands that are not dispatches, one group of commands per mip
level `i` in `[0, mip count)`, in order: the `vkCmdPushDescriptorSetKHR` whose source
is the depth attachment view in SHADER_READ_ONLY_OPTIMAL for `i = 0` and the view of
mip `i - 1` in GENERAL for `i > 0`, and whose destination is the view of mip `i`; the
push constants; one dispatch; and an image barrier on the pyramid from COMPUTE /
SHADER_WRITE to COMPUTE / SHADER_READ. The call so adds exactly as many dispatches as
there are mip levels. -/
theorem C10_one_dispatch_per_mip (d : Driver) (r : VulkanRenderer) (cb : VkCommandBuffer)
    (hload : d.vkCmdPushDescriptorSetKHR_loaded = true) :
    (∃ (before after : List Cmd) (constants : Nat → PushConstant) (gx gy gz : Nat → Nat),
      (∀ c ∈ before, c.isDispatch = false) ∧ (∀ c ∈ after, c.isDispatch = false) ∧
      GenerateDepthPyramid d r cb =
        cb ++ before ++
          (List.range r.m_depthPyramidMipLevels).flatMap (fun i =>
            [Cmd.vkCmdPushDescriptorSetKHR VK_PIPELINE_BIND_POINT_COMPUTE
                VkPipelineLayout.m_depthPyramidGenerationPipelineLayout 0
                [VkWriteDescriptorSet.image VK_DESCRIPTOR_TYPE_COMBINED_IMAGE_SAMPLER 1
                   (if i = 0 then VK_IMAGE_LAYOUT_SHADER_READ_ONLY_OPTIMAL
                    else VK_IMAGE_LAYOUT_GENERAL)
                   (if i = 0 then VkImageView.m_depthAttachment
                    else VkImageView.m_depthPyramidMips (i - 1))
                   (some VkSampler.m_depthAttachmentSampler),
                 VkWriteDescriptorSet.image VK_DESCRIPTOR_TYPE_STORAGE_IMAGE 0
                   VK_IMAGE_LAYOUT_GENERAL (VkImageView.m_depthPyramidMips i) none]] ++
              [Cmd.vkCmdPushConstants VkPipelineLayout.m_depthPyramidGenerationPipelineLayout
                 VK_SHADER_STAGE_COMPUTE_BIT 0 (constants i),
               Cmd.vkCmdDispatch (gx i) (gy i) (gz i),
               Cmd.PipelineBarrier []
                 [{ image := VkImage.m_depthPyramid
                    srcStageMask := VK_PIPELINE_STAGE_2_COMPUTE_SHADER_BIT
                    srcAccessMask := VK_ACCESS_2_SHADER_WRITE_BIT
                    dstStageMask := VK_PIPELINE_STAGE_2_COMPUTE_SHADER_BIT
                    dstAccessMask := VK_ACCESS_2_SHADER_READ_BIT
                    oldLayout := VK_IMAGE_LAYOUT_GENERAL
                    newLayout := VK_IMAGE_LAYOUT_GENERAL
                    aspectMask := VK_IMAGE_ASPECT_COLOR_BIT
                    baseMipLevel := 0, levelCount := VK_REMAINING_MIP_LEVELS }]]) ++
          after) ∧
    ((GenerateDepthPyramid d r cb).filter Cmd.isDispatch).length =
      (cb.filter Cmd.isDispatch).length + r.m_depthPyramidMipLevels := by
  constructor
  · refine ⟨[Cmd.PipelineBarrier []
          [{ image := VkImage.m_depthAttachment
             srcStageMask := VK_PIPELINE_STAGE_2_LATE_FRAGMENT_TESTS_BIT
             srcAccessMask := VK_ACCESS_2_DEPTH_STENCIL_ATTACHMENT_READ_BIT
             dstStageMask := VK_PIPELINE_STAGE_2_COMPUTE_SHADER_BIT
             dstAccessMask := VK_ACCESS_2_SHADER_READ_BIT
             oldLayout := VK_IMAGE_LAYOUT_DEPTH_STENCIL_ATTACHMENT_OPTIMAL
             newLayout := VK_IMAGE_LAYOUT_SHADER_READ_ONLY_OPTIMAL
             aspectMask := VK_IMAGE_ASPECT_DEPTH_BIT
             baseMipLevel := 0, levelCount := VK_REMAINING_MIP_LEVELS },
           { image := VkImage.m_depthPyramid
             srcStageMask := VK_PIPELINE_STAGE_2_COMPUTE_SHADER_BIT
             srcAccessMask := VK_ACCESS_2_SHADER_READ_BIT
             dstStageMask := VK_PIPELINE_STAGE_2_COMPUTE_SHADER_BIT
             dstAccessMask := VK_ACCESS_2_SHADER_WRITE_BIT
             oldLayout := VK_IMAGE_LAYOUT_UNDEFINED
             newLayout := VK_IMAGE_LAYOUT_GENERAL
             aspectMask := VK_IMAGE_ASPECT_COLOR_BIT
             baseMipLevel := 0, levelCount := VK_REMAINING_MIP_LEVELS }],
         Cmd.vkCmdBindPipeline VK_PIPELINE_BIND_POINT_COMPUTE
           VkPipeline.m_depthPyramidGenerationPipeline],
        [Cmd.PipelineBarrier []
          [{ image := VkImage.m_depthAttachment
             srcStageMask := VK_PIPELINE_STAGE_2_COMPUTE_SHADER_BIT
             srcAccessMask := VK_ACCESS_2_SHADER_READ_BIT
             dstStageMask := VK_PIPELINE_STAGE_2_EARLY_FRAGMENT_TESTS_BIT
             dstAccessMask := VK_ACCESS_2_DEPTH_STENCIL_ATTACHMENT_READ_BIT |||
               VK_ACCESS_2_DEPTH_STENCIL_ATTACHMENT_WRITE_BIT
             oldLayout := VK_IMAGE_LAYOUT_SHADER_READ_ONLY_OPTIMAL
             newLayout := VK_IMAGE_LAYOUT_DEPTH_STENCIL_ATTACHMENT_OPTIMAL
             aspectMask := VK_IMAGE_ASPECT_DEPTH_BIT
             baseMipLevel := 0, levelCount := VK_REMAINING_MIP_LEVELS }]],
        (fun i => PushConstant.pyramidLevelExtentPushConstant
          (Max 1 (r.m_depthPyramidExtent.width >>> i))
          (Max 1 (r.m_depthPyramidExtent.height >>> i))),
        (fun i => (Max 1 (r.m_depthPyramidExtent.width >>> i) / 32 + 1) % 2 ^ 32),
        (fun i => (Max 1 (r.m_depthPyramidExtent.height >>> i) / 32 + 1) % 2 ^ 32),
        (fun _ => 1), ?_, ?_, ?_⟩
    · intro c hc
      simp only [List.mem_cons, List.not_mem_nil, or_false] at hc
      rcases hc with rfl | rfl <;> rfl
    · intro c hc
      simp only [List.mem_singleton] at hc
      subst hc
      rfl
    · rw [pyramid_commands]
      have hb : (fun j => GenerateDepthPyramid.body d r [] j) = _ :=
        funext (fun j => pyramid_body_commands d r [] j)
      rw [hb]
      simp only [List.nil_append, List.append_assoc,
        PushDescriptors_of_loaded d _ _ _ _ _ hload, List.take_succ_cons, List.take_zero,
        List.take_nil]
  · rw [pyramid_commands]
    simp only [List.filter_append, List.length_append]
    rw [flatMap_filter_length_one _ _ _ (pyramid_body_one_dispatch d r)]
    simp [Cmd.isDispatch]

/-- C10 (witness): the sample driver, whose loader returns the push-descriptor
command, and the sample renderer with its 10 mip levels. -/
theorem C10_one_dispatch_per_mip_witness :
    sampleDriver.vkCmdPushDescriptorSetKHR_loaded = true ∧
      ((GenerateDepthPyramid sampleDriver sampleRenderer []).filter Cmd.isDispatch).length =
        (([] : List Cmd).filter Cmd.isDispatch).length + sampleRenderer.m_depthPyramidMipLevels :=
  ⟨rfl, (C10_one_dispatch_per_mip sampleDriver sampleRenderer [] rfl).2⟩

/-! ## Draw pass and frame -/

theorem DrawMeshTasks_append (d : Driver) (cb : VkCommandBuffer) (b : VkBuffer) (o : Nat)
    (c : VkBuffer) (co m s : Nat) :
    DrawMeshTasks d cb b o c co m s = cb ++ DrawMeshTasks d [] b o c co m s := by
  unfold DrawMeshTasks
  split <;> simp

/-- `DrawGeometry` appends to the command buffer it is given. -/
theorem DrawGeometry_append (hdr : Header) (d : Driver) (r : VulkanRenderer)
    (cb : VkCommandBuffer) (w : List VkWriteDescriptorSet) (drawCount latePass : Nat)
    (pipeline : VkPipeline) :
    DrawGeometry hdr d r cb w drawCount latePass pipeline =
      cb ++ DrawGeometry hdr d r [] w drawCount latePass pipeline := by
  unfold DrawGeometry BeginRendering
  simp only []
  rw [PushDescriptors_append]
  conv_rhs => rw [PushDescriptors_append]
  split
  · rw [DrawMeshTasks_append]
    conv_rhs => rw [DrawMeshTasks_append]
    simp
  · simp

/-- `DrawGeometry` reads only the draw extent and the mesh-shader flag of the
renderer. -/
theorem DrawGeometry_congr (hdr : Header) (d : Driver) (r r' : VulkanRenderer)
    (cb : VkCommandBuffer) (w : List VkWriteDescriptorSet) (drawCount latePass : Nat)
    (pipeline : VkPipeline) (h1 : r.m_drawExtent = r'.m_drawExtent)
    (h2 : r.meshShaderSupport = r'.meshShaderSupport) :
    DrawGeometry hdr d r cb w drawCount latePass pipeline =
      DrawGeometry hdr d r' cb w drawCount latePass pipeline := by
  unfold DrawGeometry
  rw [h1, h2]

/-- A culling dispatch appends to the command buffer it is given. -/
theorem cull_append (d : Driver) (r : VulkanRenderer) (cb : VkCommandBuffer)
    (pipeline : VkPipeline) (n drawCount lateCulling postPass bOcclusionEnabled bLODs : Nat) :
    (DispatchRenderObjectCullingComputeShader d r cb pipeline n drawCount lateCulling postPass
        bOcclusionEnabled bLODs).2 =
      cb ++ (DispatchRenderObjectCullingComputeShader d r [] pipeline n drawCount lateCulling
        postPass bOcclusionEnabled bLODs).2 := by
  rw [cull_commands, cull_commands d r [], cull_renderer, cull_renderer]
  simp

/-- A second late dispatch on the renderer left by a late dispatch records what it
would record on the renderer before that dispatch: the last descriptor slot already
holds the depth-pyramid write. -/
theorem cull_after_late (d : Driver) (r : VulkanRenderer) (cb : VkCommandBuffer)
    (p p' : VkPipeline) (dc pp o l dc' pp' o' l' lateCulling : Nat) (hl : lateCulling ≠ 0) :
    (DispatchRenderObjectCullingComputeShader d
        (DispatchRenderObjectCullingComputeShader d r cb p r.pushDescriptorWritesCompute.length
          dc lateCulling pp o l).1 []
        p' (DispatchRenderObjectCullingComputeShader d r cb p
          r.pushDescriptorWritesCompute.length dc lateCulling pp o l).1.pushDescriptorWritesCompute.length
        dc' lateCulling pp' o' l').2 =
      (DispatchRenderObjectCullingComputeShader d r [] p' r.pushDescriptorWritesCompute.length
        dc' lateCulling pp' o' l').2 := by
  rw [cull_commands, cull_commands d r [], cull_renderer, cull_renderer, cull_renderer]
  simp only [hl, ne_eq, not_false_eq_true, if_true, List.length_set, List.set_set]

theorem pyramid_append (d : Driver) (r : VulkanRenderer) (cb : VkCommandBuffer) :
    GenerateDepthPyramid d r cb = cb ++ GenerateDepthPyramid d r [] := by
  rw [pyramid_commands, pyramid_commands d r []]
  simp

/-- `GenerateDepthPyramid` reads only the pyramid extent and mip count of the
renderer. -/
theorem pyramid_congr (d : Driver) (r r' : VulkanRenderer) (cb : VkCommandBuffer)
    (h1 : r.m_depthPyramidExtent = r'.m_depthPyramidExtent)
    (h2 : r.m_depthPyramidMipLevels = r'.m_depthPyramidMipLevels) :
    GenerateDepthPyramid d r cb = GenerateDepthPyramid d r' cb := by
  have hb : ∀ i cb, GenerateDepthPyramid.body d r cb i = GenerateDepthPyramid.body d r' cb i := by
    intro i cb
    unfold GenerateDepthPyramid.body
    rw [h1]
  have hl : ∀ n i cb, GenerateDepthPyramid.loop d r n i cb
      = GenerateDepthPyramid.loop d r' n i cb := by
    intro n
    induction n with
    | zero => intro i cb; rfl
    | succ n ih => intro i cb; rw [GenerateDepthPyramid.loop, GenerateDepthPyramid.loop, hb, ih]
  unfold GenerateDepthPyramid
  simp only [h2, hl]

theorem prepare_currentFrame (hdr : Header) (d : Driver) (r : VulkanRenderer)
    (context : DrawContext) :
    (DrawFrame.prepare hdr d r context).1.m_currentFrame = r.m_currentFrame := by
  unfold DrawFrame.prepare RecreateSwapchain
  simp only []
  split <;> rfl

theorem DrawGeometry_setCompute (hdr : Header) (d : Driver) (r : VulkanRenderer)
    (x : List VkWriteDescriptorSet) (cb : VkCommandBuffer) (w : List VkWriteDescriptorSet)
    (drawCount latePass : Nat) (pipeline : VkPipeline) :
    DrawGeometry hdr d { r with pushDescriptorWritesCompute := x } cb w drawCount latePass
        pipeline =
      DrawGeometry hdr d r cb w drawCount latePass pipeline :=
  DrawGeometry_congr hdr d _ r cb w drawCount latePass pipeline rfl rfl

theorem cull_on_late_renderer (d : Driver) (r : VulkanRenderer) (p : VkPipeline)
    (dc pp o l : Nat) :
    (DispatchRenderObjectCullingComputeShader d
        { r with
          pushDescriptorWritesCompute :=
            r.pushDescriptorWritesCompute.set
              ((r.pushDescriptorWritesCompute.length + 2 ^ 32 - 1) % 2 ^ 32)
              (VkWriteDescriptorSet.image VK_DESCRIPTOR_TYPE_COMBINED_IMAGE_SAMPLER 3
                VK_IMAGE_LAYOUT_GENERAL VkImageView.m_depthPyramid
                (some VkSampler.m_depthAttachmentSampler)) } []
        p (r.pushDescriptorWritesCompute.set
              ((r.pushDescriptorWritesCompute.length + 2 ^ 32 - 1) % 2 ^ 32)
              (VkWriteDescriptorSet.image VK_DESCRIPTOR_TYPE_COMBINED_IMAGE_SAMPLER 3
                VK_IMAGE_LAYOUT_GENERAL VkImageView.m_depthPyramid
                (some VkSampler.m_depthAttachmentSampler))).length
        dc 1 pp o l).2 =
      (DispatchRenderObjectCullingComputeShader d r [] p r.pushDescriptorWritesCompute.length
        dc 1 pp o l).2 := by
  rw [cull_commands, cull_commands d r [], cull_renderer, cull_renderer]
  simp only [ne_eq, one_ne_zero, not_false_eq_true, if_true, List.length_set, List.set_set]

/-- The commands of one frame, as the concatenation of what each step records on an
empty command buffer. -/
theorem frame_commands (hdr : Header) (d : Driver) (r : VulkanRenderer)
    (context : DrawContext) (swapchainIdx : Nat) :
    frameCommands hdr d r context swapchainIdx =
      (DispatchRenderObjectCullingComputeShader d (DrawFrame.prepare hdr d r context).1 []
          VkPipeline.m_initialDrawCullPipeline
          (DrawFrame.prepare hdr d r context).1.pushDescriptorWritesCompute.length
          context.drawCount 0 0 context.bOcclusionCulling context.bLOD).2 ++
        DefineViewportAndScissor [] (DrawFrame.prepare hdr d r context).1.m_drawExtent ++
        [Cmd.PipelineBarrier []
          [{ image := VkImage.m_colorAttachment
             srcStageMask := VK_PIPELINE_STAGE_2_ALL_COMMANDS_BIT
             srcAccessMask := VK_ACCESS_2_NONE
             dstStageMask := VK_PIPELINE_STAGE_2_COLOR_ATTACHMENT_OUTPUT_BIT
             dstAccessMask := VK_ACCESS_2_COLOR_ATTACHMENT_WRITE_BIT
             oldLayout := VK_IMAGE_LAYOUT_UNDEFINED
             newLayout := VK_IMAGE_LAYOUT_COLOR_ATTACHMENT_OPTIMAL
             aspectMask := VK_IMAGE_ASPECT_COLOR_BIT
             baseMipLevel := 0, levelCount := VK_REMAINING_MIP_LEVELS },
           { image := VkImage.m_depthAttachment
             srcStageMask := VK_PIPELINE_STAGE_2_ALL_COMMANDS_BIT
             srcAccessMask := VK_ACCESS_2_NONE
             dstStageMask := VK_PIPELINE_STAGE_2_LATE_FRAGMENT_TESTS_BIT
             dstAccessMask := VK_ACCESS_2_DEPTH_STENCIL_ATTACHMENT_WRITE_BIT
             oldLayout := VK_IMAGE_LAYOUT_UNDEFINED
             newLayout := VK_IMAGE_LAYOUT_DEPTH_ATTACHMENT_OPTIMAL
             aspectMask := VK_IMAGE_ASPECT_DEPTH_BIT
             baseMipLevel := 0, levelCount := VK_REMAINING_MIP_LEVELS }]] ++
        DrawGeometry hdr d (DrawFrame.prepare hdr d r context).1 []
          (DrawFrame.prepare hdr d r context).1.pushDescriptorWritesGraphics
          context.drawCount 0 VkPipeline.m_opaqueGeometryPipeline ++
        [Cmd.vkCmdEndRendering] ++
        GenerateDepthPyramid d (DrawFrame.prepare hdr d r context).1 [] ++
        (DispatchRenderObjectCullingComputeShader d (DrawFrame.prepare hdr d r context).1 []
          VkPipeline.m_lateDrawCullPipeline
          (DrawFrame.prepare hdr d r context).1.pushDescriptorWritesCompute.length
          context.drawCount 1 0 context.bOcclusionCulling context.bLOD).2 ++
        DrawGeometry hdr d (DrawFrame.prepare hdr d r context).1 []
          (DrawFrame.prepare hdr d r context).1.pushDescriptorWritesGraphics
          context.drawCount 1 VkPipeline.m_opaqueGeometryPipeline ++
        [Cmd.vkCmdEndRendering] ++
        (DispatchRenderObjectCullingComputeShader d (DrawFrame.prepare hdr d r context).1 []
          VkPipeline.m_lateDrawCullPipeline
          (DrawFrame.prepare hdr d r context).1.pushDescriptorWritesCompute.length
          context.drawCount 1 1 context.bOcclusionCulling context.bLOD).2 ++
        DrawGeometry hdr d (DrawFrame.prepare hdr d r context).1 []
          (DrawFrame.prepare hdr d r context).1.pushDescriptorWritesGraphics
          context.drawCount 1 VkPipeline.m_postPassGeometryPipeline ++
        [Cmd.vkCmdEndRendering] ++
        [Cmd.PipelineBarrier []
          [{ image := VkImage.m_colorAttachment
             srcStageMask := VK_PIPELINE_STAGE_2_COLOR_ATTACHMENT_OUTPUT_BIT
             srcAccessMask := VK_ACCESS_2_COLOR_ATTACHMENT_READ_BIT |||
               VK_ACCESS_2_COLOR_ATTACHMENT_WRITE_BIT
             dstStageMask := VK_PIPELINE_STAGE_2_BLIT_BIT
             dstAccessMask := VK_ACCESS_2_TRANSFER_WRITE_BIT
             oldLayout := VK_IMAGE_LAYOUT_COLOR_ATTACHMENT_OPTIMAL
             newLayout := VK_IMAGE_LAYOUT_TRANSFER_SRC_OPTIMAL
             aspectMask := VK_IMAGE_ASPECT_COLOR_BIT
             baseMipLevel := 0, levelCount := VK_REMAINING_MIP_LEVELS },
           { image := VkImage.swapchainImages swapchainIdx
             srcStageMask := VK_PIPELINE_STAGE_2_ALL_COMMANDS_BIT
             srcAccessMask := VK_ACCESS_2_MEMORY_READ_BIT ||| VK_ACCESS_2_MEMORY_WRITE_BIT
             dstStageMask := VK_PIPELINE_STAGE_2_BLIT_BIT
             dstAccessMask := VK_ACCESS_2_TRANSFER_READ_BIT
             oldLayout := VK_IMAGE_LAYOUT_UNDEFINED
             newLayout := VK_IMAGE_LAYOUT_TRANSFER_DST_OPTIMAL
             aspectMask := VK_IMAGE_ASPECT_COLOR_BIT
             baseMipLevel := 0, levelCount := VK_REMAINING_MIP_LEVELS }],
         Cmd.CopyImageToImage VkImage.m_colorAttachment VK_IMAGE_LAYOUT_TRANSFER_SRC_OPTIMAL
           (VkImage.swapchainImages swapchainIdx) VK_IMAGE_LAYOUT_TRANSFER_DST_OPTIMAL
           (DrawFrame.prepare hdr d r context).1.m_drawExtent
           (DrawFrame.prepare hdr d r context).1.m_initHandles.swapchainExtent
           { aspectMask := VK_IMAGE_ASPECT_COLOR_BIT, mipLevel := 0, baseArrayLayer := 0,
             layerCount := 1 }
           { aspectMask := VK_IMAGE_ASPECT_COLOR_BIT, mipLevel := 0, baseArrayLayer := 0,
             layerCount := 1 }
           VK_FILTER_LINEAR,
         Cmd.PipelineBarrier []
          [{ image := VkImage.swapchainImages swapchainIdx
             srcStageMask := VK_PIPELINE_STAGE_2_BLIT_BIT
             srcAccessMask := VK_ACCESS_2_TRANSFER_READ_BIT
             dstStageMask := VK_PIPELINE_STAGE_2_ALL_COMMANDS_BIT
             dstAccessMask := VK_ACCESS_2_MEMORY_READ_BIT ||| VK_ACCESS_2_MEMORY_WRITE_BIT
             oldLayout := VK_IMAGE_LAYOUT_TRANSFER_DST_OPTIMAL
             newLayout := VK_IMAGE_LAYOUT_PRESENT_SRC_KHR
             aspectMask := VK_IMAGE_ASPECT_COLOR_BIT
             baseMipLevel := 0, levelCount := VK_REMAINING_MIP_LEVELS }]] := by
  unfold frameCommands DrawFrame
  simp only [cull_renderer, ne_eq, one_ne_zero, not_false_eq_true, if_true, not_true_eq_false,
    if_false, DrawGeometry_setCompute, DefineViewportAndScissor]
  rw [← prepare_currentFrame hdr d r context, Function.update_same]
  simp only [DrawGeometry_append _ _ _ (_ ++ _), pyramid_append _ _ (_ ++ _),
    cull_append _ _ (_ ++ _), cull_on_late_renderer, List.append_assoc, List.nil_append,
    List.cons_append, List.singleton_append]

theorem PushDescriptors_renderingAttachments (d : Driver) (bp : VkPipelineBindPoint)
    (l : VkPipelineLayout) (s n : Nat) (w : List VkWriteDescriptorSet) :
    (PushDescriptors d [] bp l s n w).filterMap Cmd.renderingAttachments = [] := by
  unfold PushDescriptors
  split <;> simp [Cmd.renderingAttachments]

theorem DrawMeshTasks_renderingAttachments (d : Driver) (b : VkBuffer) (o : Nat)
    (c : VkBuffer) (co m s : Nat) :
    (DrawMeshTasks d [] b o c co m s).filterMap Cmd.renderingAttachments = [] := by
  unfold DrawMeshTasks
  split <;> simp [Cmd.renderingAttachments]

theorem cull_renderingAttachments (d : Driver) (r : VulkanRenderer) (p : VkPipeline)
    (n dc lc pp o l : Nat) :
    (DispatchRenderObjectCullingComputeShader d r [] p n dc lc pp o l).2.filterMap
      Cmd.renderingAttachments = [] := by
  rw [cull_commands]
  simp [List.filterMap_append, PushDescriptors_renderingAttachments, Cmd.renderingAttachments]

theorem pyramid_renderingAttachments (d : Driver) (r : VulkanRenderer) :
    (GenerateDepthPyramid d r []).filterMap Cmd.renderingAttachments = [] := by
  have hb : ∀ i, (GenerateDepthPyramid.body d r [] i).filterMap Cmd.renderingAttachments = [] := by
    intro i
    rw [pyramid_body_commands]
    simp [List.filterMap_append, PushDescriptors_renderingAttachments, Cmd.renderingAttachments]
  rw [pyramid_commands]
  simp [List.filterMap_append, List.filterMap_flatMap, hb, Cmd.renderingAttachments]

/-- The attachments opened by one `DrawGeometry` call. -/
theorem DrawGeometry_renderingAttachments (hdr : Header) (d : Driver) (r : VulkanRenderer)
    (w : List VkWriteDescriptorSet) (drawCount latePass : Nat) (pipeline : VkPipeline) :
    (DrawGeometry hdr d r [] w drawCount latePass pipeline).filterMap Cmd.renderingAttachments =
      [([{ imageView := VkImageView.m_colorAttachment
           imageLayout := VK_IMAGE_LAYOUT_COLOR_ATTACHMENT_OPTIMAL
           loadOp := if latePass ≠ 0 then VK_ATTACHMENT_LOAD_OP_LOAD
             else VK_ATTACHMENT_LOAD_OP_CLEAR
           storeOp := VK_ATTACHMENT_STORE_OP_STORE
           clearValue := { color := { w0 := hdr.clearValueDepth_default.depth
                                      w1 := hdr.clearValueDepth_default.stencil
                                      w2 := F32_0_3, w3 := F32_0 } } }],
        some { imageView := VkImageView.m_depthAttachment
               imageLayout := VK_IMAGE_LAYOUT_DEPTH_ATTACHMENT_OPTIMAL
               loadOp := if latePass ≠ 0 then VK_ATTACHMENT_LOAD_OP_LOAD
                 else VK_ATTACHMENT_LOAD_OP_CLEAR
               storeOp := VK_ATTACHMENT_STORE_OP_STORE
               clearValue := { color := { w0 := 0, w1 := 0, w2 := 0, w3 := 0 } } })] := by
  unfold DrawGeometry BeginRendering
  simp only []
  rw [PushDescriptors_append]
  split
  · rw [DrawMeshTasks_append]
    simp [List.filterMap_append, PushDescriptors_renderingAttachments,
      DrawMeshTasks_renderingAttachments, Cmd.renderingAttachments,
      CreateRenderingAttachmentInfo, VkClearValue.assignColor, VkClearValue.assignDepthStencil]
  · simp [List.filterMap_append, PushDescriptors_renderingAttachments,
      Cmd.renderingAttachments,
      CreateRenderingAttachmentInfo, VkClearValue.assignColor, VkClearValue.assignDepthStencil]

/-! ## Phase marks of a frame -/

theorem PushDescriptors_phaseMark (d : Driver) (bp : VkPipelineBindPoint)
    (l : VkPipelineLayout) (s n : Nat) (w : List VkWriteDescriptorSet) :
    (PushDescriptors d [] bp l s n w).filterMap Cmd.phaseMark = [] := by
  unfold PushDescriptors
  split <;> simp [Cmd.phaseMark]

theorem cull_phaseMark (d : Driver) (r : VulkanRenderer) (p : VkPipeline)
    (n dc lc pp o l : Nat) :
    (DispatchRenderObjectCullingComputeShader d r [] p n dc lc pp o l).2.filterMap
      Cmd.phaseMark = [PhaseMark.bindCompute p, PhaseMark.cullConstants dc pp] := by
  rw [cull_commands]
  by_cases h : lc = 0 <;>
    simp [List.filterMap_append, PushDescriptors_phaseMark, Cmd.phaseMark, h]

theorem pyramid_phaseMark (d : Driver) (r : VulkanRenderer) :
    (GenerateDepthPyramid d r []).filterMap Cmd.phaseMark =
      [PhaseMark.bindCompute VkPipeline.m_depthPyramidGenerationPipeline] := by
  have hb : ∀ i, (GenerateDepthPyramid.body d r [] i).filterMap Cmd.phaseMark = [] := by
    intro i
    rw [pyramid_body_commands]
    simp [List.filterMap_append, PushDescriptors_phaseMark, Cmd.phaseMark]
  rw [pyramid_commands]
  simp [List.filterMap_append, List.filterMap_flatMap, hb, Cmd.phaseMark]

/-- The phase marks of one `DrawGeometry` call: the rendering scope is opened, the
pipeline bound, and the indirect draw recorded (unless the mesh-shader path is
latched and the loader has no mesh-task draw). -/
theorem DrawGeometry_phaseMark (hdr : Header) (d : Driver) (r : VulkanRenderer)
    (w : List VkWriteDescriptorSet) (drawCount latePass : Nat) (pipeline : VkPipeline) :
    (DrawGeometry hdr d r [] w drawCount latePass pipeline).filterMap Cmd.phaseMark =
      [PhaseMark.beginRendering
          [if latePass ≠ 0 then VK_ATTACHMENT_LOAD_OP_LOAD else VK_ATTACHMENT_LOAD_OP_CLEAR],
        PhaseMark.bindGraphics pipeline] ++
        (if r.meshShaderSupport ≠ 0 ∧ d.vkCmdDrawMeshTasksIndirectCountEXT_loaded = false then []
         else [PhaseMark.indirectDraw drawCount]) := by
  unfold DrawGeometry BeginRendering
  simp only []
  rw [PushDescriptors_append]
  by_cases hm : r.meshShaderSupport = 0
  · simp [hm, List.filterMap_append, PushDescriptors_phaseMark, Cmd.phaseMark,
      CreateRenderingAttachmentInfo]
  · by_cases hl : d.vkCmdDrawMeshTasksIndirectCountEXT_loaded = true
    · simp [hm, hl, DrawMeshTasks, List.filterMap_append, PushDescriptors_phaseMark,
        Cmd.phaseMark, CreateRenderingAttachmentInfo]
    · simp [hm, hl, DrawMeshTasks, List.filterMap_append, PushDescriptors_phaseMark,
        Cmd.phaseMark, CreateRenderingAttachmentInfo]

/-- C1: the commands recorded by `DrawFrame` into the command buffer of its frame
are, in this order and with nothing else: the early culling dispatch (`lateCulling =
0`, `postPass = 0`, initial cull pipeline); the viewport and scissor; the transition
of the colour and depth attachments from UNDEFINED; the early draw; the depth
pyramid generation; the late culling dispatch (`1`, `0`); the late draw; the post
culling dispatch (`1`, `1`); the post draw with the post-pass pipeline; the transfer
transitions; the blit of the colour attachment to the acquired swapchain image; the
transition of that image to PRESENT_SRC. Every culling dispatch and every draw is
given `context.drawCount`. Read off the flat stream, the marking commands come in
that same order: cull pipeline and constants, attachment transition, rendering scope
and draw, pyramid pipeline, and so on to the blit and the present transition. -/
theorem C1_frame_phase_order (hdr : Header) (d : Driver) (r : VulkanRenderer)
    (context : DrawContext) (swapchainIdx : Nat) :
    (frameCommands hdr d r context swapchainIdx =
      (DispatchRenderObjectCullingComputeShader d (DrawFrame.prepare hdr d r context).1 []
          VkPipeline.m_initialDrawCullPipeline
          (DrawFrame.prepare hdr d r context).1.pushDescriptorWritesCompute.length
          context.drawCount 0 0 context.bOcclusionCulling context.bLOD).2 ++
        DefineViewportAndScissor [] (DrawFrame.prepare hdr d r context).1.m_drawExtent ++
        [Cmd.PipelineBarrier []
          [{ image := VkImage.m_colorAttachment
             srcStageMask := VK_PIPELINE_STAGE_2_ALL_COMMANDS_BIT
             srcAccessMask := VK_ACCESS_2_NONE
             dstStageMask := VK_PIPELINE_STAGE_2_COLOR_ATTACHMENT_OUTPUT_BIT
             dstAccessMask := VK_ACCESS_2_COLOR_ATTACHMENT_WRITE_BIT
             oldLayout := VK_IMAGE_LAYOUT_UNDEFINED
             newLayout := VK_IMAGE_LAYOUT_COLOR_ATTACHMENT_OPTIMAL
             aspectMask := VK_IMAGE_ASPECT_COLOR_BIT
             baseMipLevel := 0, levelCount := VK_REMAINING_MIP_LEVELS },
           { image := VkImage.m_depthAttachment
             srcStageMask := VK_PIPELINE_STAGE_2_ALL_COMMANDS_BIT
             srcAccessMask := VK_ACCESS_2_NONE
             dstStageMask := VK_PIPELINE_STAGE_2_LATE_FRAGMENT_TESTS_BIT
             dstAccessMask := VK_ACCESS_2_DEPTH_STENCIL_ATTACHMENT_WRITE_BIT
             oldLayout := VK_IMAGE_LAYOUT_UNDEFINED
             newLayout := VK_IMAGE_LAYOUT_DEPTH_ATTACHMENT_OPTIMAL
             aspectMask := VK_IMAGE_ASPECT_DEPTH_BIT
             baseMipLevel := 0, levelCount := VK_REMAINING_MIP_LEVELS }]] ++
        DrawGeometry hdr d (DrawFrame.prepare hdr d r context).1 []
          (DrawFrame.prepare hdr d r context).1.pushDescriptorWritesGraphics
          context.drawCount 0 VkPipeline.m_opaqueGeometryPipeline ++
        [Cmd.vkCmdEndRendering] ++
        GenerateDepthPyramid d (DrawFrame.prepare hdr d r context).1 [] ++
        (DispatchRenderObjectCullingComputeShader d (DrawFrame.prepare hdr d r context).1 []
          VkPipeline.m_lateDrawCullPipeline
          (DrawFrame.prepare hdr d r context).1.pushDescriptorWritesCompute.length
          context.drawCount 1 0 context.bOcclusionCulling context.bLOD).2 ++
        DrawGeometry hdr d (DrawFrame.prepare hdr d r context).1 []
          (DrawFrame.prepare hdr d r context).1.pushDescriptorWritesGraphics
          context.drawCount 1 VkPipeline.m_opaqueGeometryPipeline ++
        [Cmd.vkCmdEndRendering] ++
        (DispatchRenderObjectCullingComputeShader d (DrawFrame.prepare hdr d r context).1 []
          VkPipeline.m_lateDrawCullPipeline
          (DrawFrame.prepare hdr d r context).1.pushDescriptorWritesCompute.length
          context.drawCount 1 1 context.bOcclusionCulling context.bLOD).2 ++
        DrawGeometry hdr d (DrawFrame.prepare hdr d r context).1 []
          (DrawFrame.prepare hdr d r context).1.pushDescriptorWritesGraphics
          context.drawCount 1 VkPipeline.m_postPassGeometryPipeline ++
        [Cmd.vkCmdEndRendering] ++
        [Cmd.PipelineBarrier []
          [{ image := VkImage.m_colorAttachment
             srcStageMask := VK_PIPELINE_STAGE_2_COLOR_ATTACHMENT_OUTPUT_BIT
             srcAccessMask := VK_ACCESS_2_COLOR_ATTACHMENT_READ_BIT |||
               VK_ACCESS_2_COLOR_ATTACHMENT_WRITE_BIT
             dstStageMask := VK_PIPELINE_STAGE_2_BLIT_BIT
             dstAccessMask := VK_ACCESS_2_TRANSFER_WRITE_BIT
             oldLayout := VK_IMAGE_LAYOUT_COLOR_ATTACHMENT_OPTIMAL
             newLayout := VK_IMAGE_LAYOUT_TRANSFER_SRC_OPTIMAL
             aspectMask := VK_IMAGE_ASPECT_COLOR_BIT
             baseMipLevel := 0, levelCount := VK_REMAINING_MIP_LEVELS },
           { image := VkImage.swapchainImages swapchainIdx
             srcStageMask := VK_PIPELINE_STAGE_2_ALL_COMMANDS_BIT
             srcAccessMask := VK_ACCESS_2_MEMORY_READ_BIT ||| VK_ACCESS_2_MEMORY_WRITE_BIT
             dstStageMask := VK_PIPELINE_STAGE_2_BLIT_BIT
             dstAccessMask := VK_ACCESS_2_TRANSFER_READ_BIT
             oldLayout := VK_IMAGE_LAYOUT_UNDEFINED
             newLayout := VK_IMAGE_LAYOUT_TRANSFER_DST_OPTIMAL
             aspectMask := VK_IMAGE_ASPECT_COLOR_BIT
             baseMipLevel := 0, levelCount := VK_REMAINING_MIP_LEVELS }],
         Cmd.CopyImageToImage VkImage.m_colorAttachment VK_IMAGE_LAYOUT_TRANSFER_SRC_OPTIMAL
           (VkImage.swapchainImages swapchainIdx) VK_IMAGE_LAYOUT_TRANSFER_DST_OPTIMAL
           (DrawFrame.prepare hdr d r context).1.m_drawExtent
           (DrawFrame.prepare hdr d r context).1.m_initHandles.swapchainExtent
           { aspectMask := VK_IMAGE_ASPECT_COLOR_BIT, mipLevel := 0, baseArrayLayer := 0,
             layerCount := 1 }
           { aspectMask := VK_IMAGE_ASPECT_COLOR_BIT, mipLevel := 0, baseArrayLayer := 0,
             layerCount := 1 }
           VK_FILTER_LINEAR,
         Cmd.PipelineBarrier []
          [{ image := VkImage.swapchainImages swapchainIdx
             srcStageMask := VK_PIPELINE_STAGE_2_BLIT_BIT
             srcAccessMask := VK_ACCESS_2_TRANSFER_READ_BIT
             dstStageMask := VK_PIPELINE_STAGE_2_ALL_COMMANDS_BIT
             dstAccessMask := VK_ACCESS_2_MEMORY_READ_BIT ||| VK_ACCESS_2_MEMORY_WRITE_BIT
             oldLayout := VK_IMAGE_LAYOUT_TRANSFER_DST_OPTIMAL
             newLayout := VK_IMAGE_LAYOUT_PRESENT_SRC_KHR
             aspectMask := VK_IMAGE_ASPECT_COLOR_BIT
             baseMipLevel := 0, levelCount := VK_REMAINING_MIP_LEVELS }]]) ∧
    (frameCommands hdr d r context swapchainIdx).filterMap Cmd.phaseMark =
      [PhaseMark.bindCompute VkPipeline.m_initialDrawCullPipeline,
       PhaseMark.cullConstants context.drawCount 0,
       PhaseMark.attachmentTransition,
       PhaseMark.beginRendering [VK_ATTACHMENT_LOAD_OP_CLEAR],
       PhaseMark.bindGraphics VkPipeline.m_opaqueGeometryPipeline] ++
        (if (DrawFrame.prepare hdr d r context).1.meshShaderSupport ≠ 0 ∧
              d.vkCmdDrawMeshTasksIndirectCountEXT_loaded = false then []
           else [PhaseMark.indirectDraw context.drawCount]) ++
      [PhaseMark.bindCompute VkPipeline.m_depthPyramidGenerationPipeline,
       PhaseMark.bindCompute VkPipeline.m_lateDrawCullPipeline,
       PhaseMark.cullConstants context.drawCount 0,
       PhaseMark.beginRendering [VK_ATTACHMENT_LOAD_OP_LOAD],
       PhaseMark.bindGraphics VkPipeline.m_opaqueGeometryPipeline] ++
        (if (DrawFrame.prepare hdr d r context).1.meshShaderSupport ≠ 0 ∧
              d.vkCmdDrawMeshTasksIndirectCountEXT_loaded = false then []
           else [PhaseMark.indirectDraw context.drawCount]) ++
      [PhaseMark.bindCompute VkPipeline.m_lateDrawCullPipeline,
       PhaseMark.cullConstants context.drawCount 1,
       PhaseMark.beginRendering [VK_ATTACHMENT_LOAD_OP_LOAD],
       PhaseMark.bindGraphics VkPipeline.m_postPassGeometryPipeline] ++
        (if (DrawFrame.prepare hdr d r context).1.meshShaderSupport ≠ 0 ∧
              d.vkCmdDrawMeshTasksIndirectCountEXT_loaded = false then []
           else [PhaseMark.indirectDraw context.drawCount]) ++
      [PhaseMark.blit VkImage.m_colorAttachment (VkImage.swapchainImages swapchainIdx),
       PhaseMark.presentTransition (VkImage.swapchainImages swapchainIdx)] := by
  constructor
  · exact frame_commands hdr d r context swapchainIdx
  · rw [frame_commands]
    simp only [List.filterMap_append, cull_phaseMark, pyramid_phaseMark, DrawGeometry_phaseMark,
      DefineViewportAndScissor]
    simp [Cmd.phaseMark]

/-- C9: in every frame recorded by `DrawFrame` exactly three rendering scopes are
opened. The colour and the depth attachment have load op CLEAR in the first (the
early opaque draw) and load op LOAD in the second and third (the late opaque draw
and the post draw), and store op STORE in all three. The colour clear value of each
scope is not `(0.1, 0.2, 0.3, 0)` as passed by `DrawGeometry`: its first two words
are the depth and stencil of the default `clearValueDepth`, because
`CreateRenderingAttachmentInfo` assigns `clearValue.depthStencil` after
`clearValue.color` and the two members share storage. It is `(0.1, 0.2, 0.3, 0)` only
if that default has the bit patterns of `0.1f` and `0.2f` as depth and stencil. -/
theorem C9_load_store_ops_and_clear_value (hdr : Header) (d : Driver) (r : VulkanRenderer)
    (context : DrawContext) (swapchainIdx : Nat) :
    (frameCommands hdr d r context swapchainIdx).filterMap Cmd.renderingAttachments =
      [([{ imageView := VkImageView.m_colorAttachment
           imageLayout := VK_IMAGE_LAYOUT_COLOR_ATTACHMENT_OPTIMAL
           loadOp := VK_ATTACHMENT_LOAD_OP_CLEAR
           storeOp := VK_ATTACHMENT_STORE_OP_STORE
           clearValue := { color := { w0 := hdr.clearValueDepth_default.depth
                                      w1 := hdr.clearValueDepth_default.stencil
                                      w2 := F32_0_3, w3 := F32_0 } } }],
        some { imageView := VkImageView.m_depthAttachment
               imageLayout := VK_IMAGE_LAYOUT_DEPTH_ATTACHMENT_OPTIMAL
               loadOp := VK_ATTACHMENT_LOAD_OP_CLEAR
               storeOp := VK_ATTACHMENT_STORE_OP_STORE
               clearValue := { color := { w0 := 0, w1 := 0, w2 := 0, w3 := 0 } } }),
       ([{ imageView := VkImageView.m_colorAttachment
           imageLayout := VK_IMAGE_LAYOUT_COLOR_ATTACHMENT_OPTIMAL
           loadOp := VK_ATTACHMENT_LOAD_OP_LOAD
           storeOp := VK_ATTACHMENT_STORE_OP_STORE
           clearValue := { color := { w0 := hdr.clearValueDepth_default.depth
                                      w1 := hdr.clearValueDepth_default.stencil
                                      w2 := F32_0_3, w3 := F32_0 } } }],
        some { imageView := VkImageView.m_depthAttachment
               imageLayout := VK_IMAGE_LAYOUT_DEPTH_ATTACHMENT_OPTIMAL
               loadOp := VK_ATTACHMENT_LOAD_OP_LOAD
               storeOp := VK_ATTACHMENT_STORE_OP_STORE
               clearValue := { color := { w0 := 0, w1 := 0, w2 := 0, w3 := 0 } } }),
       ([{ imageView := VkImageView.m_colorAttachment
           imageLayout := VK_IMAGE_LAYOUT_COLOR_ATTACHMENT_OPTIMAL
           loadOp := VK_ATTACHMENT_LOAD_OP_LOAD
           storeOp := VK_ATTACHMENT_STORE_OP_STORE
           clearValue := { color := { w0 := hdr.clearValueDepth_default.depth
                                      w1 := hdr.clearValueDepth_default.stencil
                                      w2 := F32_0_3, w3 := F32_0 } } }],
        some { imageView := VkImageView.m_depthAttachment
               imageLayout := VK_IMAGE_LAYOUT_DEPTH_ATTACHMENT_OPTIMAL
               loadOp := VK_ATTACHMENT_LOAD_OP_LOAD
               storeOp := VK_ATTACHMENT_STORE_OP_STORE
               clearValue := { color := { w0 := 0, w1 := 0, w2 := 0, w3 := 0 } } })] ∧
    (({ color := { w0 := hdr.clearValueDepth_default.depth
                   w1 := hdr.clearValueDepth_default.stencil
                   w2 := F32_0_3, w3 := F32_0 } } : VkClearValue) =
        { color := { w0 := F32_0_1, w1 := F32_0_2, w2 := F32_0_3, w3 := F32_0 } } ↔
      hdr.clearValueDepth_default = { depth := F32_0_1, stencil := F32_0_2 }) := by
  constructor
  · rw [frame_commands]
    simp [List.filterMap_append, cull_renderingAttachments, pyramid_renderingAttachments,
      DrawGeometry_renderingAttachments, DefineViewportAndScissor, Cmd.renderingAttachments]
  · rcases h : hdr.clearValueDepth_default with ⟨dep, st⟩
    simp

/-- With the default `clearValueDepth = {0, 0}` the three rendering scopes of the
sample frame carry the colour clear words `(0, 0, 0.3f, 0)`, not
`(0.1f, 0.2f, 0.3f, 0)`. -/
theorem sample_frame_clear_colour :
    ((frameCommands sampleHeader sampleDriver sampleRenderer sampleContext 0).filterMap
        Cmd.renderingAttachments).map (fun a => a.1.map (fun c => c.clearValue.color)) =
      [[{ w0 := 0, w1 := 0, w2 := F32_0_3, w3 := F32_0 }],
       [{ w0 := 0, w1 := 0, w2 := F32_0_3, w3 := F32_0 }],
       [{ w0 := 0, w1 := 0, w2 := F32_0_3, w3 := F32_0 }]] ∧
    ({ w0 := 0, w1 := 0, w2 := F32_0_3, w3 := F32_0 } : VkClearColorValue) ≠
      { w0 := F32_0_1, w1 := F32_0_2, w2 := F32_0_3, w3 := F32_0 } := by
  refine ⟨?_, by decide⟩
  rw [frame_commands]
  simp [List.filterMap_append, cull_renderingAttachments, pyramid_renderingAttachments,
    DrawGeometry_renderingAttachments, DefineViewportAndScissor, Cmd.renderingAttachments,
    sampleHeader]


/-! ## The layout in which the depth pyramid pass returns the depth attachment -/

theorem pyramid_last_command (d : Driver) (r : VulkanRenderer) (cb : VkCommandBuffer) :
    (GenerateDepthPyramid d r cb).getLast? =
      some (Cmd.PipelineBarrier []
        [{ image := VkImage.m_depthAttachment
           srcStageMask := VK_PIPELINE_STAGE_2_COMPUTE_SHADER_BIT
           srcAccessMask := VK_ACCESS_2_SHADER_READ_BIT
           dstStageMask := VK_PIPELINE_STAGE_2_EARLY_FRAGMENT_TESTS_BIT
           dstAccessMask := VK_ACCESS_2_DEPTH_STENCIL_ATTACHMENT_READ_BIT |||
             VK_ACCESS_2_DEPTH_STENCIL_ATTACHMENT_WRITE_BIT
           oldLayout := VK_IMAGE_LAYOUT_SHADER_READ_ONLY_OPTIMAL
           newLayout := VK_IMAGE_LAYOUT_DEPTH_STENCIL_ATTACHMENT_OPTIMAL
           aspectMask := VK_IMAGE_ASPECT_DEPTH_BIT
           baseMipLevel := 0, levelCount := VK_REMAINING_MIP_LEVELS }]) := by
  rw [pyramid_commands, ← List.append_assoc, List.getLast?_append]
  rfl

/-- C11 (counterexample): on the sample renderer the last command recorded by
`GenerateDepthPyramid` is a barrier that names DEPTH_STENCIL_ATTACHMENT_OPTIMAL as the
new layout, a name other than DEPTH_ATTACHMENT_OPTIMAL. -/
theorem C11_last_barrier_names_depth_stencil_layout :
    ∃ b : VkImageMemoryBarrier2,
      (GenerateDepthPyramid sampleDriver sampleRenderer []).getLast? =
        some (Cmd.PipelineBarrier [] [b]) ∧
      b.newLayout = VK_IMAGE_LAYOUT_DEPTH_STENCIL_ATTACHMENT_OPTIMAL ∧
      b.newLayout ≠ VK_IMAGE_LAYOUT_DEPTH_ATTACHMENT_OPTIMAL :=
  ⟨_, pyramid_last_command sampleDriver sampleRenderer [], rfl, by decide⟩

/-- C11 (amended): the last command recorded by `GenerateDepthPyramid` is a pipeline
barrier with one image barrier, on the depth aspect of the depth attachment, from
SHADER_READ_ONLY_OPTIMAL to DEPTH_STENCIL_ATTACHMENT_OPTIMAL; read on that aspect as
Vulkan defines it, this new layout is DEPTH_ATTACHMENT_OPTIMAL, the layout that every
`DrawGeometry` call declares for the depth attachment. -/
theorem C11_last_pyramid_barrier_layout (hdr : Header) (d : Driver) (r : VulkanRenderer)
    (cb : VkCommandBuffer) (w : List VkWriteDescriptorSet) (drawCount latePass : Nat)
    (pipeline : VkPipeline) :
    (∃ b : VkImageMemoryBarrier2,
      (GenerateDepthPyramid d r cb).getLast? = some (Cmd.PipelineBarrier [] [b]) ∧
      b.image = VkImage.m_depthAttachment ∧
      b.aspectMask = VK_IMAGE_ASPECT_DEPTH_BIT ∧
      b.oldLayout = VK_IMAGE_LAYOUT_SHADER_READ_ONLY_OPTIMAL ∧
      b.newLayout = VK_IMAGE_LAYOUT_DEPTH_STENCIL_ATTACHMENT_OPTIMAL ∧
      VkImageLayout.onAspect b.aspectMask b.newLayout =
        VK_IMAGE_LAYOUT_DEPTH_ATTACHMENT_OPTIMAL) ∧
    ((DrawGeometry hdr d r [] w drawCount latePass pipeline).filterMap
        Cmd.renderingAttachments).map
        (fun a => a.2.map (fun x => (x.imageView, x.imageLayout))) =
      [some (VkImageView.m_depthAttachment, VK_IMAGE_LAYOUT_DEPTH_ATTACHMENT_OPTIMAL)] := by
  refine ⟨⟨_, pyramid_last_command d r cb, rfl, rfl, rfl, rfl, by decide⟩, ?_⟩
  rw [DrawGeometry_renderingAttachments]
  rfl

/-! ## Initialisation and window resize -/

/-- The previous power of two of a number between `2 ^ k` and `2 ^ (k + 1)`. -/
theorem PreviousPow2_eq_of_bounds (v k : Nat) (h1 : 2 ^ k ≤ v) (h2 : v < 2 ^ (k + 1)) :
    PreviousPow2 v = 2 ^ k := by
  unfold PreviousPow2
  rw [Nat.log_eq_of_pow_le_of_lt_pow h1 h2]

theorem PreviousPow2_1280 : PreviousPow2 1280 = 1024 :=
  PreviousPow2_eq_of_bounds 1280 10 (by norm_num) (by norm_num)

theorem PreviousPow2_720 : PreviousPow2 720 = 512 :=
  PreviousPow2_eq_of_bounds 720 9 (by norm_num) (by norm_num)

/-- The return value of `Init`: `1` exactly when every step other than `CreateDevice`
succeeded. -/
theorem Init_result (hdr : Header) (d : Driver) (s : InitSteps) (r : VulkanRenderer)
    (windowWidth windowHeight : Nat) :
    (Init hdr d s r windowWidth windowHeight).1 =
      if s.CreateInstance ≠ 0 ∧ s.CreateVulkanSurface ≠ 0 ∧ s.PickPhysicalDevice ≠ 0 ∧
          (CreateSwapchain hdr d r.m_initHandles windowWidth windowHeight
            s.graphicsQueueIndex s.presentQueueIndex r.m_initHandles.swapchain 0).result ≠ 0 ∧
          s.CreateVmaAllocator ≠ 0 ∧ s.FrameToolsInit ≠ 0 ∧
          s.CreateImage_colorAttachment ≠ 0 ∧ s.CreateImage_depthAttachment ≠ 0 ∧
          (CreateDepthPyramid d { width := windowWidth, height := windowHeight } 1).result ≠ 0 ∧
          s.CreateTextureSampler ≠ 0 then 1 else 0 := by
  unfold Init
  by_cases h1 : s.CreateInstance = 0
  · simp [h1]
  by_cases h2 : s.CreateVulkanSurface = 0
  · simp [h1, h2]
  by_cases h3 : s.PickPhysicalDevice = 0
  · simp [h1, h2, h3]
  rw [if_neg h1, if_neg h2, if_neg h3]
  simp only []
  by_cases h4 : (CreateSwapchain hdr d r.m_initHandles windowWidth windowHeight
            s.graphicsQueueIndex s.presentQueueIndex r.m_initHandles.swapchain 0).result = 0
  · simp [h1, h2, h3, h4]
  by_cases h5 : s.CreateVmaAllocator = 0
  · simp [h1, h2, h3, h4, h5]
  by_cases h6 : s.FrameToolsInit = 0
  · simp [h1, h2, h3, h4, h5, h6]
  by_cases h7 : s.CreateImage_colorAttachment = 0
  · simp [h1, h2, h3, h4, h5, h6, h7]
  by_cases h8 : s.CreateImage_depthAttachment = 0
  · simp [h1, h2, h3, h4, h5, h6, h7, h8]
  rw [if_neg h4, if_neg h5, if_neg h6, if_neg h7, if_neg h8]
  by_cases h9 : (CreateDepthPyramid d { width := windowWidth, height := windowHeight } 1).result = 0
  · simp [h1, h2, h3, h4, h5, h6, h7, h8, h9]
  by_cases h10 : s.CreateTextureSampler = 0
  · simp [h1, h2, h3, h4, h5, h6, h7, h8, h9, h10]
  rw [if_neg h9, if_neg h10]
  simp [h1, h2, h3, h4, h5, h6, h7, h8, h9, h10]

/-- A successful `Init` leaves the window extent in `m_drawExtent` and the previous
powers of two of the window extent in the depth-pyramid extent. -/
theorem Init_renderer_of_success (hdr : Header) (d : Driver) (s : InitSteps) (r : VulkanRenderer)
    (windowWidth windowHeight : Nat) (h : (Init hdr d s r windowWidth windowHeight).1 = 1) :
    (Init hdr d s r windowWidth windowHeight).2.m_drawExtent =
        { width := windowWidth, height := windowHeight } ∧
      (Init hdr d s r windowWidth windowHeight).2.m_depthPyramidExtent =
        { width := PreviousPow2 windowWidth, height := PreviousPow2 windowHeight } := by
  rw [Init_result] at h
  split at h
  · rename_i hc
    obtain ⟨h1, h2, h3, h4, h5, h6, h7, h8, h9, h10⟩ := hc
    unfold Init
    rw [if_neg h1, if_neg h2, if_neg h3]
    simp only []
    rw [if_neg h4, if_neg h5, if_neg h6, if_neg h7, if_neg h8, if_neg h9, if_neg h10]
    exact ⟨rfl, rfl⟩
  · exact absurd h (by decide)

/-- What `RecreateSwapchain` leaves in the draw extent and in the pyramid extent. -/
theorem RecreateSwapchain_extents (hdr : Header) (d : Driver) (r : VulkanRenderer)
    (windowWidth windowHeight : Nat) :
    (RecreateSwapchain hdr d r windowWidth windowHeight).m_drawExtent = r.m_drawExtent ∧
      (RecreateSwapchain hdr d r windowWidth windowHeight).m_depthPyramidExtent =
        { width := PreviousPow2 r.m_drawExtent.width
          height := PreviousPow2 r.m_drawExtent.height } :=
  ⟨rfl, rfl⟩

/-! ## The renderer after a frame -/

/-- The members of the renderer that a culling dispatch leaves as they are. -/
theorem cull_renderer_fields (d : Driver) (r : VulkanRenderer) (cb : VkCommandBuffer)
    (pipeline : VkPipeline) (n drawCount lateCulling postPass bOcclusionEnabled bLODs : Nat) :
    (DispatchRenderObjectCullingComputeShader d r cb pipeline n drawCount lateCulling postPass
        bOcclusionEnabled bLODs).1 =
      { r with pushDescriptorWritesCompute :=
          (DispatchRenderObjectCullingComputeShader d r cb pipeline n drawCount lateCulling
            postPass bOcclusionEnabled bLODs).1.pushDescriptorWritesCompute } := by
  rw [cull_renderer]
  split <;> rfl

/-- The members of the renderer after `DrawFrame`, in terms of the renderer that the
start of the call prepared. -/
theorem DrawFrame_renderer (hdr : Header) (d : Driver) (r : VulkanRenderer)
    (context : DrawContext) (swapchainIdx : Nat) :
    (DrawFrame hdr d r context swapchainIdx).renderer.m_currentFrame =
        (r.m_currentFrame + 1) % hdr.BLITZEN_VULKAN_MAX_FRAMES_IN_FLIGHT ∧
      (DrawFrame hdr d r context swapchainIdx).renderer.viewDataBuffer =
        (DrawFrame.prepare hdr d r context).1.viewDataBuffer ∧
      (DrawFrame hdr d r context swapchainIdx).renderer.m_initHandles =
        (DrawFrame.prepare hdr d r context).1.m_initHandles ∧
      (DrawFrame hdr d r context swapchainIdx).renderer.m_depthPyramidExtent =
        (DrawFrame.prepare hdr d r context).1.m_depthPyramidExtent ∧
      (DrawFrame hdr d r context swapchainIdx).renderer.m_drawExtent =
        (DrawFrame.prepare hdr d r context).1.m_drawExtent ∧
      (DrawFrame hdr d r context swapchainIdx).renderer.commandBuffer =
        Function.update r.commandBuffer r.m_currentFrame
          (frameCommands hdr d r context swapchainIdx) := by
  have hc : (DrawFrame.prepare hdr d r context).1.commandBuffer = r.commandBuffer := by
    unfold DrawFrame.prepare RecreateSwapchain
    simp only []
    split <;> rfl
  have hf := prepare_currentFrame hdr d r context
  refine ⟨?_, ?_, ?_, ?_, ?_, ?_⟩
  · unfold DrawFrame
    simp only []
    rw [cull_renderer_fields, cull_renderer_fields d _ _ VkPipeline.m_lateDrawCullPipeline,
      cull_renderer_fields d _ _ VkPipeline.m_initialDrawCullPipeline]
    simp only [hf]
  · unfold DrawFrame
    simp only []
    rw [cull_renderer_fields, cull_renderer_fields d _ _ VkPipeline.m_lateDrawCullPipeline,
      cull_renderer_fields d _ _ VkPipeline.m_initialDrawCullPipeline]
  · unfold DrawFrame
    simp only []
    rw [cull_renderer_fields, cull_renderer_fields d _ _ VkPipeline.m_lateDrawCullPipeline,
      cull_renderer_fields d _ _ VkPipeline.m_initialDrawCullPipeline]
  · unfold DrawFrame
    simp only []
    rw [cull_renderer_fields, cull_renderer_fields d _ _ VkPipeline.m_lateDrawCullPipeline,
      cull_renderer_fields d _ _ VkPipeline.m_initialDrawCullPipeline]
  · unfold DrawFrame
    simp only []
    rw [cull_renderer_fields, cull_renderer_fields d _ _ VkPipeline.m_lateDrawCullPipeline,
      cull_renderer_fields d _ _ VkPipeline.m_initialDrawCullPipeline]
  · funext i
    by_cases hi : i = r.m_currentFrame
    · subst hi
      rw [Function.update_same]
      rfl
    · rw [Function.update_noteq hi, ← hc]
      unfold DrawFrame
      simp only []
      rw [cull_renderer_fields, cull_renderer_fields d _ _ VkPipeline.m_lateDrawCullPipeline,
        cull_renderer_fields d _ _ VkPipeline.m_initialDrawCullPipeline]
      have hi2 : i ≠ (DrawFrame.prepare hdr d r context).1.m_currentFrame := by
        rw [hf]
        exact hi
      exact Function.update_noteq hi2 _ _

/-- What the start of `DrawFrame` leaves in the init handles, the pyramid extent and
slot `0` of the graphics descriptor array, and in the view-data buffers. -/
theorem prepare_fields (hdr : Header) (d : Driver) (r : VulkanRenderer) (context : DrawContext) :
    (DrawFrame.prepare hdr d r context).1.m_initHandles =
        (if context.pCamera.transformData.windowResize ≠ 0 then
          (RecreateSwapchain hdr d r context.pCamera.transformData.windowWidth
            context.pCamera.transformData.windowHeight).m_initHandles
        else r.m_initHandles) ∧
      (DrawFrame.prepare hdr d r context).1.m_depthPyramidExtent =
        (if context.pCamera.transformData.windowResize ≠ 0 then
          { width := PreviousPow2 r.m_drawExtent.width
            height := PreviousPow2 r.m_drawExtent.height }
        else r.m_depthPyramidExtent) ∧
      (DrawFrame.prepare hdr d r context).1.pushDescriptorWritesGraphics =
        r.pushDescriptorWritesGraphics.set 0
          (VkWriteDescriptorSet.viewDataBuffer r.m_currentFrame) ∧
      (∀ i, i ≠ r.m_currentFrame →
        (DrawFrame.prepare hdr d r context).1.viewDataBuffer i = r.viewDataBuffer i) := by
  unfold DrawFrame.prepare
  simp only []
  by_cases h : context.pCamera.transformData.windowResize ≠ 0
  · rw [if_pos h, if_pos h, if_pos h, if_pos h]
    exact ⟨rfl, rfl, rfl, fun i hi => Function.update_noteq hi _ _⟩
  · rw [if_neg h, if_neg h, if_neg h, if_neg h]
    exact ⟨rfl, rfl, rfl, fun i hi => Function.update_noteq hi _ _⟩

/-- The view data that a `DrawFrame` call with the resize flag set writes for its
frame. -/
theorem prepare_viewData_of_resize (hdr : Header) (d : Driver) (r : VulkanRenderer)
    (context : DrawContext) (hresize : context.pCamera.transformData.windowResize ≠ 0) :
    (DrawFrame.prepare hdr d r context).1.viewDataBuffer r.m_currentFrame =
      writeViewData hdr
        { context.pCamera with
          viewData := { context.pCamera.viewData with
            pyramidWidth := PreviousPow2 r.m_drawExtent.width
            pyramidHeight := PreviousPow2 r.m_drawExtent.height } }
        (r.viewDataBuffer r.m_currentFrame) := by
  unfold DrawFrame.prepare
  simp only []
  rw [if_pos hresize, if_pos hresize]
  unfold RecreateSwapchain CreateDepthPyramid
  simp only [Function.update_same]

/-! ## Frame index -/

/-- The frame index after consecutive frames. -/
theorem runFrames_currentFrame (hdr : Header) (frames : List FrameInput) :
    ∀ r : VulkanRenderer, (runFrames hdr frames r).m_currentFrame =
      (r.m_currentFrame + frames.length) % hdr.BLITZEN_VULKAN_MAX_FRAMES_IN_FLIGHT ∨
      frames = [] ∧ (runFrames hdr frames r).m_currentFrame = r.m_currentFrame := by
  induction frames with
  | nil => intro r; exact Or.inr ⟨rfl, rfl⟩
  | cons f fs ih =>
    intro r
    left
    have h1 := (DrawFrame_renderer hdr f.driver r f.context f.swapchainIdx).1
    have hstep : runFrames hdr (f :: fs) r =
        runFrames hdr fs (DrawFrame hdr f.driver r f.context f.swapchainIdx).renderer := rfl
    rw [hstep]
    rcases ih (DrawFrame hdr f.driver r f.context f.swapchainIdx).renderer with h | ⟨h, h2⟩
    · rw [h, h1, List.length_cons, Nat.mod_add_mod]
      congr 1
      omega
    · rw [h2, h1, h]
      rfl

/-- C12: every `DrawFrame` call takes the frame index `n` to `(n + 1) mod F`, records
into the command buffer at index `n`, points slot `0` of the descriptor array at the
view-data buffer of index `n`, and leaves the command buffers and view-data buffers
at every other index as they were. When `F` is positive and the index starts below
`F`, then after any number of frames the index is `(n + k) mod F` for the number `k`
of frames, it is below `F`, and after `F` frames it is `n` again. -/
theorem C12_frame_index_advances_mod_F (hdr : Header) (r : VulkanRenderer) (f : FrameInput)
    (frames : List FrameInput) (hF : 0 < hdr.BLITZEN_VULKAN_MAX_FRAMES_IN_FLIGHT)
    (hr : r.m_currentFrame < hdr.BLITZEN_VULKAN_MAX_FRAMES_IN_FLIGHT) :
    (DrawFrame hdr f.driver r f.context f.swapchainIdx).renderer.m_currentFrame =
        (r.m_currentFrame + 1) % hdr.BLITZEN_VULKAN_MAX_FRAMES_IN_FLIGHT ∧
      (DrawFrame hdr f.driver r f.context f.swapchainIdx).renderer.commandBuffer =
        Function.update r.commandBuffer r.m_currentFrame
          (frameCommands hdr f.driver r f.context f.swapchainIdx) ∧
      (DrawFrame.prepare hdr f.driver r f.context).1.pushDescriptorWritesGraphics =
        r.pushDescriptorWritesGraphics.set 0
          (VkWriteDescriptorSet.viewDataBuffer r.m_currentFrame) ∧
      (∀ i, i ≠ r.m_currentFrame →
        (DrawFrame hdr f.driver r f.context f.swapchainIdx).renderer.commandBuffer i =
            r.commandBuffer i ∧
          (DrawFrame hdr f.driver r f.context f.swapchainIdx).renderer.viewDataBuffer i =
            r.viewDataBuffer i) ∧
      (runFrames hdr frames r).m_currentFrame =
        (r.m_currentFrame + frames.length) % hdr.BLITZEN_VULKAN_MAX_FRAMES_IN_FLIGHT ∧
      (runFrames hdr frames r).m_currentFrame < hdr.BLITZEN_VULKAN_MAX_FRAMES_IN_FLIGHT ∧
      (frames.length = hdr.BLITZEN_VULKAN_MAX_FRAMES_IN_FLIGHT →
        (runFrames hdr frames r).m_currentFrame = r.m_currentFrame) := by
  obtain ⟨h1, h2, -, -, -, h6⟩ := DrawFrame_renderer hdr f.driver r f.context f.swapchainIdx
  obtain ⟨-, -, p3, p4⟩ := prepare_fields hdr f.driver r f.context
  have hrun : (runFrames hdr frames r).m_currentFrame =
      (r.m_currentFrame + frames.length) % hdr.BLITZEN_VULKAN_MAX_FRAMES_IN_FLIGHT := by
    rcases runFrames_currentFrame hdr frames r with h | ⟨h, h2⟩
    · exact h
    · rw [h2, h, List.length_nil, Nat.add_zero, Nat.mod_eq_of_lt hr]
  refine ⟨h1, h6, p3, ?_, hrun, ?_, ?_⟩
  · intro i hi
    refine ⟨?_, ?_⟩
    · rw [h6]
      exact Function.update_noteq hi _ _
    · rw [h2]
      exact p4 i hi
  · rw [hrun]
    exact Nat.mod_lt _ hF
  · intro hlen
    rw [hrun, hlen, Nat.add_mod_right, Nat.mod_eq_of_lt hr]

theorem C12_frame_index_advances_mod_F_witness :
    (runFrames sampleHeader
        [{ driver := sampleDriver, context := sampleContext, swapchainIdx := 0 },
         { driver := sampleDriver, context := sampleContext, swapchainIdx := 1 }]
        sampleRenderer).m_currentFrame = sampleRenderer.m_currentFrame ∧
      (DrawFrame sampleHeader sampleDriver sampleRenderer sampleContext 0).renderer.m_currentFrame
        = 1 :=
  ⟨(C12_frame_index_advances_mod_F sampleHeader sampleRenderer
      { driver := sampleDriver, context := sampleContext, swapchainIdx := 0 }
      [{ driver := sampleDriver, context := sampleContext, swapchainIdx := 0 },
       { driver := sampleDriver, context := sampleContext, swapchainIdx := 1 }]
      (by decide) (by decide)).2.2.2.2.2.2 rfl,
   (C12_frame_index_advances_mod_F sampleHeader sampleRenderer
      { driver := sampleDriver, context := sampleContext, swapchainIdx := 0 }
      [] (by decide) (by decide)).1⟩

/-! ## Resize: pyramid extent and view data -/

/-- The sample initialisation succeeds. -/
theorem sample_Init_succeeds :
    (Init sampleHeader sampleDriver sampleInitSteps uninitialisedRenderer 1280 720).1 = 1 := by
  rw [Init_result]
  simp [sampleInitSteps, CreateSwapchain, CreateDepthPyramid, sampleDriver]

/-- C13 (counterexample): a renderer initialised at 1280x720 has the pyramid extent
(1024, 512), and after `RecreateSwapchain` for a resize to 1920x1080 the pyramid
extent is still (1024, 512), not (1024, 1024). -/
theorem C13_resize_to_1920x1080_keeps_pyramid_1024_512 :
    (Init sampleHeader sampleDriver sampleInitSteps uninitialisedRenderer 1280 720).1 = 1 ∧
      (Init sampleHeader sampleDriver sampleInitSteps uninitialisedRenderer 1280
        720).2.m_depthPyramidExtent = { width := 1024, height := 512 } ∧
      (RecreateSwapchain sampleHeader sampleDriver
        (Init sampleHeader sampleDriver sampleInitSteps uninitialisedRenderer 1280 720).2
        1920 1080).m_depthPyramidExtent = { width := 1024, height := 512 } ∧
      ({ width := 1024, height := 512 } : VkExtent2D) ≠ { width := 1024, height := 1024 } := by
  have h := Init_renderer_of_success sampleHeader sampleDriver sampleInitSteps
    uninitialisedRenderer 1280 720 sample_Init_succeeds
  have h2 := (RecreateSwapchain_extents sampleHeader sampleDriver
    (Init sampleHeader sampleDriver sampleInitSteps uninitialisedRenderer 1280 720).2
    1920 1080).2
  rw [h.1] at h2
  simp only [PreviousPow2_1280, PreviousPow2_720] at h h2
  exact ⟨sample_Init_succeeds, h.2, h2, by decide⟩

/-- C13 (amended): for a renderer on which `Init` succeeded with the window extent
`(W, H)`, the depth-pyramid extent is the previous power of two of `(W, H)`, and a
resize to any window extent handled by `RecreateSwapchain` changes neither the draw
extent `(W, H)` nor the depth-pyramid extent. -/
theorem C13_resize_keeps_pyramid_extent (hdr : Header) (d e : Driver) (s : InitSteps)
    (r : VulkanRenderer) (W H windowWidth windowHeight : Nat)
    (h : (Init hdr d s r W H).1 = 1) :
    (Init hdr d s r W H).2.m_depthPyramidExtent =
        { width := PreviousPow2 W, height := PreviousPow2 H } ∧
      (RecreateSwapchain hdr e (Init hdr d s r W H).2 windowWidth windowHeight).m_drawExtent =
        { width := W, height := H } ∧
      (RecreateSwapchain hdr e (Init hdr d s r W H).2 windowWidth
        windowHeight).m_depthPyramidExtent =
        { width := PreviousPow2 W, height := PreviousPow2 H } := by
  have h1 := Init_renderer_of_success hdr d s r W H h
  have h2 := RecreateSwapchain_extents hdr e (Init hdr d s r W H).2 windowWidth windowHeight
  rw [h1.1] at h2
  exact ⟨h1.2, h2.1, h2.2⟩

theorem C13_resize_keeps_pyramid_extent_witness :
    (Init sampleHeader sampleDriver sampleInitSteps uninitialisedRenderer 1280 720).1 = 1 ∧
      (RecreateSwapchain sampleHeader sampleDriver
        (Init sampleHeader sampleDriver sampleInitSteps uninitialisedRenderer 1280 720).2
        1920 1080).m_depthPyramidExtent =
        { width := PreviousPow2 1280, height := PreviousPow2 720 } :=
  ⟨sample_Init_succeeds,
   (C13_resize_keeps_pyramid_extent sampleHeader sampleDriver sampleDriver sampleInitSteps
      uninitialisedRenderer 1280 720 1920 1080 sample_Init_succeeds).2.2⟩

/-- C14 (counterexample): in a build without `NDEBUG`, a `DrawFrame` call with the
resize flag and `freezeFrustum` set leaves `pyramidWidth = 0` and `pyramidHeight = 0`
in the view-data uniform of the frame, while the pyramid rebuilt by the call has the
extent (1024, 512). -/
theorem C14_frozen_frustum_uniform_keeps_old_pyramid_size :
    ((DrawFrame debugHeader sampleDriver sampleRenderer (resizeContext 1) 0).renderer.viewDataBuffer
        sampleRenderer.m_currentFrame).pyramidWidth = 0 ∧
      ((DrawFrame debugHeader sampleDriver sampleRenderer (resizeContext 1)
        0).renderer.viewDataBuffer sampleRenderer.m_currentFrame).pyramidHeight = 0 ∧
      (DrawFrame debugHeader sampleDriver sampleRenderer (resizeContext 1)
        0).renderer.m_depthPyramidExtent = { width := 1024, height := 512 } := by
  obtain ⟨-, h2, -, h4, -, -⟩ :=
    DrawFrame_renderer debugHeader sampleDriver sampleRenderer (resizeContext 1) 0
  have hres : (resizeContext 1).pCamera.transformData.windowResize ≠ 0 := by decide
  rw [h2, h4, prepare_viewData_of_resize _ _ _ _ hres,
    (prepare_fields debugHeader sampleDriver sampleRenderer (resizeContext 1)).2.1, if_pos hres]
  have hw : sampleRenderer.m_drawExtent.width = 1280 := rfl
  have hh : sampleRenderer.m_drawExtent.height = 720 := rfl
  rw [hw, hh, PreviousPow2_1280, PreviousPow2_720]
  exact ⟨rfl, rfl, rfl⟩

/-- C14 (amended): for every `DrawFrame` call made with the camera's windowResize
flag set, the view-data uniform written for that frame has pyramidWidth and
pyramidHeight equal to the extent of the depth pyramid rebuilt by that call when the
build defines `NDEBUG` or `freezeFrustum` is clear; in a build without `NDEBUG` and
with `freezeFrustum` set, the uniform keeps the pyramidWidth and pyramidHeight that
it had before the call. -/
theorem C14_resize_frame_uniform_pyramid_extent (hdr : Header) (d : Driver)
    (r : VulkanRenderer) (context : DrawContext) (swapchainIdx : Nat)
    (hresize : context.pCamera.transformData.windowResize ≠ 0) :
    ((DrawFrame hdr d r context swapchainIdx).renderer.viewDataBuffer
        r.m_currentFrame).pyramidWidth =
        (if hdr.NDEBUG = true ∨ context.pCamera.transformData.freezeFrustum = 0 then
          (DrawFrame hdr d r context swapchainIdx).renderer.m_depthPyramidExtent.width
        else (r.viewDataBuffer r.m_currentFrame).pyramidWidth) ∧
      ((DrawFrame hdr d r context swapchainIdx).renderer.viewDataBuffer
        r.m_currentFrame).pyramidHeight =
        (if hdr.NDEBUG = true ∨ context.pCamera.transformData.freezeFrustum = 0 then
          (DrawFrame hdr d r context swapchainIdx).renderer.m_depthPyramidExtent.height
        else (r.viewDataBuffer r.m_currentFrame).pyramidHeight) := by
  obtain ⟨-, h2, -, h4, -, -⟩ := DrawFrame_renderer hdr d r context swapchainIdx
  rw [h2, h4, prepare_viewData_of_resize _ _ _ _ hresize,
    (prepare_fields hdr d r context).2.1, if_pos hresize]
  unfold writeViewData
  by_cases hn : hdr.NDEBUG = true
  · simp [hn]
  · by_cases hf : context.pCamera.transformData.freezeFrustum = 0
    · simp [hn, hf]
    · simp [hn, hf]

theorem C14_resize_frame_uniform_pyramid_extent_witness :
    (resizeContext 1).pCamera.transformData.windowResize ≠ 0 ∧
      ((DrawFrame sampleHeader sampleDriver sampleRenderer (resizeContext 1)
        0).renderer.viewDataBuffer sampleRenderer.m_currentFrame).pyramidWidth =
      (DrawFrame sampleHeader sampleDriver sampleRenderer (resizeContext 1)
        0).renderer.m_depthPyramidExtent.width := by
  have h := (C14_resize_frame_uniform_pyramid_extent sampleHeader sampleDriver sampleRenderer
    (resizeContext 1) 0 (by decide)).1
  have hc : sampleHeader.NDEBUG = true ∨
      (resizeContext 1).pCamera.transformData.freezeFrustum = 0 := Or.inl rfl
  rw [if_pos hc] at h
  exact ⟨by decide, h⟩


/-! ## Initialisation result, texture upload -/

/-- The create info that `CreateSwapchain` fills when the surface queries succeed. -/
theorem CreateSwapchain_info (hdr : Header) (d : Driver) (initHandles : InitializationHandles)
    (windowWidth windowHeight graphicsQueueIndex presentQueueIndex newSwapchain
      oldSwapchain : Nat)
    (hq : d.surfaceFormatsCount_ok = true ∧ d.surfaceFormats_ok = true ∧
      d.presentModeCount_ok = true ∧ d.presentModes_ok = true ∧
      d.surfaceCapabilities_ok = true) :
    ∃ info : VkSwapchainCreateInfoKHR,
      (CreateSwapchain hdr d initHandles windowWidth windowHeight graphicsQueueIndex
        presentQueueIndex newSwapchain oldSwapchain).swapchainInfo = some info ∧
      info.imageFormat = (chooseSurfaceFormat d.surfaceFormats).format ∧
      info.imageColorSpace = (chooseSurfaceFormat d.surfaceFormats).colorSpace ∧
      info.minImageCount = chooseImageCount d.surfaceCapabilities ∧
      (CreateSwapchain hdr d initHandles windowWidth windowHeight graphicsQueueIndex
        presentQueueIndex newSwapchain oldSwapchain).initHandles.swapchainFormat =
        (chooseSurfaceFormat d.surfaceFormats).format := by
  obtain ⟨h1, h2, h3, h4, h5⟩ := hq
  unfold CreateSwapchain
  simp only [h1, h2, h3, h4, h5, Bool.not_true, Bool.or_self, Bool.false_eq_true, if_false]
  by_cases h6 : d.vkCreateSwapchainKHR_ok = true
  · by_cases h7 : d.swapchainImageCount_ok = true
    · simp [h6, h7]
    · simp [h6, h7]
  · simp [h6]

/-- C15: the return value of `Init` does not depend on the result of `CreateDevice`:
it is `1` exactly when every other step succeeded, so with the sample driver and all
other steps succeeding, `Init` returns `1` although `CreateDevice` returned `0`. -/
theorem C15_Init_returns_1_when_CreateDevice_fails (hdr : Header) (d : Driver)
    (s : InitSteps) (r : VulkanRenderer) (windowWidth windowHeight : Nat) :
    (Init hdr d s r windowWidth windowHeight).1 =
        (Init hdr d { s with CreateDevice := 0 } r windowWidth windowHeight).1 ∧
      ((Init hdr d s r windowWidth windowHeight).1 = 1 ↔
        s.CreateInstance ≠ 0 ∧ s.CreateVulkanSurface ≠ 0 ∧ s.PickPhysicalDevice ≠ 0 ∧
          (CreateSwapchain hdr d r.m_initHandles windowWidth windowHeight
            s.graphicsQueueIndex s.presentQueueIndex r.m_initHandles.swapchain 0).result ≠ 0 ∧
          s.CreateVmaAllocator ≠ 0 ∧ s.FrameToolsInit ≠ 0 ∧
          s.CreateImage_colorAttachment ≠ 0 ∧ s.CreateImage_depthAttachment ≠ 0 ∧
          (CreateDepthPyramid d { width := windowWidth, height := windowHeight } 1).result ≠ 0 ∧
          s.CreateTextureSampler ≠ 0) ∧
      (Init sampleHeader sampleDriver { sampleInitSteps with CreateDevice := 0 }
        uninitialisedRenderer 1280 720).1 = 1 := by
  refine ⟨?_, ?_, ?_⟩
  · rw [Init_result, Init_result]
  · rw [Init_result]
    split
    · rename_i h
      exact ⟨fun _ => h, fun _ => rfl⟩
    · rename_i h
      exact ⟨fun h0 => absurd h0 (by decide), fun h1 => absurd h1 h⟩
  · rw [Init_result]
    simp [sampleInitSteps, CreateSwapchain, CreateDepthPyramid, sampleDriver]

/-- C16: `UploadDDSTexture` returns `0` exactly when the staging buffer creation, the
DDS loading or the texture image creation failed, and then the renderer, with its
texture count, is unchanged; otherwise it returns `1`, the texture count has grown by
exactly one, and the sampler of the slot at the old count is the placeholder sampler. -/
theorem C16_UploadDDSTexture_transactional (u : UploadDriver) (r : VulkanRenderer) :
    ((UploadDDSTexture u r).1 = 0 ↔
        (u.CreateBuffer_ok = false ∨ u.LoadDDSImage_ok = false ∨
          u.CreateTextureImage_ok = false)) ∧
      ((UploadDDSTexture u r).1 = 0 →
        (UploadDDSTexture u r).2.textureCount = r.textureCount ∧
          (UploadDDSTexture u r).2.loadedTextures = r.loadedTextures) ∧
      ((UploadDDSTexture u r).1 ≠ 0 →
        (UploadDDSTexture u r).1 = 1 ∧
          (UploadDDSTexture u r).2.textureCount = r.textureCount + 1 ∧
          ((UploadDDSTexture u r).2.loadedTextures r.textureCount).sampler =
            some VkSampler.m_placeholderSampler) := by
  unfold UploadDDSTexture
  cases h1 : u.CreateBuffer_ok <;> cases h2 : u.LoadDDSImage_ok <;>
    cases h3 : u.CreateTextureImage_ok <;> simp

/-! ## What a frame does not read: the results of acquire and present -/

theorem PushDescriptors_withFrameResults (d : Driver) (a p : Int) (cb : VkCommandBuffer)
    (bindPoint : VkPipelineBindPoint) (layout : VkPipelineLayout) (set n : Nat)
    (w : List VkWriteDescriptorSet) :
    PushDescriptors (d.withFrameResults a p) cb bindPoint layout set n w =
      PushDescriptors d cb bindPoint layout set n w := rfl

theorem DrawMeshTasks_withFrameResults (d : Driver) (a p : Int) (cb : VkCommandBuffer)
    (drawBuffer : VkBuffer) (drawOffset : Nat) (countBuffer : VkBuffer)
    (countOffset maxDrawCount stride : Nat) :
    DrawMeshTasks (d.withFrameResults a p) cb drawBuffer drawOffset countBuffer countOffset
        maxDrawCount stride =
      DrawMeshTasks d cb drawBuffer drawOffset countBuffer countOffset maxDrawCount stride := rfl

theorem cull_withFrameResults (d : Driver) (a p : Int) (r : VulkanRenderer)
    (cb : VkCommandBuffer) (pipeline : VkPipeline)
    (n drawCount lateCulling postPass bOcclusionEnabled bLODs : Nat) :
    DispatchRenderObjectCullingComputeShader (d.withFrameResults a p) r cb pipeline n drawCount
        lateCulling postPass bOcclusionEnabled bLODs =
      DispatchRenderObjectCullingComputeShader d r cb pipeline n drawCount lateCulling postPass
        bOcclusionEnabled bLODs := by
  unfold DispatchRenderObjectCullingComputeShader
  simp only [PushDescriptors_withFrameResults]

theorem DrawGeometry_withFrameResults (hdr : Header) (d : Driver) (a p : Int)
    (r : VulkanRenderer) (cb : VkCommandBuffer) (w : List VkWriteDescriptorSet)
    (drawCount latePass : Nat) (pipeline : VkPipeline) :
    DrawGeometry hdr (d.withFrameResults a p) r cb w drawCount latePass pipeline =
      DrawGeometry hdr d r cb w drawCount latePass pipeline := by
  unfold DrawGeometry
  simp only [PushDescriptors_withFrameResults, DrawMeshTasks_withFrameResults]

theorem pyramid_withFrameResults (d : Driver) (a p : Int) (r : VulkanRenderer)
    (cb : VkCommandBuffer) :
    GenerateDepthPyramid (d.withFrameResults a p) r cb = GenerateDepthPyramid d r cb := by
  have hb : ∀ j, GenerateDepthPyramid.body (d.withFrameResults a p) r [] j =
      GenerateDepthPyramid.body d r [] j := by
    intro j
    unfold GenerateDepthPyramid.body
    simp only [PushDescriptors_withFrameResults]
  rw [pyramid_commands, pyramid_commands d]
  simp only [hb]

theorem prepare_withFrameResults (hdr : Header) (d : Driver) (a p : Int) (r : VulkanRenderer)
    (context : DrawContext) :
    DrawFrame.prepare hdr (d.withFrameResults a p) r context =
      DrawFrame.prepare hdr d r context := by
  have h : ∀ w h, RecreateSwapchain hdr (d.withFrameResults a p) r w h =
      RecreateSwapchain hdr d r w h := by
    intro w h
    rfl
  unfold DrawFrame.prepare
  simp only [h]

/-- The frame that `DrawFrame` leaves does not depend on the results of the acquire
and of the present. -/
theorem DrawFrame_withFrameResults (hdr : Header) (d : Driver) (a p : Int)
    (r : VulkanRenderer) (context : DrawContext) (swapchainIdx : Nat) :
    DrawFrame hdr (d.withFrameResults a p) r context swapchainIdx =
      DrawFrame hdr d r context swapchainIdx := by
  unfold DrawFrame
  simp only [prepare_withFrameResults, cull_withFrameResults, DrawGeometry_withFrameResults,
    pyramid_withFrameResults]

/-- A chain of refusals ends in `0` or `1`. -/
theorem ite_zero_or_one (c : Prop) [Decidable c] (x : Nat) (h : x = 0 ∨ x = 1) :
    (if c then 0 else x) = 0 ∨ (if c then 0 else x) = 1 := by
  split
  · exact Or.inl rfl
  · exact h

theorem UploadDataToGPU_zero_or_one (hdr : Header) (u : UploadDriver) (r : VulkanRenderer)
    (scene : Scene) :
    UploadDataToGPU hdr u r scene = 0 ∨ UploadDataToGPU hdr u r scene = 1 := by
  unfold UploadDataToGPU
  simp only []
  repeat' apply ite_zero_or_one
  exact Or.inr rfl

/-- A refusal followed by `x` gives `1` exactly when it does not refuse and `x` is `1`. -/
theorem ite_zero_eq_one_iff (c : Prop) [Decidable c] (x : Nat) :
    (if c then 0 else x) = 1 ↔ ¬ c ∧ x = 1 := by
  split
  · rename_i h
    exact ⟨fun h0 => absurd h0 (by decide), fun h1 => absurd h h1.1⟩
  · rename_i h
    exact ⟨fun h1 => ⟨h, h1⟩, fun h1 => h1.2⟩

/-- When `UploadDataToGPU` returns `1`: no buffer it creates has size zero, every
creation succeeds, and a texture is loaded. -/
theorem UploadDataToGPU_eq_one_iff (hdr : Header) (u : UploadDriver) (r : VulkanRenderer)
    (scene : Scene) :
    UploadDataToGPU hdr u r scene = 1 ↔
      bufferSize hdr.sizeof_Vertex scene.vertices ≠ 0 ∧
      u.bufferCreated UploadBuffer.vertexBuffer = true ∧
      bufferSize 4 scene.indices ≠ 0 ∧
      u.bufferCreated UploadBuffer.indexBuffer = true ∧
      bufferSize hdr.sizeof_RenderObject scene.pRenderObjects.length ≠ 0 ∧
      u.bufferCreated UploadBuffer.renderObjectBuffer = true ∧
      bufferSize hdr.sizeof_PrimitiveSurface scene.surfaces ≠ 0 ∧
      u.bufferCreated UploadBuffer.surfaceBuffer = true ∧
      bufferSize hdr.sizeof_Material scene.materialCount ≠ 0 ∧
      u.bufferCreated UploadBuffer.materialBuffer = true ∧
      bufferSize hdr.sizeof_MeshTransform scene.transforms ≠ 0 ∧
      u.bufferCreated UploadBuffer.transformBuffer = true ∧
      bufferSize hdr.sizeof_IndirectDrawData scene.pRenderObjects.length ≠ 0 ∧
      u.bufferCreated UploadBuffer.indirectDrawBuffer = true ∧
      (r.meshShaderSupport ≠ 0 →
        bufferSize hdr.sizeof_IndirectTaskData scene.pRenderObjects.length ≠ 0 ∧
        u.bufferCreated UploadBuffer.indirectTaskBuffer = true ∧
        bufferSize hdr.sizeof_Meshlet scene.meshlets ≠ 0 ∧
        u.bufferCreated UploadBuffer.meshletBuffer = true ∧
        bufferSize 4 scene.meshletData ≠ 0 ∧
        u.bufferCreated UploadBuffer.meshletDataBuffer = true) ∧
      u.bufferCreated UploadBuffer.indirectCountBuffer = true ∧
      bufferSize 4 scene.pRenderObjects.length ≠ 0 ∧
      u.bufferCreated UploadBuffer.visibilityBuffer = true ∧
      r.textureCount ≠ 0 ∧
      u.CreateDescriptorPool_ok = true ∧
      u.AllocateDescriptorSets_ok = true := by
  unfold UploadDataToGPU
  simp only [ite_zero_eq_one_iff]
  simp only [not_or, not_and, Bool.not_eq_true', Bool.not_eq_true, Bool.not_eq_false, ne_eq,
    and_true]

/-! ## Scene upload, swapchain rebuild, image count and surface format -/

/-- C17 (counterexample): a scene with one surface, one transform and one material,
whose only render object has the surface id 5, the transform id 7 and the material
id 9, is uploaded with the return value `1`. -/
theorem C17_out_of_range_ids_are_uploaded :
    UploadDataToGPU sampleHeader sampleUploadDriver sampleRenderer
        { sampleScene with
          pRenderObjects := [{ transformId := 7, surfaceId := 5, materialId := 9 }] } = 1 ∧
      sampleScene.surfaces = 1 ∧ sampleScene.transforms = 1 ∧ sampleScene.materialCount = 1 := by
  decide

/-- C17 (amended): `UploadDataToGPU` does not check index bounds: its return value is
`0` or `1` and does not depend on the transform, surface and material ids of the
render objects, so two scenes that differ only in these ids, with the same number of
render objects, are uploaded with the same return value. The return value is `1`
exactly when no buffer that the call creates has size zero, every buffer creation
succeeds (the mesh-shader buffers counting only with mesh-shader support), a texture
is loaded, and the texture descriptor pool and set are created. -/
theorem C17_upload_result_independent_of_ids (hdr : Header) (u : UploadDriver)
    (r : VulkanRenderer) (scene : Scene) (objects : List RenderObject)
    (hlen : objects.length = scene.pRenderObjects.length) :
    UploadDataToGPU hdr u r { scene with pRenderObjects := objects } =
        UploadDataToGPU hdr u r scene ∧
      (UploadDataToGPU hdr u r scene = 0 ∨ UploadDataToGPU hdr u r scene = 1) ∧
      (UploadDataToGPU hdr u r { scene with pRenderObjects := objects } = 1 ↔
        bufferSize hdr.sizeof_Vertex scene.vertices ≠ 0 ∧
        u.bufferCreated UploadBuffer.vertexBuffer = true ∧
        bufferSize 4 scene.indices ≠ 0 ∧
        u.bufferCreated UploadBuffer.indexBuffer = true ∧
        bufferSize hdr.sizeof_RenderObject objects.length ≠ 0 ∧
        u.bufferCreated UploadBuffer.renderObjectBuffer = true ∧
        bufferSize hdr.sizeof_PrimitiveSurface scene.surfaces ≠ 0 ∧
        u.bufferCreated UploadBuffer.surfaceBuffer = true ∧
        bufferSize hdr.sizeof_Material scene.materialCount ≠ 0 ∧
        u.bufferCreated UploadBuffer.materialBuffer = true ∧
        bufferSize hdr.sizeof_MeshTransform scene.transforms ≠ 0 ∧
        u.bufferCreated UploadBuffer.transformBuffer = true ∧
        bufferSize hdr.sizeof_IndirectDrawData objects.length ≠ 0 ∧
        u.bufferCreated UploadBuffer.indirectDrawBuffer = true ∧
        (r.meshShaderSupport ≠ 0 →
          bufferSize hdr.sizeof_IndirectTaskData objects.length ≠ 0 ∧
          u.bufferCreated UploadBuffer.indirectTaskBuffer = true ∧
          bufferSize hdr.sizeof_Meshlet scene.meshlets ≠ 0 ∧
          u.bufferCreated UploadBuffer.meshletBuffer = true ∧
          bufferSize 4 scene.meshletData ≠ 0 ∧
          u.bufferCreated UploadBuffer.meshletDataBuffer = true) ∧
        u.bufferCreated UploadBuffer.indirectCountBuffer = true ∧
        bufferSize 4 objects.length ≠ 0 ∧
        u.bufferCreated UploadBuffer.visibilityBuffer = true ∧
        r.textureCount ≠ 0 ∧
        u.CreateDescriptorPool_ok = true ∧
        u.AllocateDescriptorSets_ok = true) := by
  refine ⟨?_, UploadDataToGPU_zero_or_one hdr u r scene, ?_⟩
  · unfold UploadDataToGPU
    simp only [hlen]
  · exact UploadDataToGPU_eq_one_iff hdr u r { scene with pRenderObjects := objects }

/-- C17 (witness): the sample scene and the same scene with the ids 7, 5 and 9. -/
theorem C17_upload_result_independent_of_ids_witness :
    UploadDataToGPU sampleHeader sampleUploadDriver sampleRenderer
        { sampleScene with
          pRenderObjects := [{ transformId := 7, surfaceId := 5, materialId := 9 }] } =
      UploadDataToGPU sampleHeader sampleUploadDriver sampleRenderer sampleScene :=
  (C17_upload_result_independent_of_ids sampleHeader sampleUploadDriver sampleRenderer
    sampleScene [{ transformId := 7, surfaceId := 5, materialId := 9 }] rfl).1

/-- C18 (counterexample): with an acquire and a present that both return
`VK_ERROR_OUT_OF_DATE_KHR` and no resize reported, the renderer after two consecutive
frames still holds the swapchain handle `1` it started with, while a recreation
would have left the handle `2` of the driver's new swapchain. -/
theorem C18_out_of_date_results_schedule_no_rebuild :
    outOfDateDriver.vkAcquireNextImageKHR_result ≠ VK_SUCCESS ∧
      outOfDateDriver.vkQueuePresentKHR_result ≠ VK_SUCCESS ∧
      sampleContext.pCamera.transformData.windowResize = 0 ∧
      (runFrames sampleHeader
        [{ driver := outOfDateDriver, context := sampleContext, swapchainIdx := 0 },
         { driver := outOfDateDriver, context := sampleContext, swapchainIdx := 1 }]
        sampleRenderer).m_initHandles.swapchain = 1 ∧
      (RecreateSwapchain sampleHeader outOfDateDriver sampleRenderer 1280
        720).m_initHandles.swapchain = 2 := by
  refine ⟨by decide, by decide, rfl, ?_, rfl⟩
  have hno : sampleContext.pCamera.transformData.windowResize = 0 := rfl
  have step : ∀ (r : VulkanRenderer) (i : Nat),
      (DrawFrame sampleHeader outOfDateDriver r sampleContext i).renderer.m_initHandles =
        r.m_initHandles := by
    intro r i
    rw [(DrawFrame_renderer sampleHeader outOfDateDriver r sampleContext i).2.2.1,
      (prepare_fields sampleHeader outOfDateDriver r sampleContext).1]
    simp [hno]
  show (DrawFrame sampleHeader outOfDateDriver
    (DrawFrame sampleHeader outOfDateDriver sampleRenderer sampleContext 0).renderer
    sampleContext 1).renderer.m_initHandles.swapchain = 1
  rw [step, step]
  rfl

/-- C18 (amended): `DrawFrame` does not read the result of the swapchain image
acquire or of the present call: whatever the two calls return, the renderer and the
camera after the frame are the same, so no rebuild is scheduled; a `DrawFrame` call
recreates the swapchain exactly when the camera's windowResize flag is set, and
otherwise leaves the swapchain handles as they were. -/
theorem C18_acquire_and_present_results_are_not_read (hdr : Header) (d : Driver)
    (r : VulkanRenderer) (context : DrawContext) (swapchainIdx : Nat)
    (acquireResult presentResult : Int) :
    DrawFrame hdr (d.withFrameResults acquireResult presentResult) r context swapchainIdx =
        DrawFrame hdr d r context swapchainIdx ∧
      (DrawFrame hdr d r context swapchainIdx).renderer.m_initHandles =
        (if context.pCamera.transformData.windowResize ≠ 0 then
          (RecreateSwapchain hdr d r context.pCamera.transformData.windowWidth
            context.pCamera.transformData.windowHeight).m_initHandles
        else r.m_initHandles) := by
  refine ⟨DrawFrame_withFrameResults hdr d acquireResult presentResult r context swapchainIdx,
    ?_⟩
  rw [(DrawFrame_renderer hdr d r context swapchainIdx).2.2.1,
    (prepare_fields hdr d r context).1]

/-- C19 (counterexample): for a surface with `minImageCount = 4294967295` and
`maxImageCount = 0`, `CreateSwapchain` requests `0` images: the 32-bit sum
`minImageCount + 1` wraps to `0`, which is below `minImageCount`. -/
theorem C19_min_image_count_wraps_to_zero :
    (CreateSwapchain sampleHeader
        { sampleDriver with
          surfaceCapabilities :=
            { sampleDriver.surfaceCapabilities with
              minImageCount := 4294967295, maxImageCount := 0 } }
        sampleRenderer.m_initHandles 1280 720 0 0 0 1).swapchainInfo.map
      (fun info => info.minImageCount) = some 0 := by
  decide

/-- C19 (amended): for every surface capability with `minImageCount < 2^32 - 1`,
`CreateSwapchain` requests `minImageCount + 1` images, reduced to `maxImageCount` when
`maxImageCount` is non-zero and smaller; the requested count never exceeds a non-zero
`maxImageCount` and is never below `minImageCount` when
`minImageCount ≤ maxImageCount` or `maxImageCount = 0`. -/
theorem C19_requested_image_count (hdr : Header) (d : Driver)
    (initHandles : InitializationHandles)
    (windowWidth windowHeight graphicsQueueIndex presentQueueIndex newSwapchain
      oldSwapchain : Nat)
    (hq : d.surfaceFormatsCount_ok = true ∧ d.surfaceFormats_ok = true ∧
      d.presentModeCount_ok = true ∧ d.presentModes_ok = true ∧
      d.surfaceCapabilities_ok = true)
    (hmin : d.surfaceCapabilities.minImageCount < 2 ^ 32 - 1) :
    ∃ info : VkSwapchainCreateInfoKHR,
      (CreateSwapchain hdr d initHandles windowWidth windowHeight graphicsQueueIndex
        presentQueueIndex newSwapchain oldSwapchain).swapchainInfo = some info ∧
      info.minImageCount =
        (if d.surfaceCapabilities.maxImageCount ≠ 0 ∧
            d.surfaceCapabilities.maxImageCount < d.surfaceCapabilities.minImageCount + 1 then
          d.surfaceCapabilities.maxImageCount
        else d.surfaceCapabilities.minImageCount + 1) ∧
      (d.surfaceCapabilities.maxImageCount ≠ 0 →
        info.minImageCount ≤ d.surfaceCapabilities.maxImageCount) ∧
      (d.surfaceCapabilities.minImageCount ≤ d.surfaceCapabilities.maxImageCount ∨
          d.surfaceCapabilities.maxImageCount = 0 →
        d.surfaceCapabilities.minImageCount ≤ info.minImageCount) := by
  obtain ⟨info, h1, -, -, h4, -⟩ := CreateSwapchain_info hdr d initHandles windowWidth
    windowHeight graphicsQueueIndex presentQueueIndex newSwapchain oldSwapchain hq
  have hmod : (d.surfaceCapabilities.minImageCount + 1) % 2 ^ 32 =
      d.surfaceCapabilities.minImageCount + 1 := Nat.mod_eq_of_lt (by omega)
  have hcount : info.minImageCount =
      (if d.surfaceCapabilities.maxImageCount ≠ 0 ∧
          d.surfaceCapabilities.maxImageCount < d.surfaceCapabilities.minImageCount + 1 then
        d.surfaceCapabilities.maxImageCount
      else d.surfaceCapabilities.minImageCount + 1) := by
    rw [h4]
    unfold chooseImageCount
    simp only [hmod, Nat.pos_iff_ne_zero, gt_iff_lt]
  refine ⟨info, h1, hcount, ?_, ?_⟩
  · intro hmax
    rw [hcount]
    split <;> omega
  · intro hle
    rw [hcount]
    split <;> omega

theorem C19_requested_image_count_witness :
    ∃ info : VkSwapchainCreateInfoKHR,
      (CreateSwapchain sampleHeader sampleDriver sampleRenderer.m_initHandles 1280 720 0 0 0
        1).swapchainInfo = some info ∧ info.minImageCount = 3 := by
  obtain ⟨info, h1, h2, -, -⟩ := C19_requested_image_count sampleHeader sampleDriver
    sampleRenderer.m_initHandles 1280 720 0 0 0 1 (by decide) (by decide)
  exact ⟨info, h1, h2⟩

/-- C20: when the surface queries succeed on a non-empty list of surface formats,
`CreateSwapchain` puts (B8G8R8A8_UNORM, SRGB_NONLINEAR) in the create info if that
pair occurs in the list, and otherwise the format and colour space of the first list
entry; the format saved in the init handles is the format of the create info. -/
theorem C20_surface_format_choice (hdr : Header) (d : Driver)
    (initHandles : InitializationHandles)
    (windowWidth windowHeight graphicsQueueIndex presentQueueIndex newSwapchain
      oldSwapchain : Nat)
    (hq : d.surfaceFormatsCount_ok = true ∧ d.surfaceFormats_ok = true ∧
      d.presentModeCount_ok = true ∧ d.presentModes_ok = true ∧
      d.surfaceCapabilities_ok = true)
    (hne : d.surfaceFormats ≠ []) :
    ∃ info : VkSwapchainCreateInfoKHR,
      (CreateSwapchain hdr d initHandles windowWidth windowHeight graphicsQueueIndex
        presentQueueIndex newSwapchain oldSwapchain).swapchainInfo = some info ∧
      ((⟨VK_FORMAT_B8G8R8A8_UNORM, VK_COLOR_SPACE_SRGB_NONLINEAR_KHR⟩ : VkSurfaceFormatKHR) ∈
          d.surfaceFormats →
        info.imageFormat = VK_FORMAT_B8G8R8A8_UNORM ∧
          info.imageColorSpace = VK_COLOR_SPACE_SRGB_NONLINEAR_KHR) ∧
      ((⟨VK_FORMAT_B8G8R8A8_UNORM, VK_COLOR_SPACE_SRGB_NONLINEAR_KHR⟩ : VkSurfaceFormatKHR) ∉
          d.surfaceFormats →
        info.imageFormat = (d.surfaceFormats.head hne).format ∧
          info.imageColorSpace = (d.surfaceFormats.head hne).colorSpace) ∧
      (CreateSwapchain hdr d initHandles windowWidth windowHeight graphicsQueueIndex
        presentQueueIndex newSwapchain oldSwapchain).initHandles.swapchainFormat =
        info.imageFormat := by
  obtain ⟨info, h1, h2, h3, -, h5⟩ := CreateSwapchain_info hdr d initHandles windowWidth
    windowHeight graphicsQueueIndex presentQueueIndex newSwapchain oldSwapchain hq
  have hany : (d.surfaceFormats.any (fun f => f.format == VK_FORMAT_B8G8R8A8_UNORM &&
      f.colorSpace == VK_COLOR_SPACE_SRGB_NONLINEAR_KHR)) = true ↔
      (⟨VK_FORMAT_B8G8R8A8_UNORM, VK_COLOR_SPACE_SRGB_NONLINEAR_KHR⟩ : VkSurfaceFormatKHR) ∈
        d.surfaceFormats := by
    rw [List.any_eq_true]
    constructor
    · rintro ⟨f, hf, hc⟩
      simp only [Bool.and_eq_true, beq_iff_eq] at hc
      have : f = ⟨VK_FORMAT_B8G8R8A8_UNORM, VK_COLOR_SPACE_SRGB_NONLINEAR_KHR⟩ := by
        cases f
        simp only [VkSurfaceFormatKHR.mk.injEq]
        exact hc
      rw [← this]
      exact hf
    · intro hmem
      exact ⟨_, hmem, by simp⟩
  refine ⟨info, h1, ?_, ?_, by rw [h5, h2]⟩
  · intro hmem
    rw [h2, h3]
    unfold chooseSurfaceFormat
    rw [if_pos (hany.mpr hmem)]
    exact ⟨rfl, rfl⟩
  · intro hmem
    rw [h2, h3]
    unfold chooseSurfaceFormat
    rw [if_neg (fun h => hmem (hany.mp h))]
    obtain ⟨x, xs, hx⟩ := List.exists_cons_of_ne_nil hne
    simp [hx]

theorem C20_surface_format_choice_witness :
    ∃ info : VkSwapchainCreateInfoKHR,
      (CreateSwapchain sampleHeader sampleDriver sampleRenderer.m_initHandles 1280 720 0 0 0
        1).swapchainInfo = some info ∧
      (CreateSwapchain sampleHeader sampleDriver sampleRenderer.m_initHandles 1280 720 0 0 0
        1).initHandles.swapchainFormat = info.imageFormat := by
  obtain ⟨info, h1, -, -, h4⟩ := C20_surface_format_choice sampleHeader sampleDriver
    sampleRenderer.m_initHandles 1280 720 0 0 0 1 (by decide) (by decide)
  exact ⟨info, h1, h4⟩


/-! ## Queue create infos -/

/-- C21: for every triple of graphics, compute and present queue family indices, the
queue create infos of `CreateDevice` have pairwise distinct family indices, an index
occurs among them exactly when it is the graphics, the compute or the present index,
their number is the number of distinct values among the three, and each info requests
one queue. -/
theorem C21_queue_infos_deduplicated (hdr : Header) (chosenGpu : PhysicalDevice)
    (vkCreateDevice_ok : Bool) (graphicsQueue presentQueue computeQueue : Queue)
    (meshShaderSupport : Nat) :
    ((CreateDevice hdr chosenGpu vkCreateDevice_ok graphicsQueue presentQueue computeQueue
        meshShaderSupport).queueInfos.map (fun info => info.queueFamilyIndex)).Nodup ∧
      (∀ x, x ∈ (CreateDevice hdr chosenGpu vkCreateDevice_ok graphicsQueue presentQueue
          computeQueue meshShaderSupport).queueInfos.map (fun info => info.queueFamilyIndex) ↔
        x = graphicsQueue.index ∨ x = computeQueue.index ∨ x = presentQueue.index) ∧
      (CreateDevice hdr chosenGpu vkCreateDevice_ok graphicsQueue presentQueue computeQueue
        meshShaderSupport).queueInfos.length =
        [graphicsQueue.index, computeQueue.index, presentQueue.index].dedup.length ∧
      (∀ info ∈ (CreateDevice hdr chosenGpu vkCreateDevice_ok graphicsQueue presentQueue
          computeQueue meshShaderSupport).queueInfos, info.queueCount = 1) := by
  have hq : (CreateDevice hdr chosenGpu vkCreateDevice_ok graphicsQueue presentQueue
      computeQueue meshShaderSupport).queueInfos =
      CreateDevice.queueInfos graphicsQueue.index computeQueue.index presentQueue.index := rfl
  rw [hq]
  generalize graphicsQueue.index = g
  generalize computeQueue.index = c
  generalize presentQueue.index = p
  unfold CreateDevice.queueInfos
  by_cases hgc : g = c
  · by_cases hgp : g = p
    · subst hgc hgp
      simp
    · subst hgc
      have hpg : ¬ p = g := fun h => hgp h.symm
      simp [hgp, hpg]
  · by_cases hgp : g = p
    · subst hgp
      have hcg : ¬ c = g := fun h => hgc h.symm
      simp [hgc, hcg]
      intro x
      tauto
    · by_cases hcp : c = p
      · subst hcp
        have hcg : ¬ c = g := fun h => hgc h.symm
        simp [hgc, hcg]
      · have hcg : ¬ c = g := fun h => hgc h.symm
        have hpg : ¬ p = g := fun h => hgp h.symm
        have hpc : ¬ p = c := fun h => hcp h.symm
        simp [hgc, hgp, hcp, hcg, hpg, hpc]
/-! ## Choice of the physical device -/

/-- The second loop of `PickPhysicalDevice` on an array without a discrete GPU. -/
theorem preferDiscrete_of_no_discrete (l : List PhysicalDevice)
    (acc : Option PhysicalDevice × Nat)
    (h : ∀ d ∈ l, d.deviceType ≠ VK_PHYSICAL_DEVICE_TYPE_DISCRETE_GPU) :
    PickPhysicalDevice.preferDiscrete l acc = acc := by
  induction l generalizing acc with
  | nil => rfl
  | cons d ds ih =>
    unfold PickPhysicalDevice.preferDiscrete
    rw [if_neg (h d (List.mem_cons_self d ds))]
    exact ih acc (fun x hx => h x (List.mem_cons_of_mem d hx))

/-- The second loop of `PickPhysicalDevice` on an array with a discrete GPU. -/
theorem preferDiscrete_of_discrete (l : List PhysicalDevice)
    (acc : Option PhysicalDevice × Nat)
    (h : ∃ d ∈ l, d.deviceType = VK_PHYSICAL_DEVICE_TYPE_DISCRETE_GPU) :
    ∃ d ∈ l, d.deviceType = VK_PHYSICAL_DEVICE_TYPE_DISCRETE_GPU ∧
      PickPhysicalDevice.preferDiscrete l acc = (some d, 1) := by
  induction l generalizing acc with
  | nil =>
    obtain ⟨d, hd, -⟩ := h
    exact absurd hd (List.not_mem_nil d)
  | cons x xs ih =>
    unfold PickPhysicalDevice.preferDiscrete
    by_cases hx : x.deviceType = VK_PHYSICAL_DEVICE_TYPE_DISCRETE_GPU
    · rw [if_pos hx]
      by_cases hrest : ∃ d ∈ xs, d.deviceType = VK_PHYSICAL_DEVICE_TYPE_DISCRETE_GPU
      · obtain ⟨d, hd, hdt, heq⟩ := ih (some x, 1) hrest
        exact ⟨d, List.mem_cons_of_mem x hd, hdt, heq⟩
      · have hnone : ∀ d ∈ xs, d.deviceType ≠ VK_PHYSICAL_DEVICE_TYPE_DISCRETE_GPU :=
          fun d hd hdt => hrest ⟨d, hd, hdt⟩
        exact ⟨x, List.mem_cons_self x xs, hx,
          preferDiscrete_of_no_discrete xs (some x, 1) hnone⟩
    · rw [if_neg hx]
      have hrest : ∃ d ∈ xs, d.deviceType = VK_PHYSICAL_DEVICE_TYPE_DISCRETE_GPU := by
        obtain ⟨d, hd, hdt⟩ := h
        rcases List.mem_cons.mp hd with hdx | hdxs
        · rw [hdx] at hdt
          exact absurd hdt hx
        · exact ⟨d, hdxs, hdt⟩
      obtain ⟨d, hd, hdt, heq⟩ := ih acc hrest
      exact ⟨d, List.mem_cons_of_mem x hd, hdt, heq⟩

/-- C22: when `stats.hasDiscreteGPU` is `0` on entry, `PickPhysicalDevice` returns
`0` if and only if no device survives its first loop, and `1` otherwise; when it
returns `1`, the chosen GPU is a discrete surviving device if one of the surviving
devices is discrete, and otherwise the first surviving device. -/
theorem C22_prefers_discrete_gpu (physicalDevices : List PhysicalDevice)
    (chosenGpu : Option PhysicalDevice) (queues : Queues) (hasDiscreteGPU : Nat)
    (hfresh : hasDiscreteGPU = 0) :
    ((PickPhysicalDevice physicalDevices chosenGpu queues hasDiscreteGPU).result = 0 ↔
        (PickPhysicalDevice.filter physicalDevices queues).1 = []) ∧
      ((PickPhysicalDevice physicalDevices chosenGpu queues hasDiscreteGPU).result ≠ 0 →
        (PickPhysicalDevice physicalDevices chosenGpu queues hasDiscreteGPU).result = 1 ∧
        ((∃ d ∈ (PickPhysicalDevice.filter physicalDevices queues).1,
            d.deviceType = VK_PHYSICAL_DEVICE_TYPE_DISCRETE_GPU) →
          ∃ d ∈ (PickPhysicalDevice.filter physicalDevices queues).1,
            d.deviceType = VK_PHYSICAL_DEVICE_TYPE_DISCRETE_GPU ∧
            (PickPhysicalDevice physicalDevices chosenGpu queues hasDiscreteGPU).chosenGpu =
              some d) ∧
        ((∀ d ∈ (PickPhysicalDevice.filter physicalDevices queues).1,
            d.deviceType ≠ VK_PHYSICAL_DEVICE_TYPE_DISCRETE_GPU) →
          (PickPhysicalDevice physicalDevices chosenGpu queues hasDiscreteGPU).chosenGpu =
            (PickPhysicalDevice.filter physicalDevices queues).1.head? ∧
          (PickPhysicalDevice.filter physicalDevices queues).1.head?.isSome = true)) := by
  subst hfresh
  by_cases hzero : physicalDevices.length = 0
  · have hnil : physicalDevices = [] := List.length_eq_zero.mp hzero
    subst hnil
    unfold PickPhysicalDevice
    simp [PickPhysicalDevice.filter]
  · by_cases hs : (PickPhysicalDevice.filter physicalDevices queues).1.length = 0
    · have hnil : (PickPhysicalDevice.filter physicalDevices queues).1 = [] :=
        List.length_eq_zero.mp hs
      unfold PickPhysicalDevice
      simp [hzero, hs, hnil]
    · have hne : (PickPhysicalDevice.filter physicalDevices queues).1 ≠ [] :=
        fun h => hs (by rw [h]; rfl)
      have hres : (PickPhysicalDevice physicalDevices chosenGpu queues 0).result = 1 := by
        unfold PickPhysicalDevice
        simp [hzero, hs]
      have hch : (PickPhysicalDevice physicalDevices chosenGpu queues 0).chosenGpu =
          if (PickPhysicalDevice.preferDiscrete (PickPhysicalDevice.filter physicalDevices
              queues).1 (chosenGpu, 0)).2 = 0 then
            (PickPhysicalDevice.filter physicalDevices queues).1.head?
          else (PickPhysicalDevice.preferDiscrete (PickPhysicalDevice.filter physicalDevices
              queues).1 (chosenGpu, 0)).1 := by
        unfold PickPhysicalDevice
        simp [hzero, hs]
      refine ⟨?_, ?_⟩
      · rw [hres]
        exact ⟨fun h => absurd h (by decide), fun h => absurd h hne⟩
      · intro _
        refine ⟨hres, ?_, ?_⟩
        · intro hd
          obtain ⟨d, hd1, hd2, heq⟩ := preferDiscrete_of_discrete _ (chosenGpu, 0) hd
          refine ⟨d, hd1, hd2, ?_⟩
          rw [hch, heq]
          rfl
        · intro hnd
          rw [hch, preferDiscrete_of_no_discrete _ (chosenGpu, 0) hnd]
          refine ⟨rfl, ?_⟩
          cases hl : (PickPhysicalDevice.filter physicalDevices queues).1 with
          | nil => exact absurd hl hne
          | cons x xs => rfl

theorem C22_prefers_discrete_gpu_witness :
    (PickPhysicalDevice [integratedGpu, discreteGpu] none freshQueues 0).result = 1 ∧
      ((PickPhysicalDevice [integratedGpu, discreteGpu] none freshQueues 0).result ≠ 0 →
        (PickPhysicalDevice [integratedGpu, discreteGpu] none freshQueues 0).result = 1) :=
  ⟨by decide,
   fun h => ((C22_prefers_discrete_gpu [integratedGpu, discreteGpu] none freshQueues 0 rfl).2
      h).1⟩

/-- C29: starting with no queue index latched, on the array of an integrated GPU
(one family for graphics, compute and presentation) followed by a discrete GPU (a
transfer-only family `0`, then a family for graphics, compute and presentation),
`PickPhysicalDevice` succeeds and chooses the discrete GPU, and the graphics, compute
and present indices it records are all `0`, the indices latched on the integrated
GPU; family `0` of the chosen GPU supports none of graphics, compute and
presentation. -/
theorem C29_queue_indices_of_another_device :
    (PickPhysicalDevice [integratedGpu, discreteGpu] none freshQueues 0).result = 1 ∧
      (PickPhysicalDevice [integratedGpu, discreteGpu] none freshQueues 0).chosenGpu =
        some discreteGpu ∧
      (PickPhysicalDevice [integratedGpu, discreteGpu] none freshQueues 0).queues =
        { graphicsQueue := { index := 0, hasIndex := 1 }
          computeQueue := { index := 0, hasIndex := 1 }
          presentQueue := { index := 0, hasIndex := 1 } } ∧
      discreteGpu.queueFamilies.get? 0 =
        some { graphics := false, compute := false, supportsPresent := false } := by
  decide

/-! ## Texture upload without a result -/

/-- C30: every call of `UploadTexture` advances `textureCount` by exactly one and
assigns the placeholder sampler to the slot at the old count, whether or not the
texture image was created; the samplers of the other slots are unchanged. The
function returns no result. -/
theorem C30_UploadTexture_always_advances (u : UploadDriver) (r : VulkanRenderer) :
    (UploadTexture u r).textureCount = r.textureCount + 1 ∧
      ((UploadTexture u r).loadedTextures r.textureCount).sampler =
        some VkSampler.m_placeholderSampler ∧
      (∀ i, i ≠ r.textureCount →
        (UploadTexture u r).loadedTextures i = r.loadedTextures i) ∧
      (UploadTexture { u with CreateTextureImage_ok := false } r).textureCount =
        r.textureCount + 1 ∧
      ((UploadTexture { u with CreateTextureImage_ok := false } r).loadedTextures
        r.textureCount).sampler = some VkSampler.m_placeholderSampler := by
  unfold UploadTexture
  cases h : u.CreateTextureImage_ok <;> simp +contextual [Function.update]


/-! ## The suspended engine -/

/-- While the engine is suspended, the main loop calls `DrawFrame` for no pass and
leaves the engine as it is, apart from `isRunning`. -/
theorem loop_suspended (env : EngineEnv) (pumps : List Nat) :
    ∀ e : Engine, e.isSupended ≠ 0 →
      (Engine.Run.loop env pumps e).2 = [] ∧
        (Engine.Run.loop env pumps e).1.camera = e.camera ∧
        (Engine.Run.loop env pumps e).1.isSupended = e.isSupended := by
  induction pumps with
  | nil =>
    intro e _
    exact ⟨rfl, rfl, rfl⟩
  | cons p ps ih =>
    intro e he
    have hbody : Engine.Run.body env e p =
        { engine := if p = 0 then { e with isRunning := 0 } else e, drawFrame := none } := by
      unfold Engine.Run.body
      by_cases hp : p = 0
      · simp [hp, he]
      · simp [hp, he]
    have hs : (Engine.Run.body env e p).engine.isSupended = e.isSupended := by
      rw [hbody]
      by_cases hp : p = 0 <;> simp [hp]
    have hc : (Engine.Run.body env e p).engine.camera = e.camera := by
      rw [hbody]
      by_cases hp : p = 0 <;> simp [hp]
    have hd : (Engine.Run.body env e p).drawFrame = none := by
      rw [hbody]
    obtain ⟨h1, h2, h3⟩ := ih (Engine.Run.body env e p).engine (by rw [hs]; exact he)
    unfold Engine.Run.loop
    simp only []
    rw [h1, h2, h3, hd, hs, hc]
    exact ⟨rfl, rfl, rfl⟩

/-- C23: after `Engine::UpdateWindowSize` the engine is suspended exactly when the
new width or the new height is zero; in that case the camera is only given the resize
flag, and otherwise it is the result of `UpdateProjection` on the camera with the
flag. A suspended engine draws no frame, whatever the number of passes through the
main loop, and keeps its camera. When `UpdateProjection` and `UpdateCamera` leave the
resize flag alone, the flag is set after the call, a pass of the loop that is not
suspended calls `DrawFrame` with the flag as it was, and clears it afterwards. -/
theorem C23_suspended_iff_zero_size (env : EngineEnv) (e : Engine) (newWidth newHeight : Nat)
    (hproj : ∀ c w h,
      (env.UpdateProjection c w h).transformData.windowResize = c.transformData.windowResize)
    (hcam : ∀ c, (env.UpdateCamera c).transformData.windowResize = c.transformData.windowResize) :
    ((Engine.UpdateWindowSize env e newWidth newHeight).isSupended ≠ 0 ↔
        newWidth = 0 ∨ newHeight = 0) ∧
      (newWidth = 0 ∨ newHeight = 0 →
        (Engine.UpdateWindowSize env e newWidth newHeight).camera =
          { e.camera with transformData := { e.camera.transformData with windowResize := 1 } }) ∧
      (¬ (newWidth = 0 ∨ newHeight = 0) →
        (Engine.UpdateWindowSize env e newWidth newHeight).camera =
          env.UpdateProjection
            { e.camera with transformData := { e.camera.transformData with windowResize := 1 } }
            newWidth newHeight) ∧
      (Engine.UpdateWindowSize env e newWidth newHeight).camera.transformData.windowResize = 1 ∧
      (∀ (e2 : Engine) (pumps : List Nat), e2.isSupended ≠ 0 →
        (Engine.Run.loop env pumps e2).2 = [] ∧
          (Engine.Run.loop env pumps e2).1.camera = e2.camera ∧
          (Engine.Run.loop env pumps e2).1.isSupended = e2.isSupended) ∧
      (∀ (e2 : Engine) (pump : Nat), e2.isSupended = 0 →
        (Engine.Run.body env e2 pump).drawFrame = some (env.UpdateCamera e2.camera) ∧
          (env.UpdateCamera e2.camera).transformData.windowResize =
            e2.camera.transformData.windowResize ∧
          (Engine.Run.body env e2 pump).engine.camera.transformData.windowResize = 0) := by
  refine ⟨?_, ?_, ?_, ?_, ?_, ?_⟩
  · unfold Engine.UpdateWindowSize
    by_cases hz : newWidth = 0 ∨ newHeight = 0
    · simp [hz]
    · simp [hz]
  · intro hz
    unfold Engine.UpdateWindowSize
    simp [hz]
  · intro hz
    unfold Engine.UpdateWindowSize
    simp [hz]
  · unfold Engine.UpdateWindowSize
    by_cases hz : newWidth = 0 ∨ newHeight = 0
    · simp [hz]
    · simp [hz, hproj]
  · intro e2 pumps h2
    exact loop_suspended env pumps e2 h2
  · intro e2 pump h2
    unfold Engine.Run.body
    by_cases hp : pump = 0
    · simp [hp, h2, hcam]
    · simp [hp, h2, hcam]

theorem C23_suspended_iff_zero_size_witness :
    (Engine.UpdateWindowSize sampleEngineEnv sampleEngine 0 720).isSupended ≠ 0 ∧
      (Engine.Run.loop sampleEngineEnv [1, 1, 1]
        (Engine.UpdateWindowSize sampleEngineEnv sampleEngine 0 720)).2 = [] :=
  ⟨(C23_suspended_iff_zero_size sampleEngineEnv sampleEngine 0 720 (fun _ _ _ => rfl)
      (fun _ => rfl)).1.mpr (Or.inl rfl),
   ((C23_suspended_iff_zero_size sampleEngineEnv sampleEngine 0 720 (fun _ _ _ => rfl)
      (fun _ => rfl)).2.2.2.2.1 (Engine.UpdateWindowSize sampleEngineEnv sampleEngine 0 720)
      [1, 1, 1] (by decide)).1⟩

/-! ## The indirect draw of a draw pass -/

/-- C25: when the loader returns `vkCmdDrawMeshTasksIndirectCountEXT` whenever
mesh-shader support is latched, every `DrawGeometry` call appends to its command
buffer exactly one count-driven indirect draw, with the indirect-count buffer at
offset `0` as count buffer and `drawCount` as maximum draw count: the mesh-task draw
on the indirect-task buffer with stride `sizeof(IndirectTaskData)` if mesh-shader
support is latched, and otherwise the indexed draw on the indirect-draw buffer with
stride `sizeof(IndirectDrawData)`; the index buffer is bound once, as 32-bit. -/
theorem C25_one_count_driven_indirect_draw (hdr : Header) (d : Driver) (r : VulkanRenderer)
    (cb : VkCommandBuffer) (w : List VkWriteDescriptorSet) (drawCount latePass : Nat)
    (pipeline : VkPipeline)
    (hload : r.meshShaderSupport ≠ 0 → d.vkCmdDrawMeshTasksIndirectCountEXT_loaded = true) :
    DrawGeometry hdr d r cb w drawCount latePass pipeline =
        cb ++ DrawGeometry hdr d r [] w drawCount latePass pipeline ∧
      (DrawGeometry hdr d r [] w drawCount latePass pipeline).filter Cmd.isIndirectDraw =
        [if r.meshShaderSupport ≠ 0 then
          Cmd.vkCmdDrawMeshTasksIndirectCountEXT VkBuffer.indirectTaskBuffer
            hdr.offsetof_IndirectTaskData_drawIndirectTasks VkBuffer.indirectCountBuffer 0
            drawCount hdr.sizeof_IndirectTaskData
        else
          Cmd.vkCmdDrawIndexedIndirectCount VkBuffer.indirectDrawBuffer
            hdr.offsetof_IndirectDrawData_drawIndirect VkBuffer.indirectCountBuffer 0
            drawCount hdr.sizeof_IndirectDrawData] ∧
      (DrawGeometry hdr d r [] w drawCount latePass pipeline).filter Cmd.isBindIndexBuffer =
        [Cmd.vkCmdBindIndexBuffer VkBuffer.indexBuffer 0 VK_INDEX_TYPE_UINT32] := by
  have hp : ∀ (bp : VkPipelineBindPoint) (l : VkPipelineLayout) (s n : Nat)
      (x : List VkWriteDescriptorSet),
      (PushDescriptors d [] bp l s n x).filter Cmd.isIndirectDraw = [] ∧
      (PushDescriptors d [] bp l s n x).filter Cmd.isBindIndexBuffer = [] := by
    intro bp l s n x
    unfold PushDescriptors
    split <;> simp [Cmd.isIndirectDraw, Cmd.isBindIndexBuffer]
  refine ⟨DrawGeometry_append hdr d r cb w drawCount latePass pipeline, ?_, ?_⟩
  · unfold DrawGeometry BeginRendering
    simp only []
    rw [PushDescriptors_append]
    by_cases hm : r.meshShaderSupport = 0
    · simp [hm, List.filter_append, hp, Cmd.isIndirectDraw]
    · simp [hm, hload hm, DrawMeshTasks, List.filter_append, hp, Cmd.isIndirectDraw]
  · unfold DrawGeometry BeginRendering
    simp only []
    rw [PushDescriptors_append]
    by_cases hm : r.meshShaderSupport = 0
    · simp [hm, List.filter_append, hp, Cmd.isBindIndexBuffer]
    · simp [hm, hload hm, DrawMeshTasks, List.filter_append, hp, Cmd.isBindIndexBuffer]

theorem C25_one_count_driven_indirect_draw_witness :
    (DrawGeometry sampleHeader sampleDriver sampleRenderer []
        sampleRenderer.pushDescriptorWritesGraphics 64 0
        VkPipeline.m_opaqueGeometryPipeline).filter Cmd.isIndirectDraw =
      [Cmd.vkCmdDrawIndexedIndirectCount VkBuffer.indirectDrawBuffer 4
        VkBuffer.indirectCountBuffer 0 64 32] :=
  (C25_one_count_driven_indirect_draw sampleHeader sampleDriver sampleRenderer []
    sampleRenderer.pushDescriptorWritesGraphics 64 0 VkPipeline.m_opaqueGeometryPipeline
    (fun _ => rfl)).2.1

/-! ## Two resizes to the same extent -/

/-- The swapchain extent that `CreateSwapchain` leaves in the init handles: the
extent it was given when the format queries fail, and otherwise an extent that depends
only on the driver's answers and the window size. -/
theorem CreateSwapchain_swapchainExtent (hdr : Header) (d : Driver)
    (initHandles : InitializationHandles)
    (windowWidth windowHeight graphicsQueueIndex presentQueueIndex newSwapchain
      oldSwapchain : Nat) :
    (CreateSwapchain hdr d initHandles windowWidth windowHeight graphicsQueueIndex
        presentQueueIndex newSwapchain oldSwapchain).initHandles.swapchainExtent =
      if (!d.surfaceFormatsCount_ok || !d.surfaceFormats_ok) = true then
        initHandles.swapchainExtent
      else if (!d.presentModeCount_ok || !d.presentModes_ok) = true then
        initHandles.swapchainExtent
      else if (!d.surfaceCapabilities_ok) = true then
        { width := windowWidth, height := windowHeight }
      else chooseSwapchainExtent d.surfaceCapabilities windowWidth windowHeight := by
  unfold CreateSwapchain
  simp only []
  split_ifs <;> rfl

/-- C26: for every window extent, the renderer after two consecutive calls of
`RecreateSwapchain` with that extent, under the same answers of the driver, has the
same depth-pyramid extent, pyramid mip count, swapchain extent and draw extent as the
renderer after the first call. -/
theorem C26_resize_idempotent_on_extents (hdr : Header) (d : Driver) (r : VulkanRenderer)
    (windowWidth windowHeight : Nat) :
    (RecreateSwapchain hdr d (RecreateSwapchain hdr d r windowWidth windowHeight) windowWidth
        windowHeight).m_depthPyramidExtent =
        (RecreateSwapchain hdr d r windowWidth windowHeight).m_depthPyramidExtent ∧
      (RecreateSwapchain hdr d (RecreateSwapchain hdr d r windowWidth windowHeight) windowWidth
        windowHeight).m_depthPyramidMipLevels =
        (RecreateSwapchain hdr d r windowWidth windowHeight).m_depthPyramidMipLevels ∧
      (RecreateSwapchain hdr d (RecreateSwapchain hdr d r windowWidth windowHeight) windowWidth
        windowHeight).m_initHandles.swapchainExtent =
        (RecreateSwapchain hdr d r windowWidth windowHeight).m_initHandles.swapchainExtent ∧
      (RecreateSwapchain hdr d (RecreateSwapchain hdr d r windowWidth windowHeight) windowWidth
        windowHeight).m_drawExtent =
        (RecreateSwapchain hdr d r windowWidth windowHeight).m_drawExtent := by
  have hdraw : ∀ x : VulkanRenderer,
      (RecreateSwapchain hdr d x windowWidth windowHeight).m_drawExtent = x.m_drawExtent :=
    fun _ => rfl
  have hpyr : ∀ x : VulkanRenderer,
      (RecreateSwapchain hdr d x windowWidth windowHeight).m_depthPyramidExtent =
        (CreateDepthPyramid d x.m_drawExtent 0).depthPyramidExtent := fun _ => rfl
  have hmip : ∀ x : VulkanRenderer,
      (RecreateSwapchain hdr d x windowWidth windowHeight).m_depthPyramidMipLevels =
        (CreateDepthPyramid d x.m_drawExtent 0).depthPyramidMipLevels := fun _ => rfl
  have hext : ∀ x : VulkanRenderer,
      (RecreateSwapchain hdr d x windowWidth windowHeight).m_initHandles.swapchainExtent =
        (CreateSwapchain hdr d x.m_initHandles windowWidth windowHeight x.graphicsQueueIndex
          x.presentQueueIndex 0 x.m_initHandles.swapchain).initHandles.swapchainExtent :=
    fun _ => rfl
  refine ⟨?_, ?_, ?_, ?_⟩
  · rw [hpyr, hpyr, hdraw]
  · rw [hmip, hmip, hdraw]
  · rw [hext (RecreateSwapchain hdr d r windowWidth windowHeight), hext r,
      CreateSwapchain_swapchainExtent, CreateSwapchain_swapchainExtent, hext r,
      CreateSwapchain_swapchainExtent]
    split_ifs <;> rfl
  · rw [hdraw]

/-! ## Workgroups of the culling dispatch -/

/-- C27: for every 32-bit `drawCount`, the culling dispatch is recorded with
`drawCount / 64 + 1` workgroups in x, a number below `2^32`; with 64 invocations per
group they cover every object index, `64 * (drawCount / 64 + 1) > drawCount`; and
the number exceeds `⌈drawCount / 64⌉` by exactly one when `drawCount` is a multiple of
64 and equals it otherwise. -/
theorem C27_workgroup_count_covers_draw_count (d : Driver) (r : VulkanRenderer)
    (pipeline : VkPipeline) (n drawCount lateCulling postPass bOcclusionEnabled bLODs : Nat)
    (hdc : drawCount < 2 ^ 32) :
    (DispatchRenderObjectCullingComputeShader d r [] pipeline n drawCount lateCulling postPass
        bOcclusionEnabled bLODs).2.filter Cmd.isDispatch =
        [Cmd.vkCmdDispatch (drawCount / 64 + 1) 1 1] ∧
      drawCount / 64 + 1 < 2 ^ 32 ∧
      64 * (drawCount / 64 + 1) > drawCount ∧
      (drawCount / 64 + 1 = (drawCount + 63) / 64 + 1 ↔ drawCount % 64 = 0) ∧
      (drawCount % 64 ≠ 0 → drawCount / 64 + 1 = (drawCount + 63) / 64) := by
  have hmod : (drawCount / 64 + 1) % 2 ^ 32 = drawCount / 64 + 1 :=
    Nat.mod_eq_of_lt (by omega)
  refine ⟨?_, by omega, by omega, by omega, by omega⟩
  rw [cull_commands]
  simp only [List.filter_append, PushDescriptors_filter_isDispatch, List.append_nil,
    List.nil_append, hmod]
  rfl

theorem C27_workgroup_count_covers_draw_count_witness :
    (DispatchRenderObjectCullingComputeShader sampleDriver sampleRenderer []
        VkPipeline.m_initialDrawCullPipeline 8 128 0 0 1 1).2.filter Cmd.isDispatch =
      [Cmd.vkCmdDispatch (128 / 64 + 1) 1 1] ∧ 64 * (128 / 64 + 1) > 128 :=
  ⟨(C27_workgroup_count_covers_draw_count sampleDriver sampleRenderer
      VkPipeline.m_initialDrawCullPipeline 8 128 0 0 1 1 (by norm_num)).1,
   (C27_workgroup_count_covers_draw_count sampleDriver sampleRenderer
      VkPipeline.m_initialDrawCullPipeline 8 128 0 0 1 1 (by norm_num)).2.2.1⟩


/-! ## Image layouts in the commands of a frame -/

/-- The fill and the dispatch of a culling dispatch. -/
theorem cull_fill_and_dispatch (d : Driver) (r : VulkanRenderer) (p : VkPipeline)
    (n dc lc pp o l : Nat) :
    (DispatchRenderObjectCullingComputeShader d r [] p n dc lc pp o l).2.filter
        Cmd.isFillOrDispatch =
        [Cmd.vkCmdFillBuffer VkBuffer.indirectCountBuffer 0 4 0,
         Cmd.vkCmdDispatch ((dc / 64 + 1) % 2 ^ 32) 1 1] ∧
      (DispatchRenderObjectCullingComputeShader d r [] p n dc lc pp o l).2.filter
        Cmd.isIndirectDraw = [] := by
  have hp : ∀ (bp : VkPipelineBindPoint) (l : VkPipelineLayout) (s n : Nat)
      (x : List VkWriteDescriptorSet),
      (PushDescriptors d [] bp l s n x).filter Cmd.isFillOrDispatch = [] ∧
      (PushDescriptors d [] bp l s n x).filter Cmd.isIndirectDraw = [] := by
    intro bp l s n x
    unfold PushDescriptors
    split <;> simp [Cmd.isFillOrDispatch, Cmd.isIndirectDraw]
  rw [cull_commands]
  constructor
  · simp [List.filter_append, hp, Cmd.isFillOrDispatch]
  · simp [List.filter_append, hp, Cmd.isIndirectDraw]

/-- The indirect draw of a draw pass: none when mesh-shader support is latched and
the loader has no mesh-task draw, and otherwise one, with `drawCount` as maximum draw
count. -/
theorem DrawGeometry_indirectDraw (hdr : Header) (d : Driver) (r : VulkanRenderer)
    (w : List VkWriteDescriptorSet) (drawCount latePass : Nat) (pipeline : VkPipeline) :
    (DrawGeometry hdr d r [] w drawCount latePass pipeline).filter Cmd.isIndirectDraw =
        (if r.meshShaderSupport ≠ 0 then
          (if d.vkCmdDrawMeshTasksIndirectCountEXT_loaded = true then
            [Cmd.vkCmdDrawMeshTasksIndirectCountEXT VkBuffer.indirectTaskBuffer
              hdr.offsetof_IndirectTaskData_drawIndirectTasks VkBuffer.indirectCountBuffer 0
              drawCount hdr.sizeof_IndirectTaskData]
          else [])
        else
          [Cmd.vkCmdDrawIndexedIndirectCount VkBuffer.indirectDrawBuffer
            hdr.offsetof_IndirectDrawData_drawIndirect VkBuffer.indirectCountBuffer 0
            drawCount hdr.sizeof_IndirectDrawData]) ∧
      (DrawGeometry hdr d r [] w drawCount latePass pipeline).filter Cmd.isFillOrDispatch =
        [] := by
  have hp : ∀ (bp : VkPipelineBindPoint) (l : VkPipelineLayout) (s n : Nat)
      (x : List VkWriteDescriptorSet),
      (PushDescriptors d [] bp l s n x).filter Cmd.isFillOrDispatch = [] ∧
      (PushDescriptors d [] bp l s n x).filter Cmd.isIndirectDraw = [] := by
    intro bp l s n x
    unfold PushDescriptors
    split <;> simp [Cmd.isFillOrDispatch, Cmd.isIndirectDraw]
  unfold DrawGeometry BeginRendering
  simp only []
  rw [PushDescriptors_append]
  by_cases hm : r.meshShaderSupport = 0
  · simp [hm, List.filter_append, hp, Cmd.isIndirectDraw, Cmd.isFillOrDispatch]
  · by_cases hl : d.vkCmdDrawMeshTasksIndirectCountEXT_loaded = true
    · simp [hm, hl, DrawMeshTasks, List.filter_append, hp, Cmd.isIndirectDraw,
        Cmd.isFillOrDispatch]
    · simp [hm, hl, DrawMeshTasks, List.filter_append, hp, Cmd.isIndirectDraw,
        Cmd.isFillOrDispatch]

/-- The commands of a frame start with the early culling dispatch, the viewport and
scissor, one more command that is no fill, dispatch or indirect draw, and the early
draw pass. -/
theorem frame_commands_early (hdr : Header) (d : Driver) (r : VulkanRenderer)
    (context : DrawContext) (swapchainIdx : Nat) :
    ∃ (b : Cmd) (rest : List Cmd),
      frameCommands hdr d r context swapchainIdx =
        (DispatchRenderObjectCullingComputeShader d (DrawFrame.prepare hdr d r context).1 []
          VkPipeline.m_initialDrawCullPipeline
          (DrawFrame.prepare hdr d r context).1.pushDescriptorWritesCompute.length
          context.drawCount 0 0 context.bOcclusionCulling context.bLOD).2 ++
        (DefineViewportAndScissor [] (DrawFrame.prepare hdr d r context).1.m_drawExtent ++ [b]) ++
        DrawGeometry hdr d (DrawFrame.prepare hdr d r context).1 []
          (DrawFrame.prepare hdr d r context).1.pushDescriptorWritesGraphics
          context.drawCount 0 VkPipeline.m_opaqueGeometryPipeline ++ rest ∧
      b.isFillOrDispatch = false ∧ b.isIndirectDraw = false := by
  rw [frame_commands]
  exact ⟨_, _, by simp only [List.append_assoc]; rfl, by rfl, by rfl⟩

/-- The upload of a scene without render objects fails. -/
theorem UploadDataToGPU_of_no_render_objects (hdr : Header) (u : UploadDriver)
    (r : VulkanRenderer) (scene : Scene) (hempty : scene.pRenderObjects = []) :
    UploadDataToGPU hdr u r scene = 0 := by
  unfold UploadDataToGPU
  simp only [hempty, List.length_nil, bufferSize, Nat.mul_zero, Nat.zero_mod, if_true]
  split_ifs <;> rfl

/-- C24 (counterexample): the upload of the sample scene without its render object
returns `0`, and `SetupForRendering` returns `0` with it, although every creation
succeeds and a texture is loaded. -/
theorem C24_empty_scene_upload_fails :
    UploadDataToGPU sampleHeader sampleUploadDriver sampleRenderer
        { sampleScene with pRenderObjects := [] } = 0 ∧
      (SetupForRendering sampleHeader sampleUploadDriver sampleSetupSteps sampleRenderer
        { sampleScene with pRenderObjects := [] } 0 0).result = 0 ∧
      UploadDataToGPU sampleHeader sampleUploadDriver sampleRenderer sampleScene = 1 := by
  decide

/-- C24 (amended): with zero render objects `UploadDataToGPU` returns `0`, and
`SetupForRendering` returns `0` with it. A `DrawFrame` call with `drawCount = 0`
records first the early culling dispatch, in which the 4 bytes of the indirect-count
buffer are filled with zero before the one dispatch, of 1 workgroup; then commands
that are no fill, dispatch or indirect draw; then the early draw pass, whose indirect
draw, if the loader has the draw command of the latched path, has the maximum draw
count `0`. -/
theorem C24_empty_scene_is_refused (hdr : Header) (u : UploadDriver) (s : SetupSteps)
    (d : Driver) (r : VulkanRenderer) (scene : Scene) (pyramidWidth pyramidHeight : Nat)
    (context : DrawContext) (swapchainIdx : Nat)
    (hempty : scene.pRenderObjects = []) (hdc : context.drawCount = 0) :
    UploadDataToGPU hdr u r scene = 0 ∧
      (SetupForRendering hdr u s r scene pyramidWidth pyramidHeight).result = 0 ∧
      ∃ cull mid draw rest : List Cmd,
        frameCommands hdr d r context swapchainIdx = cull ++ mid ++ draw ++ rest ∧
        cull.filter Cmd.isFillOrDispatch =
          [Cmd.vkCmdFillBuffer VkBuffer.indirectCountBuffer 0 4 0, Cmd.vkCmdDispatch 1 1 1] ∧
        cull.filter Cmd.isIndirectDraw = [] ∧
        mid.filter Cmd.isFillOrDispatch = [] ∧ mid.filter Cmd.isIndirectDraw = [] ∧
        draw.filter Cmd.isFillOrDispatch = [] ∧
        draw.filter Cmd.isIndirectDraw =
          (if (DrawFrame.prepare hdr d r context).1.meshShaderSupport ≠ 0 then
            (if d.vkCmdDrawMeshTasksIndirectCountEXT_loaded = true then
              [Cmd.vkCmdDrawMeshTasksIndirectCountEXT VkBuffer.indirectTaskBuffer
                hdr.offsetof_IndirectTaskData_drawIndirectTasks VkBuffer.indirectCountBuffer 0
                0 hdr.sizeof_IndirectTaskData]
            else [])
          else
            [Cmd.vkCmdDrawIndexedIndirectCount VkBuffer.indirectDrawBuffer
              hdr.offsetof_IndirectDrawData_drawIndirect VkBuffer.indirectCountBuffer 0
              0 hdr.sizeof_IndirectDrawData]) := by
  have hup := UploadDataToGPU_of_no_render_objects hdr u r scene hempty
  refine ⟨hup, ?_, ?_⟩
  · unfold SetupForRendering
    simp only [hup, if_true]
    split_ifs <;> rfl
  · have hc := cull_fill_and_dispatch d (DrawFrame.prepare hdr d r context).1
      VkPipeline.m_initialDrawCullPipeline
      (DrawFrame.prepare hdr d r context).1.pushDescriptorWritesCompute.length
      0 0 0 context.bOcclusionCulling context.bLOD
    have hg := DrawGeometry_indirectDraw hdr d (DrawFrame.prepare hdr d r context).1
      (DrawFrame.prepare hdr d r context).1.pushDescriptorWritesGraphics 0 0
      VkPipeline.m_opaqueGeometryPipeline
    obtain ⟨b, rest, hfc, hb1, hb2⟩ := frame_commands_early hdr d r context swapchainIdx
    rw [hdc] at hfc
    refine ⟨_, _, _, rest, hfc, hc.1, hc.2, ?_, ?_, hg.2, hg.1⟩
    · have hv : (DefineViewportAndScissor []
          (DrawFrame.prepare hdr d r context).1.m_drawExtent).filter Cmd.isFillOrDispatch = [] := by
        simp [DefineViewportAndScissor, Cmd.isFillOrDispatch]
      rw [List.filter_append, hv]
      simp only [List.filter_cons, hb1, List.filter_nil, List.nil_append]
      rfl
    · have hv : (DefineViewportAndScissor []
          (DrawFrame.prepare hdr d r context).1.m_drawExtent).filter Cmd.isIndirectDraw = [] := by
        simp [DefineViewportAndScissor, Cmd.isIndirectDraw]
      rw [List.filter_append, hv]
      simp only [List.filter_cons, hb2, List.filter_nil, List.nil_append]
      rfl

theorem C24_empty_scene_is_refused_witness :
    UploadDataToGPU sampleHeader sampleUploadDriver sampleRenderer
        { sampleScene with pRenderObjects := [] } = 0 :=
  (C24_empty_scene_is_refused sampleHeader sampleUploadDriver sampleSetupSteps sampleDriver
    sampleRenderer { sampleScene with pRenderObjects := [] } 0 0
    { sampleContext with drawCount := 0 } 0 rfl rfl).1

end BlitzenVulkan
